import Mathlib

/-!
The osm-gis-export repository: a shallow embedding of the four converters.

The repository holds four command line tools (`osm_gis_export_overview`,
`osmium_toogr`, `osmium_toogr2`, `osmium_toogr2_exp`).  Each tool is a `main`
function plus a handler class `MyOGRHandler` whose callbacks `node`, `way`
and `area` turn OSM objects into features of GIS layers.

Conventions of the embedding:

* `std::string` and C strings are `String`; positions are indices into the
  list of characters, `std::string::npos` is `none`.
* OSM ids (`osmium::object_id_type`, a signed 64 bit integer) are `Int`.
* A C++ function that may throw returns `Except Exn _`.
* The OSM reader, the geometry factory and the GIS writer are external
  libraries.  The factory is a parameter (`OGRFactory`), what the reader
  delivers is a parameter of `main`, and a layer is the list of the features
  added to it.
-/

set_option autoImplicit false

namespace OsmGisExport

/-! ## Exceptions -/

/-- The exceptions of the embedding, all derived from `std::exception`.
`geometry_error` is `osmium::geometry_error`, `out_of_range` is
`std::out_of_range`, `other` is any other exception class; the argument is
the text returned by `what()`. -/
inductive Exn where
  | geometry_error (what : String)
  | out_of_range (what : String)
  | other (what : String)
  deriving DecidableEq, Repr

/-- The text of `e.what()`. -/
def Exn.what : Exn → String
  | .geometry_error w => w
  | .out_of_range w => w
  | .other w => w

/-! ## `std::string` operations used by the tools -/

/-- Scan for `std::string::rfind(char)` on the list of characters: position
of the last occurrence of `c`, `none` for `npos`. -/
def rfindAux : List Char → Char → Option Nat
  | [], _ => none
  | x :: xs, c =>
    match rfindAux xs c with
    | some i => some (i + 1)
    | none => if x = c then some 0 else none

/-- Scan for `std::string::find(char)` on the list of characters: position
of the first occurrence of `c`, `none` for `npos`. -/
def findAux : List Char → Char → Option Nat
  | [], _ => none
  | x :: xs, c => if x = c then some 0 else (findAux xs c).map (· + 1)

/-- The member `std::string::rfind(char)`. -/
def rfind (s : String) (c : Char) : Option Nat := rfindAux s.data c

/-- The member `std::string::find(char)`. -/
def find (s : String) (c : Char) : Option Nat := findAux s.data c

/-- The member `std::string::substr(pos)`: throws `std::out_of_range` when
`pos > size()`, otherwise the characters from `pos` to the end. -/
def substr (s : String) (pos : Nat) : Except Exn String :=
  if pos > s.length then .error (.out_of_range "basic_string::substr")
  else .ok ⟨s.data.drop pos⟩

/-- The member `std::string::erase(pos)`: throws `std::out_of_range` when
`pos > size()`, otherwise keeps the characters before `pos`. -/
def erase (s : String) (pos : Nat) : Except Exn String :=
  if pos > s.length then .error (.out_of_range "basic_string::erase")
  else .ok ⟨s.data.take pos⟩

namespace osm_gis_export_overview

/-- Lines 210-221 of `main`: the output filename derived from the input
filename when `--output` is absent. -/
def derive_output_filename (input_filename : String) : Except Exn String :=
  let slash : Nat :=
    match rfind input_filename '/' with
    | none => 0
    | some i => i + 1
  match substr input_filename slash with
  | .error e => .error e
  | .ok output_filename =>
    match find output_filename '.' with
    | some dot =>
      match erase output_filename dot with
      | .error e => .error e
      | .ok erased => .ok (erased ++ ".db")
    | none => .ok (output_filename ++ ".db")

/-- Lines 207-222 of `main`: `output` is `vm["output"]` when
`vm.count("output")` is non-zero. -/
def output_filename (output : Option String) (input_filename : String) :
    Except Exn String :=
  match output with
  | some o => .ok o
  | none => derive_output_filename input_filename

end osm_gis_export_overview

/-! ## OSM objects -/

/-- One tag of an OSM object (`osmium::Tag`). -/
structure Tag where
  key : String
  value : String
  deriving DecidableEq, Repr

/-- The lookup `osmium::TagList::get_value_by_key(key)`, also written
`tags()[key]`: the value of the first tag whose key equals `key`, `none` for
the null pointer returned when there is no such tag. -/
def get_value_by_key (tags : List Tag) (key : String) : Option String :=
  match tags with
  | [] => none
  | t :: ts => if t.key = key then some t.value else get_value_by_key ts key

/-- What the tools read of an `osmium::OSMObject`: id, tags and metadata.
`timestamp_iso` is the text of `timestamp().to_iso()`. -/
structure OSMObject where
  id : Int
  tags : List Tag
  version : Nat
  changeset : Nat
  timestamp_iso : String
  uid : Nat
  user : String
  deriving DecidableEq, Repr

/-- An assembled area (`osmium::Area`) with its accessors `from_way()` and
`orig_id()`. -/
structure Area extends OSMObject where
  from_way : Bool
  orig_id : Int
  deriving DecidableEq, Repr

/-- The objects `osmium::apply` hands to a handler, in stream order. -/
inductive Item where
  | node (n : OSMObject)
  | way (w : OSMObject)
  | relation (r : OSMObject)
  | area (a : Area)
  deriving DecidableEq, Repr

/-! ## Geometry factory and GIS writer -/

/-- An OGR geometry built by the factory; its content is not inspected. -/
structure Geometry where
  wkt : String
  deriving DecidableEq, Repr

/-- The member functions of `osmium::geom::OGRFactory` the handlers call.
Each may throw. -/
structure OGRFactory where
  create_point : OSMObject → Except Exn Geometry
  create_linestring : OSMObject → Except Exn Geometry
  create_multipolygon : Area → Except Exn Geometry

inductive OGRFieldType where
  | OFTInteger
  | OFTReal
  | OFTString
  deriving DecidableEq, Repr

inductive OGRwkbGeometryType where
  | wkbPoint
  | wkbLineString
  | wkbMultiPolygon
  deriving DecidableEq, Repr

/-- A value handed to `gdalcpp::Feature::set_field`.  `int32 v` is an
`int32_t`, `double_of_int64 v` is the `double` obtained by converting the
64 bit integer `v`, `c_str v` is a `const char*` (`none` for the null
pointer). -/
inductive FieldValue where
  | int32 (v : Int)
  | double_of_int64 (v : Int)
  | c_str (v : Option String)
  deriving DecidableEq, Repr

/-- A `gdalcpp::Feature`: its geometry and the fields set on it, in the
order of the `set_field` calls. -/
structure Feature where
  geometry : Geometry
  fields : List (String × FieldValue)
  deriving DecidableEq, Repr

/-- The member `gdalcpp::Feature::set_field(name, value)`. -/
def Feature.set_field (feature : Feature) (name : String) (v : FieldValue) : Feature :=
  { feature with fields := feature.fields ++ [(name, v)] }

/-- A `gdalcpp::Layer`: name, geometry type, creation options, the fields
declared with `add_field` and the features added so far. -/
structure Layer where
  name : String
  type : OGRwkbGeometryType
  options : List String
  fields : List (String × OGRFieldType × Nat)
  features : List Feature
  deriving DecidableEq, Repr

/-- The constructor `gdalcpp::Layer(dataset, name, type, options)`. -/
def Layer.create (name : String) (type : OGRwkbGeometryType) (options : List String) :
    Layer :=
  { name := name, type := type, options := options, fields := [], features := [] }

/-- The member `gdalcpp::Layer::add_field(name, type, width)`. -/
def Layer.add_field (layer : Layer) (name : String) (type : OGRFieldType) (width : Nat) :
    Layer :=
  { layer with fields := layer.fields ++ [(name, type, width)] }

/-- The effect of `feature.add_to_layer()` on the layer of the feature. -/
def Layer.create_feature (layer : Layer) (feature : Feature) : Layer :=
  { layer with features := layer.features ++ [feature] }

/-- The conversion `int32_t(x)` of an integer to 32 bits, two's complement. -/
def int32_t (x : Int) : Int := (x + 2 ^ 31) % 2 ^ 32 - 2 ^ 31

/-- The member `std::string::pop_back()`. -/
def pop_back (s : String) : String := ⟨s.data.dropLast⟩

namespace osm_gis_export_overview

structure config where
  add_untagged_nodes : Bool := false
  add_metadata : Bool := false
  verbose : Bool := false
  deriving DecidableEq, Repr

def max_length_tags : Nat := 200

/-- The class `MyOGRHandler` of osm_gis_export_overview.cpp. -/
structure MyOGRHandler where
  m_cfg : config
  m_layer_point : Layer
  m_layer_linestring : Layer
  m_layer_multipolygon : Layer
  deriving DecidableEq, Repr

/-- The handler together with the standard error stream it writes to. -/
structure State where
  handler : MyOGRHandler
  cerr : List String
  deriving DecidableEq, Repr

/-- Which member layer a feature was constructed on. -/
inductive LayerRef where
  | m_layer_point
  | m_layer_linestring
  | m_layer_multipolygon
  deriving DecidableEq, Repr

def add_metadata_fields (layer : Layer) : Layer :=
  let layer := layer.add_field "version" .OFTInteger 7
  let layer := layer.add_field "changeset" .OFTInteger 7
  let layer := layer.add_field "timestamp" .OFTString 20
  let layer := layer.add_field "uid" .OFTInteger 7
  layer.add_field "user" .OFTString 256

def add_metadata (feature : Feature) (object : OSMObject) : Feature :=
  let feature := feature.set_field "version" (.int32 (int32_t object.version))
  let feature := feature.set_field "changeset" (.int32 (int32_t object.changeset))
  let feature := feature.set_field "timestamp" (.c_str (some object.timestamp_iso))
  let feature := feature.set_field "uid" (.int32 (int32_t object.uid))
  feature.set_field "user" (.c_str (some object.user))

/-- The string built by the loop of `add_tags` (lines 64-70). -/
def tags_loop (tags : String) : List Tag → String
  | [] => tags
  | tag :: rest => tags_loop (tags ++ tag.key ++ "=" ++ tag.value ++ ",") rest

def add_tags (feature : Feature) (object : OSMObject) : Feature :=
  let tags := tags_loop "" object.tags
  let tags := if tags.data ≠ [] then pop_back tags else tags
  feature.set_field "tags" (.c_str (some tags))

/-- The effect of `feature.add_to_layer()`; `layer` names the member layer
the feature was constructed on. -/
def add_to_layer (h : MyOGRHandler) (layer : LayerRef) (feature : Feature) :
    MyOGRHandler :=
  match layer with
  | .m_layer_point => { h with m_layer_point := h.m_layer_point.create_feature feature }
  | .m_layer_linestring =>
    { h with m_layer_linestring := h.m_layer_linestring.create_feature feature }
  | .m_layer_multipolygon =>
    { h with m_layer_multipolygon := h.m_layer_multipolygon.create_feature feature }

def add_feature (h : MyOGRHandler) (layer : LayerRef) (feature : Feature)
    (object : OSMObject) : MyOGRHandler :=
  let feature := if h.m_cfg.add_metadata then add_metadata feature object else feature
  let feature := add_tags feature object
  add_to_layer h layer feature

/-- The constructor of `MyOGRHandler` (lines 87-108). -/
def MyOGRHandler.create (cfg : config) : MyOGRHandler :=
  let m_layer_point := Layer.create "points" .wkbPoint ["SPATIAL_INDEX=NO"]
  let m_layer_linestring := Layer.create "lines" .wkbLineString ["SPATIAL_INDEX=NO"]
  let m_layer_multipolygon := Layer.create "areas" .wkbMultiPolygon ["SPATIAL_INDEX=NO"]
  let m_layer_point := m_layer_point.add_field "id" .OFTReal 10
  let m_layer_linestring := m_layer_linestring.add_field "id" .OFTInteger 7
  let m_layer_multipolygon := m_layer_multipolygon.add_field "id" .OFTInteger 7
  let m_layer_point := m_layer_point.add_field "tags" .OFTString max_length_tags
  let m_layer_linestring := m_layer_linestring.add_field "tags" .OFTString max_length_tags
  let m_layer_multipolygon :=
    m_layer_multipolygon.add_field "tags" .OFTString max_length_tags
  if cfg.add_metadata then
    { m_cfg := cfg,
      m_layer_point := add_metadata_fields m_layer_point,
      m_layer_linestring := add_metadata_fields m_layer_linestring,
      m_layer_multipolygon := add_metadata_fields m_layer_multipolygon }
  else
    { m_cfg := cfg,
      m_layer_point := m_layer_point,
      m_layer_linestring := m_layer_linestring,
      m_layer_multipolygon := m_layer_multipolygon }

/-- The callback `MyOGRHandler::node` (lines 110-116). -/
def node (F : OGRFactory) (s : State) (node : OSMObject) : Except Exn State :=
  if s.handler.m_cfg.add_untagged_nodes || !node.tags.isEmpty then
    match F.create_point node with
    | .error e => .error e
    | .ok point =>
      let feature : Feature := { geometry := point, fields := [] }
      let feature := feature.set_field "id" (.double_of_int64 node.id)
      .ok { s with handler := add_feature s.handler .m_layer_point feature node }
  else
    .ok s

/-- The callback `MyOGRHandler::way` (lines 118-126). -/
def way (F : OGRFactory) (s : State) (way : OSMObject) : Except Exn State :=
  match F.create_linestring way with
  | .ok linestring =>
    let feature : Feature := { geometry := linestring, fields := [] }
    let feature := feature.set_field "id" (.int32 (int32_t way.id))
    .ok { s with handler := add_feature s.handler .m_layer_linestring feature way }
  | .error (.geometry_error _) =>
    .ok { s with
      cerr := s.cerr ++ ["Ignoring illegal geometry for way " ++ toString way.id ++ ".\n"] }
  | .error e => .error e

/-- The callback `MyOGRHandler::area` (lines 128-141). -/
def area (F : OGRFactory) (s : State) (area : Area) : Except Exn State :=
  match F.create_multipolygon area with
  | .ok multipolygon =>
    let feature : Feature := { geometry := multipolygon, fields := [] }
    let feature := feature.set_field "id" (.int32 (int32_t area.id))
    .ok { s with
      handler := add_feature s.handler .m_layer_multipolygon feature area.toOSMObject }
  | .error (.geometry_error _) =>
    .ok { s with
      cerr := s.cerr ++ ["Ignoring illegal geometry for area "
        ++ toString area.id
        ++ " created from "
        ++ (if area.from_way then "way" else "relation")
        ++ " with id="
        ++ toString area.orig_id ++ ".\n"] }
  | .error e => .error e

/-- One step of `osmium::apply`: dispatch of an object to the callback of its
type; `relation` is the empty callback of `osmium::handler::Handler`. -/
def handle (F : OGRFactory) (s : State) : Item → Except Exn State
  | .node n => node F s n
  | .way w => way F s w
  | .relation _ => .ok s
  | .area a => area F s a

/-- The loop of `osmium::apply` over the objects of the input: it ends at the
first exception that leaves a callback.  The result is the state reached and
that exception, if any. -/
def apply (F : OGRFactory) : State → List Item → State × Option Exn
  | s, [] => (s, none)
  | s, item :: rest =>
    match handle F s item with
    | .ok s' => apply F s' rest
    | .error e => (s, some e)

end osm_gis_export_overview

namespace osmium_toogr

/-- The class `MyOGRHandler` of osmium_toogr.cpp; it has no area layer. -/
structure MyOGRHandler where
  m_layer_point : Layer
  m_layer_linestring : Layer
  deriving DecidableEq, Repr

/-- The handler together with the standard error stream it writes to. -/
structure State where
  handler : MyOGRHandler
  cerr : List String
  deriving DecidableEq, Repr

/-- The constructor of `MyOGRHandler` (lines 33-42). -/
def MyOGRHandler.create : MyOGRHandler :=
  let m_layer_point := Layer.create "postboxes" .wkbPoint []
  let m_layer_linestring := Layer.create "roads" .wkbLineString []
  let m_layer_point := m_layer_point.add_field "id" .OFTReal 10
  let m_layer_point := m_layer_point.add_field "operator" .OFTString 30
  let m_layer_linestring := m_layer_linestring.add_field "id" .OFTReal 10
  let m_layer_linestring := m_layer_linestring.add_field "type" .OFTString 30
  { m_layer_point := m_layer_point, m_layer_linestring := m_layer_linestring }

/-- The callback `MyOGRHandler::node` (lines 44-52). -/
def node (F : OGRFactory) (s : State) (node : OSMObject) : Except Exn State :=
  let amenity := get_value_by_key node.tags "amenity"
  match amenity with
  | none => .ok s
  | some amenity =>
    if amenity = "post_box" then
      match F.create_point node with
      | .error e => .error e
      | .ok point =>
        let feature : Feature := { geometry := point, fields := [] }
        let feature := feature.set_field "id" (.double_of_int64 node.id)
        let feature :=
          feature.set_field "operator" (.c_str (get_value_by_key node.tags "operator"))
        .ok { s with handler :=
          { s.handler with m_layer_point := s.handler.m_layer_point.create_feature feature } }
    else
      .ok s

/-- The callback `MyOGRHandler::way` (lines 54-66). -/
def way (F : OGRFactory) (s : State) (way : OSMObject) : Except Exn State :=
  let highway := get_value_by_key way.tags "highway"
  match highway with
  | none => .ok s
  | some highway =>
    match F.create_linestring way with
    | .ok linestring =>
      let feature : Feature := { geometry := linestring, fields := [] }
      let feature := feature.set_field "id" (.double_of_int64 way.id)
      let feature := feature.set_field "type" (.c_str (some highway))
      .ok { s with handler :=
        { s.handler with
          m_layer_linestring := s.handler.m_layer_linestring.create_feature feature } }
    | .error (.geometry_error _) =>
      .ok { s with
        cerr := s.cerr ++ ["Ignoring illegal geometry for way " ++ toString way.id ++ ".\n"] }
    | .error e => .error e

/-- One step of `osmium::apply`: dispatch of an object to the callback of its
type; the class defines no `relation` and no `area` callback, so the empty
ones of `osmium::handler::Handler` run. -/
def handle (F : OGRFactory) (s : State) : Item → Except Exn State
  | .node n => node F s n
  | .way w => way F s w
  | .relation _ => .ok s
  | .area _ => .ok s

/-- The loop of `osmium::apply` over the objects of the input: it ends at the
first exception that leaves a callback.  The result is the state reached and
that exception, if any. -/
def apply (F : OGRFactory) : State → List Item → State × Option Exn
  | s, [] => (s, none)
  | s, item :: rest =>
    match handle F s item with
    | .ok s' => apply F s' rest
    | .error e => (s, some e)

end osmium_toogr

namespace osmium_toogr2

/-- The class `MyOGRHandler` of osmium_toogr2.cpp. -/
structure MyOGRHandler where
  m_layer_point : Layer
  m_layer_linestring : Layer
  m_layer_polygon : Layer
  deriving DecidableEq, Repr

/-- The handler together with the standard error stream it writes to. -/
structure State where
  handler : MyOGRHandler
  cerr : List String
  deriving DecidableEq, Repr

/-- The constructor of `MyOGRHandler` (lines 45-59). -/
def MyOGRHandler.create : MyOGRHandler :=
  let m_layer_point := Layer.create "postboxes" .wkbPoint []
  let m_layer_linestring := Layer.create "roads" .wkbLineString []
  let m_layer_polygon := Layer.create "buildings" .wkbMultiPolygon []
  let m_layer_point := m_layer_point.add_field "id" .OFTReal 10
  let m_layer_point := m_layer_point.add_field "operator" .OFTString 30
  let m_layer_linestring := m_layer_linestring.add_field "id" .OFTReal 10
  let m_layer_linestring := m_layer_linestring.add_field "type" .OFTString 30
  let m_layer_polygon := m_layer_polygon.add_field "id" .OFTReal 10
  let m_layer_polygon := m_layer_polygon.add_field "type" .OFTString 30
  { m_layer_point := m_layer_point,
    m_layer_linestring := m_layer_linestring,
    m_layer_polygon := m_layer_polygon }

/-- The callback `MyOGRHandler::node` (lines 61-69). -/
def node (F : OGRFactory) (s : State) (node : OSMObject) : Except Exn State :=
  let amenity := get_value_by_key node.tags "amenity"
  match amenity with
  | none => .ok s
  | some amenity =>
    if amenity = "post_box" then
      match F.create_point node with
      | .error e => .error e
      | .ok point =>
        let feature : Feature := { geometry := point, fields := [] }
        let feature := feature.set_field "id" (.double_of_int64 node.id)
        let feature :=
          feature.set_field "operator" (.c_str (get_value_by_key node.tags "operator"))
        .ok { s with handler :=
          { s.handler with m_layer_point := s.handler.m_layer_point.create_feature feature } }
    else
      .ok s

/-- The callback `MyOGRHandler::way` (lines 71-83). -/
def way (F : OGRFactory) (s : State) (way : OSMObject) : Except Exn State :=
  let highway := get_value_by_key way.tags "highway"
  match highway with
  | none => .ok s
  | some highway =>
    match F.create_linestring way with
    | .ok linestring =>
      let feature : Feature := { geometry := linestring, fields := [] }
      let feature := feature.set_field "id" (.double_of_int64 way.id)
      let feature := feature.set_field "type" (.c_str (some highway))
      .ok { s with handler :=
        { s.handler with
          m_layer_linestring := s.handler.m_layer_linestring.create_feature feature } }
    | .error (.geometry_error _) =>
      .ok { s with
        cerr := s.cerr ++ ["Ignoring illegal geometry for way " ++ toString way.id ++ ".\n"] }
    | .error e => .error e

/-- The callback `MyOGRHandler::area` (lines 85-102). -/
def area (F : OGRFactory) (s : State) (area : Area) : Except Exn State :=
  let building := get_value_by_key area.tags "building"
  match building with
  | none => .ok s
  | some building =>
    match F.create_multipolygon area with
    | .ok multipolygon =>
      let feature : Feature := { geometry := multipolygon, fields := [] }
      let feature := feature.set_field "id" (.double_of_int64 area.id)
      let feature := feature.set_field "type" (.c_str (some building))
      .ok { s with handler :=
        { s.handler with
          m_layer_polygon := s.handler.m_layer_polygon.create_feature feature } }
    | .error (.geometry_error _) =>
      .ok { s with
        cerr := s.cerr ++ ["Ignoring illegal geometry for area "
          ++ toString area.id
          ++ " created from "
          ++ (if area.from_way then "way" else "relation")
          ++ " with id="
          ++ toString area.orig_id ++ ".\n"] }
    | .error e => .error e

/-- One step of `osmium::apply`: dispatch of an object to the callback of its
type; `relation` is the empty callback of `osmium::handler::Handler`. -/
def handle (F : OGRFactory) (s : State) : Item → Except Exn State
  | .node n => node F s n
  | .way w => way F s w
  | .relation _ => .ok s
  | .area a => area F s a

/-- The loop of `osmium::apply` over the objects of the input: it ends at the
first exception that leaves a callback.  The result is the state reached and
that exception, if any. -/
def apply (F : OGRFactory) : State → List Item → State × Option Exn
  | s, [] => (s, none)
  | s, item :: rest =>
    match handle F s item with
    | .ok s' => apply F s' rest
    | .error e => (s, some e)

end osmium_toogr2

namespace osmium_toogr2_exp

/-- The class `MyOGRHandler` of osmium_toogr2_exp.cpp. -/
structure MyOGRHandler where
  m_layer_point : Layer
  m_layer_linestring : Layer
  m_layer_polygon : Layer
  deriving DecidableEq, Repr

/-- The handler together with the standard error stream it writes to. -/
structure State where
  handler : MyOGRHandler
  cerr : List String
  deriving DecidableEq, Repr

/-- The constructor of `MyOGRHandler` (lines 43-57). -/
def MyOGRHandler.create : MyOGRHandler :=
  let m_layer_point := Layer.create "postboxes" .wkbPoint []
  let m_layer_linestring := Layer.create "roads" .wkbLineString []
  let m_layer_polygon := Layer.create "buildings" .wkbMultiPolygon []
  let m_layer_point := m_layer_point.add_field "id" .OFTReal 10
  let m_layer_point := m_layer_point.add_field "operator" .OFTString 30
  let m_layer_linestring := m_layer_linestring.add_field "id" .OFTReal 10
  let m_layer_linestring := m_layer_linestring.add_field "type" .OFTString 30
  let m_layer_polygon := m_layer_polygon.add_field "id" .OFTReal 10
  let m_layer_polygon := m_layer_polygon.add_field "type" .OFTString 30
  { m_layer_point := m_layer_point,
    m_layer_linestring := m_layer_linestring,
    m_layer_polygon := m_layer_polygon }

/-- The callback `MyOGRHandler::node` (lines 59-67). -/
def node (F : OGRFactory) (s : State) (node : OSMObject) : Except Exn State :=
  let amenity := get_value_by_key node.tags "amenity"
  match amenity with
  | none => .ok s
  | some amenity =>
    if amenity = "post_box" then
      match F.create_point node with
      | .error e => .error e
      | .ok point =>
        let feature : Feature := { geometry := point, fields := [] }
        let feature := feature.set_field "id" (.double_of_int64 node.id)
        let feature :=
          feature.set_field "operator" (.c_str (get_value_by_key node.tags "operator"))
        .ok { s with handler :=
          { s.handler with m_layer_point := s.handler.m_layer_point.create_feature feature } }
    else
      .ok s

/-- The callback `MyOGRHandler::way` (lines 69-81). -/
def way (F : OGRFactory) (s : State) (way : OSMObject) : Except Exn State :=
  let highway := get_value_by_key way.tags "highway"
  match highway with
  | none => .ok s
  | some highway =>
    match F.create_linestring way with
    | .ok linestring =>
      let feature : Feature := { geometry := linestring, fields := [] }
      let feature := feature.set_field "id" (.double_of_int64 way.id)
      let feature := feature.set_field "type" (.c_str (some highway))
      .ok { s with handler :=
        { s.handler with
          m_layer_linestring := s.handler.m_layer_linestring.create_feature feature } }
    | .error (.geometry_error _) =>
      .ok { s with
        cerr := s.cerr ++ ["Ignoring illegal geometry for way " ++ toString way.id ++ ".\n"] }
    | .error e => .error e

/-- The callback `MyOGRHandler::area` (lines 83-100). -/
def area (F : OGRFactory) (s : State) (area : Area) : Except Exn State :=
  let building := get_value_by_key area.tags "building"
  match building with
  | none => .ok s
  | some building =>
    match F.create_multipolygon area with
    | .ok multipolygon =>
      let feature : Feature := { geometry := multipolygon, fields := [] }
      let feature := feature.set_field "id" (.double_of_int64 area.id)
      let feature := feature.set_field "type" (.c_str (some building))
      .ok { s with handler :=
        { s.handler with
          m_layer_polygon := s.handler.m_layer_polygon.create_feature feature } }
    | .error (.geometry_error _) =>
      .ok { s with
        cerr := s.cerr ++ ["Ignoring illegal geometry for area "
          ++ toString area.id
          ++ " created from "
          ++ (if area.from_way then "way" else "relation")
          ++ " with id="
          ++ toString area.orig_id ++ ".\n"] }
    | .error e => .error e

/-- One step of `osmium::apply`: dispatch of an object to the callback of its
type; `relation` is the empty callback of `osmium::handler::Handler`. -/
def handle (F : OGRFactory) (s : State) : Item → Except Exn State
  | .node n => node F s n
  | .way w => way F s w
  | .relation _ => .ok s
  | .area a => area F s a

/-- The loop of `osmium::apply` over the objects of the input: it ends at the
first exception that leaves a callback.  The result is the state reached and
that exception, if any. -/
def apply (F : OGRFactory) : State → List Item → State × Option Exn
  | s, [] => (s, none)
  | s, item :: rest =>
    match handle F s item with
    | .ok s' => apply F s' rest
    | .error e => (s, some e)

end osmium_toogr2_exp

/-! ## Processes and the external world -/

/-- How a run of `main` ends: `exited n` is a return from `main` or a call of
`std::exit` with status `n`; `terminated e` is the exception `e` leaving
`main` uncaught, which ends the process through `std::terminate`. -/
inductive Status where
  | exited (status : Nat)
  | terminated (e : Exn)
  deriving DecidableEq, Repr

/-- What a run has done so far: the texts written to standard output and to
standard error (one entry per output statement), the file names handed to the
OSM reader, the dataset created (format and name), and the handler. -/
structure Proc (H : Type) where
  cout : List String := []
  cerr : List String := []
  inputs_read : List String := []
  dataset : Option (String × String) := none
  handler : Option H := none

/-- The end of a run of `main`. -/
structure Outcome (H : Type) where
  status : Status
  proc : Proc H

/-- The external libraries as a run of `main` sees them.
`read_relations name` is the first pass over the input (it throws when the
input cannot be read).  `reader name` is the second pass: it throws when the
input cannot be opened, otherwise it gives the objects handed to the handler
in order (assembled areas included) and the exception that ends the reading
early, if any.  `create_dataset format name` is the constructor of
`gdalcpp::Dataset`.  `create_map` and `open_dump` are the location index
factory and the `open` of `locations.dump` of osmium_toogr; `open_dump` holds
the `std::system_error` thrown when `open` fails. -/
structure World where
  factory : OGRFactory
  read_relations : String → Except Exn Unit
  reader : String → Except Exn (List Item × Option Exn)
  create_dataset : String → String → Except Exn Unit
  incomplete_relations : List Int
  memory_peak : Nat
  map_types : List String
  create_map : String → Except Exn Unit
  open_dump : Option Exn

/-- The statements printing the ids of incomplete multipolygon relations. -/
def incomplete_relations_warning (ids : List Int) : List String :=
  if ids ≠ [] then
    ["Warning! Some member ways missing for these multipolygon relations:"]
      ++ ids.map (fun id => " " ++ toString id) ++ ["\n"]
  else []

namespace osmium_toogr

/-- The local variables of `main` set by the option loop. -/
structure Options where
  output_format : String := "SQLite"
  location_store : String := "sparse_mem_array"
  deriving DecidableEq, Repr

def print_help : String :=
  "osmium_toogr [OPTIONS] [INFILE [OUTFILE]]\n\n"
    ++ "If INFILE is not given stdin is assumed.\n"
    ++ "If OUTFILE is not given 'ogr_out' is used.\n"
    ++ "\nOptions:\n"
    ++ "  -h, --help                 This help message\n"
    ++ "  -l, --location_store=TYPE  Set location store\n"
    ++ "  -f, --format=FORMAT        Output OGR format (Default: 'SQLite')\n"
    ++ "  -L                         See available location stores\n"

/-- The loop over `getopt_long(argc, argv, "hf:l:L", ...)`: `opts` lists the
option characters it returns, with `optarg`, before it returns -1.  The
result is the options, or the status and the standard output of the
`std::exit` taken inside the loop. -/
def getopt_loop (map_types : List String) :
    Options → List (Char × String) → Except (Nat × List String) Options
  | o, [] => .ok o
  | o, (c, optarg) :: rest =>
    if c = 'h' then .error (0, [print_help])
    else if c = 'f' then getopt_loop map_types { o with output_format := optarg } rest
    else if c = 'l' then getopt_loop map_types { o with location_store := optarg } rest
    else if c = 'L' then
      .error (0, ["Available map types:\n"]
        ++ map_types.map (fun map_type => "  " ++ map_type ++ "\n"))
    else .error (1, [])

/-- The resolution of the positional arguments: `args` is
`argv[optind], ..., argv[argc-1]`.  The result is the input and the output
filename, or the usage text of the `std::exit(1)` branch. -/
def positional_args (argv0 : String) (args : List String) :
    Except String (String × String) :=
  let output_filename := "ogr_out"
  let remaining_args := args.length
  if remaining_args > 2 then
    .error ("Usage: " ++ argv0 ++ " [OPTIONS] [INFILE [OUTFILE]]\n")
  else if remaining_args = 2 then
    .ok (args.getD 0 "", args.getD 1 "")
  else if remaining_args = 1 then
    .ok (args.getD 0 "", output_filename)
  else
    .ok ("-", output_filename)

/-- The function `main` of osmium_toogr.cpp.  It has no `try` block, and it
throws `std::system_error` itself when `locations.dump` cannot be opened. -/
def main (W : World) (argv0 : String) (opts : List (Char × String))
    (args : List String) : Outcome MyOGRHandler :=
  match getopt_loop W.map_types {} opts with
  | .error (status, cout) => { status := .exited status, proc := { cout := cout } }
  | .ok o =>
  match positional_args argv0 args with
  | .error usage => { status := .exited 1, proc := { cerr := [usage] } }
  | .ok (input_filename, output_filename) =>
  let p : Proc MyOGRHandler := { inputs_read := [input_filename] }
  match W.reader input_filename with
  | .error e => { status := .terminated e, proc := p }
  | .ok (items, read_error) =>
  match W.create_map o.location_store with
  | .error e => { status := .terminated e, proc := p }
  | .ok _ =>
  match W.create_dataset o.output_format output_filename with
  | .error e => { status := .terminated e, proc := p }
  | .ok _ =>
  let ogr_handler := MyOGRHandler.create
  let p := { p with
    dataset := some (o.output_format, output_filename),
    handler := some ogr_handler }
  match apply W.factory { handler := ogr_handler, cerr := p.cerr } items with
  | (s, some e) =>
    { status := .terminated e, proc := { p with handler := some s.handler, cerr := s.cerr } }
  | (s, none) =>
  let p := { p with handler := some s.handler, cerr := s.cerr }
  match read_error with
  | some e => { status := .terminated e, proc := p }
  | none =>
  match W.open_dump with
  | some e => { status := .terminated e, proc := p }
  | none => { status := .exited 0, proc := p }

end osmium_toogr

namespace osmium_toogr2

/-- The local variables of `main` set by the option loop. -/
structure Options where
  output_format : String := "SQLite"
  debug : Bool := false
  deriving DecidableEq, Repr

def print_help : String :=
  "osmium_toogr2 [OPTIONS] [INFILE [OUTFILE]]\n\n"
    ++ "If INFILE is not given stdin is assumed.\n"
    ++ "If OUTFILE is not given 'ogr_out' is used.\n"
    ++ "\nOptions:\n"
    ++ "  -h, --help           This help message\n"
    ++ "  -d, --debug          Enable debug output\n"
    ++ "  -f, --format=FORMAT  Output OGR format (Default: 'SQLite')\n"

/-- The loop over `getopt_long(argc, argv, "hdf:", ...)`: `opts` lists the
option characters it returns, with `optarg`, before it returns -1.  The
result is the options, or the status and the standard output of the
`std::exit` taken inside the loop. -/
def getopt_loop : Options → List (Char × String) → Except (Nat × List String) Options
  | o, [] => .ok o
  | o, (c, optarg) :: rest =>
    if c = 'h' then .error (0, [print_help])
    else if c = 'd' then getopt_loop { o with debug := true } rest
    else if c = 'f' then getopt_loop { o with output_format := optarg } rest
    else .error (1, [])

/-- The resolution of the positional arguments: `args` is
`argv[optind], ..., argv[argc-1]`.  The result is the input and the output
filename, or the usage text of the `std::exit(1)` branch. -/
def positional_args (argv0 : String) (args : List String) :
    Except String (String × String) :=
  let output_filename := "ogr_out"
  let remaining_args := args.length
  if remaining_args > 2 then
    .error ("Usage: " ++ argv0 ++ " [OPTIONS] [INFILE [OUTFILE]]\n")
  else if remaining_args = 2 then
    .ok (args.getD 0 "", args.getD 1 "")
  else if remaining_args = 1 then
    .ok (args.getD 0 "", output_filename)
  else
    .ok ("-", output_filename)

/-- The function `main` of osmium_toogr2.cpp.  It has no `try` block. -/
def main (W : World) (argv0 : String) (opts : List (Char × String))
    (args : List String) : Outcome MyOGRHandler :=
  match getopt_loop {} opts with
  | .error (status, cout) => { status := .exited status, proc := { cout := cout } }
  | .ok o =>
  match positional_args argv0 args with
  | .error usage => { status := .exited 1, proc := { cerr := [usage] } }
  | .ok (input_filename, output_filename) =>
  let p : Proc MyOGRHandler :=
    { cerr := ["Pass 1...\n"], inputs_read := [input_filename] }
  match W.read_relations input_filename with
  | .error e => { status := .terminated e, proc := p }
  | .ok _ =>
  let p := { p with cerr := p.cerr ++ ["Pass 1 done\n"] }
  match W.create_dataset o.output_format output_filename with
  | .error e => { status := .terminated e, proc := p }
  | .ok _ =>
  let ogr_handler := MyOGRHandler.create
  let p := { p with
    dataset := some (o.output_format, output_filename),
    handler := some ogr_handler,
    cerr := p.cerr ++ ["Pass 2...\n"],
    inputs_read := p.inputs_read ++ [input_filename] }
  match W.reader input_filename with
  | .error e => { status := .terminated e, proc := p }
  | .ok (items, read_error) =>
  match apply W.factory { handler := ogr_handler, cerr := p.cerr } items with
  | (s, some e) =>
    { status := .terminated e, proc := { p with handler := some s.handler, cerr := s.cerr } }
  | (s, none) =>
  let p := { p with handler := some s.handler, cerr := s.cerr }
  match read_error with
  | some e => { status := .terminated e, proc := p }
  | none =>
  let p := { p with cerr := p.cerr ++ ["Pass 2 done\n"] }
  let p := { p with cerr := p.cerr ++ incomplete_relations_warning W.incomplete_relations }
  let p :=
    if W.memory_peak ≠ 0 then
      { p with cerr := p.cerr ++ ["Memory used: " ++ toString W.memory_peak ++ " MBytes\n"] }
    else p
  { status := .exited 0, proc := p }

end osmium_toogr2

namespace osmium_toogr2_exp

/-- The local variables of `main` set by the option loop. -/
structure Options where
  output_format : String := "SQLite"
  deriving DecidableEq, Repr

def print_help : String :=
  "osmium_toogr2_exp [OPTIONS] [INFILE [OUTFILE]]\n\n"
    ++ "If INFILE is not given stdin is assumed.\n"
    ++ "If OUTFILE is not given 'ogr_out' is used.\n"
    ++ "\nOptions:\n"
    ++ "  -h, --help           This help message\n"
    ++ "  -f, --format=FORMAT  Output OGR format (Default: 'SQLite')\n"

/-- The loop over `getopt_long(argc, argv, "hf:", ...)`: `opts` lists the
option characters it returns, with `optarg`, before it returns -1.  The
result is the options, or the status and the standard output of the
`std::exit` taken inside the loop. -/
def getopt_loop : Options → List (Char × String) → Except (Nat × List String) Options
  | o, [] => .ok o
  | o, (c, optarg) :: rest =>
    if c = 'h' then .error (0, [print_help])
    else if c = 'f' then getopt_loop { o with output_format := optarg } rest
    else .error (1, [])

/-- The resolution of the positional arguments: `args` is
`argv[optind], ..., argv[argc-1]`.  The result is the input and the output
filename, or the usage text of the `std::exit(1)` branch. -/
def positional_args (argv0 : String) (args : List String) :
    Except String (String × String) :=
  let output_filename := "ogr_out"
  let remaining_args := args.length
  if remaining_args > 2 then
    .error ("Usage: " ++ argv0 ++ " [OPTIONS] [INFILE [OUTFILE]]\n")
  else if remaining_args = 2 then
    .ok (args.getD 0 "", args.getD 1 "")
  else if remaining_args = 1 then
    .ok (args.getD 0 "", output_filename)
  else
    .ok ("-", output_filename)

/-- The function `main` of osmium_toogr2_exp.cpp.  It has no `try` block.
The constructor of `FlexReader` reads the relations of the input first. -/
def main (W : World) (argv0 : String) (opts : List (Char × String))
    (args : List String) : Outcome MyOGRHandler :=
  match getopt_loop {} opts with
  | .error (status, cout) => { status := .exited status, proc := { cout := cout } }
  | .ok o =>
  match positional_args argv0 args with
  | .error usage => { status := .exited 1, proc := { cerr := [usage] } }
  | .ok (input_filename, output_filename) =>
  let p : Proc MyOGRHandler := { inputs_read := [input_filename] }
  match W.read_relations input_filename with
  | .error e => { status := .terminated e, proc := p }
  | .ok _ =>
  let p := { p with inputs_read := p.inputs_read ++ [input_filename] }
  match W.reader input_filename with
  | .error e => { status := .terminated e, proc := p }
  | .ok (items, read_error) =>
  match W.create_dataset o.output_format output_filename with
  | .error e => { status := .terminated e, proc := p }
  | .ok _ =>
  let ogr_handler := MyOGRHandler.create
  let p := { p with
    dataset := some (o.output_format, output_filename),
    handler := some ogr_handler }
  match apply W.factory { handler := ogr_handler, cerr := p.cerr } items with
  | (s, some e) =>
    { status := .terminated e, proc := { p with handler := some s.handler, cerr := s.cerr } }
  | (s, none) =>
  let p := { p with handler := some s.handler, cerr := s.cerr }
  match read_error with
  | some e => { status := .terminated e, proc := p }
  | none =>
  let p := { p with cerr := p.cerr ++ incomplete_relations_warning W.incomplete_relations }
  { status := .exited 0, proc := p }

end osmium_toogr2_exp

namespace osm_gis_export_overview

/-- The `po::variables_map` after `po::store` and `po::notify`: for every
option whether it was given, and its value. -/
structure variables_map where
  help : Bool := false
  verbose : Bool := false
  output : Option String := none
  output_format : Option String := some "SQLite"
  add_untagged_nodes : Bool := false
  add_metadata : Bool := false
  features_per_transaction : Option Int := some 100000
  input_filename : Option String := none
  deriving DecidableEq, Repr

/-- The text of `print_help(desc)`; `desc` is the option description as
boost prints it. -/
def print_help (desc : String) : String :=
  "osm_gis_export_overview [OPTIONS] OSM-FILE\n\n"
    ++ "If OSM-FILE is not used, stdin is assumed.\n\n"
    ++ desc ++ "\n"

/-- A statement `vout << ...`: `osmium::util::VerboseOutput` writes to
standard error when `verbose` is set and nothing otherwise.  The elapsed
time it puts before each line is left out of the text. -/
def vout (verbose : Bool) (cerr : List String) (text : String) : List String :=
  if verbose then cerr ++ [text] else cerr

/-- The `try` block of `main` (lines 157-292).  `parsed` is the outcome of
the command line parser (it throws on a malformed command line).  The result
is the value returned, or the exception that leaves the block. -/
def main_try (W : World) (desc : String) (parsed : Except Exn variables_map) :
    Except Exn Nat × Proc MyOGRHandler :=
  match parsed with
  | .error e => (.error e, {})
  | .ok vm =>
  if vm.help then (.ok 0, { cout := [print_help desc] })
  else
  let cfg : config := {}
  let cfg := if vm.verbose then { cfg with verbose := true } else cfg
  let output_format := match vm.output_format with
    | some f => f
    | none => "SQLite"
  let input_filename := match vm.input_filename with
    | some f => f
    | none => ""
  match output_filename vm.output input_filename with
  | .error e => (.error e, {})
  | .ok output_filename =>
  let cfg := if vm.add_untagged_nodes then { cfg with add_untagged_nodes := true } else cfg
  let cfg := if vm.add_metadata then { cfg with add_metadata := true } else cfg
  let p : Proc MyOGRHandler := {}
  let p := { p with cerr := vout cfg.verbose p.cerr ("Writing to '" ++ output_filename ++ "'\n") }
  let p := { p with
    cerr := vout cfg.verbose p.cerr "Pass 1...\n",
    inputs_read := [input_filename] }
  match W.read_relations input_filename with
  | .error e => (.error e, p)
  | .ok _ =>
  let p := { p with cerr := vout cfg.verbose p.cerr "Pass 1 done\n" }
  match W.create_dataset output_format output_filename with
  | .error e => (.error e, p)
  | .ok _ =>
  let ogr_handler := MyOGRHandler.create cfg
  let p := { p with
    dataset := some (output_format, output_filename),
    handler := some ogr_handler,
    cerr := vout cfg.verbose p.cerr "Pass 2...\n",
    inputs_read := p.inputs_read ++ [input_filename] }
  match W.reader input_filename with
  | .error e => (.error e, p)
  | .ok (items, read_error) =>
  match apply W.factory { handler := ogr_handler, cerr := p.cerr } items with
  | (s, some e) => (.error e, { p with handler := some s.handler, cerr := s.cerr })
  | (s, none) =>
  let p := { p with handler := some s.handler, cerr := s.cerr }
  match read_error with
  | some e => (.error e, p)
  | none =>
  let p := { p with cerr := vout cfg.verbose p.cerr "Pass 2 done\n" }
  let p := { p with cerr := p.cerr ++ incomplete_relations_warning W.incomplete_relations }
  let p :=
    if W.memory_peak ≠ 0 then
      let text := "Memory used: " ++ toString W.memory_peak ++ " MBytes\n"
      { p with cerr := vout cfg.verbose p.cerr text }
    else p
  (.ok 0, p)

/-- The function `main` of osm_gis_export_overview.cpp: the `try` block and
its handler `catch (const std::exception& e)` (lines 293-296). -/
def main (W : World) (desc : String) (parsed : Except Exn variables_map) :
    Outcome MyOGRHandler :=
  match main_try W desc parsed with
  | (.ok status, p) => { status := .exited status, proc := p }
  | (.error e, p) =>
    { status := .exited 1,
      proc := { p with cerr := p.cerr ++ ["Error: " ++ e.what ++ "\n"] } }

end osm_gis_export_overview

/-! ## Sample inputs -/

/-- An object with the given id and tags and empty metadata. -/
def sample_object (id : Int) (tags : List Tag) : OSMObject :=
  { id := id, tags := tags, version := 1, changeset := 1,
    timestamp_iso := "2020-01-01T00:00:00Z", uid := 1, user := "u" }

/-- An area with the given id and tags, assembled from way `orig_id`. -/
def sample_area (id : Int) (tags : List Tag) (orig_id : Int) : Area :=
  { toOSMObject := sample_object id tags, from_way := true, orig_id := orig_id }

/-- A factory that fails with a geometry error on every object with id 1 and
builds a geometry for every other object. -/
def sample_factory : OGRFactory :=
  { create_point := fun n =>
      if n.id = 1 then .error (.geometry_error "invalid point") else .ok ⟨"POINT"⟩,
    create_linestring := fun w =>
      if w.id = 1 then .error (.geometry_error "need at least two points for linestring")
      else .ok ⟨"LINESTRING"⟩,
    create_multipolygon := fun a =>
      if a.id = 1 then .error (.geometry_error "invalid area")
      else .ok ⟨"MULTIPOLYGON"⟩ }

/-- A world in which every external call succeeds and the reader delivers
`items`. -/
def sample_world (items : List Item) : World :=
  { factory := sample_factory,
    read_relations := fun _ => .ok (),
    reader := fun _ => .ok (items, none),
    create_dataset := fun _ _ => .ok (),
    incomplete_relations := [],
    memory_peak := 0,
    map_types := ["sparse_mem_array"],
    create_map := fun _ => .ok (),
    open_dump := none }

/-- A world in which the input cannot be opened. -/
def unreadable_world : World :=
  { sample_world [] with
    read_relations := fun _ => .error (.other "Open failed for 'missing.osm'"),
    reader := fun _ => .error (.other "Open failed for 'missing.osm'") }

/-- A world in which `locations.dump` cannot be opened. -/
def undumpable_world : World :=
  { sample_world [] with open_dump := some (.other "Open failed: Permission denied") }

/-! ## Emitting one feature, in the words of the specification -/

/-- The state `s` of osm_gis_export_overview after exactly one feature `f`
was added to layer `points`, everything else unchanged. -/
def osm_gis_export_overview.with_point (s : osm_gis_export_overview.State)
    (f : Feature) : osm_gis_export_overview.State :=
  { s with handler := { s.handler with
      m_layer_point := { s.handler.m_layer_point with
        features := s.handler.m_layer_point.features ++ [f] } } }

/-- The state `s` of osmium_toogr after exactly one feature `f` was added to
layer `postboxes`, everything else unchanged. -/
def osmium_toogr.with_postbox (s : osmium_toogr.State) (f : Feature) :
    osmium_toogr.State :=
  { s with handler := { s.handler with
      m_layer_point := { s.handler.m_layer_point with
        features := s.handler.m_layer_point.features ++ [f] } } }

/-- The state `s` of osmium_toogr2 after exactly one feature `f` was added to
layer `postboxes`, everything else unchanged. -/
def osmium_toogr2.with_postbox (s : osmium_toogr2.State) (f : Feature) :
    osmium_toogr2.State :=
  { s with handler := { s.handler with
      m_layer_point := { s.handler.m_layer_point with
        features := s.handler.m_layer_point.features ++ [f] } } }

/-- The state `s` of osmium_toogr2_exp after exactly one feature `f` was added
to layer `postboxes`, everything else unchanged. -/
def osmium_toogr2_exp.with_postbox (s : osmium_toogr2_exp.State) (f : Feature) :
    osmium_toogr2_exp.State :=
  { s with handler := { s.handler with
      m_layer_point := { s.handler.m_layer_point with
        features := s.handler.m_layer_point.features ++ [f] } } }

/-! ## Feature counts of osmium_toogr2, in the words of the specification -/

namespace osmium_toogr2

/-- The feature of layer `postboxes` an object stands for: one for a node
tagged `amenity=post_box` whose point is built, none otherwise. -/
def postbox_of (F : OGRFactory) : Item → Option Feature
  | .node n =>
    if get_value_by_key n.tags "amenity" = some "post_box" then
      match F.create_point n with
      | .ok g =>
        some { geometry := g,
               fields := [("id", .double_of_int64 n.id),
                          ("operator", .c_str (get_value_by_key n.tags "operator"))] }
      | .error _ => none
    else none
  | _ => none

/-- The feature of layer `roads` an object stands for: one for a way with a
`highway` tag whose linestring is built, none otherwise. -/
def road_of (F : OGRFactory) : Item → Option Feature
  | .way w =>
    match get_value_by_key w.tags "highway" with
    | some highway =>
      match F.create_linestring w with
      | .ok g =>
        some { geometry := g,
               fields := [("id", .double_of_int64 w.id), ("type", .c_str (some highway))] }
      | .error _ => none
    | none => none
  | _ => none

/-- The feature of layer `buildings` an object stands for: one for an area
with a `building` tag whose multipolygon is built, none otherwise. -/
def building_of (F : OGRFactory) : Item → Option Feature
  | .area a =>
    match get_value_by_key a.tags "building" with
    | some building =>
      match F.create_multipolygon a with
      | .ok g =>
        some { geometry := g,
               fields := [("id", .double_of_int64 a.id), ("type", .c_str (some building))] }
      | .error _ => none
    | none => none
  | _ => none

end osmium_toogr2

/-! ## The `tags` field, in the words of the specification -/

/-- One tag rendered as key, `=`, value. -/
def render_tag (t : Tag) : String := t.key ++ "=" ++ t.value

/-- The texts of `parts` in their order, joined by single separators `sep`,
with no separator before the first or after the last. -/
def joined (sep : String) : List String → String
  | [] => ""
  | [a] => a
  | a :: b :: rest => a ++ sep ++ joined sep (b :: rest)

/-- The string `add_tags` hands to `set_field("tags", ...)`. -/
def osm_gis_export_overview.tags_string (object : OSMObject) : String :=
  let tags := osm_gis_export_overview.tags_loop "" object.tags
  if tags.data ≠ [] then pop_back tags else tags

/-! ## Layer schemas and field names, in the words of the specification -/

/-- The names of the fields declared on a layer, in the order of the
`add_field` calls. -/
def Layer.field_names (l : Layer) : List String := l.fields.map (fun d => d.1)

/-- The names of the fields set on a feature, in the order of the
`set_field` calls. -/
def Feature.field_names (f : Feature) : List String := f.fields.map (fun p => p.1)

/-- A layer as its constructor and the `add_field` calls left it: name,
geometry type, options and declared fields, without features. -/
def Layer.schema (l : Layer) : Layer := { l with features := [] }

/-- The five metadata columns. -/
def metadata_columns : List String := ["version", "changeset", "timestamp", "uid", "user"]

/-- Every feature of the layer has exactly the declared field names set: a
name is set on the feature if and only if it is declared on the layer. -/
def fields_match (l : Layer) : Prop :=
  ∀ f ∈ l.features, ∀ name : String, name ∈ f.field_names ↔ name ∈ l.field_names

/-- The handler of osm_gis_export_overview has the schema its constructor
gave it for `cfg`, and every feature of its layers has the field names the
callbacks set for `cfg`. -/
def osm_gis_export_overview.schema_kept (cfg : osm_gis_export_overview.config)
    (h : osm_gis_export_overview.MyOGRHandler) : Prop :=
  h.m_cfg = cfg ∧
  h.m_layer_point.schema
    = (osm_gis_export_overview.MyOGRHandler.create cfg).m_layer_point.schema ∧
  h.m_layer_linestring.schema
    = (osm_gis_export_overview.MyOGRHandler.create cfg).m_layer_linestring.schema ∧
  h.m_layer_multipolygon.schema
    = (osm_gis_export_overview.MyOGRHandler.create cfg).m_layer_multipolygon.schema ∧
  (∀ f, (f ∈ h.m_layer_point.features ∨ f ∈ h.m_layer_linestring.features
      ∨ f ∈ h.m_layer_multipolygon.features) →
    f.field_names
      = "id" :: ((if cfg.add_metadata then metadata_columns else []) ++ ["tags"]))

/-- Every feature of the layer has the field names `names` set, in this
order. -/
def names_are (l : Layer) (names : List String) : Prop :=
  ∀ f ∈ l.features, f.field_names = names

/-- The handler of osmium_toogr has the schema its constructor gave it, and every
feature of `postboxes` and `roads` has the field names the callbacks set. -/
def osmium_toogr.schema_kept (h : osmium_toogr.MyOGRHandler) : Prop :=
  h.m_layer_point.schema = osmium_toogr.MyOGRHandler.create.m_layer_point.schema ∧
  h.m_layer_linestring.schema = osmium_toogr.MyOGRHandler.create.m_layer_linestring.schema ∧
  names_are h.m_layer_point ["id", "operator"] ∧
  names_are h.m_layer_linestring ["id", "type"]

/-- The handler of osmium_toogr2 has the schema its constructor gave it, and every
feature of `postboxes`, `roads` and `buildings` has the field names the callbacks set. -/
def osmium_toogr2.schema_kept (h : osmium_toogr2.MyOGRHandler) : Prop :=
  h.m_layer_point.schema = osmium_toogr2.MyOGRHandler.create.m_layer_point.schema ∧
  h.m_layer_linestring.schema = osmium_toogr2.MyOGRHandler.create.m_layer_linestring.schema ∧
  h.m_layer_polygon.schema = osmium_toogr2.MyOGRHandler.create.m_layer_polygon.schema ∧
  names_are h.m_layer_point ["id", "operator"] ∧
  names_are h.m_layer_linestring ["id", "type"] ∧
  names_are h.m_layer_polygon ["id", "type"]

/-- The handler of osmium_toogr2_exp has the schema its constructor gave it, and every
feature of `postboxes`, `roads` and `buildings` has the field names the callbacks set. -/
def osmium_toogr2_exp.schema_kept (h : osmium_toogr2_exp.MyOGRHandler) : Prop :=
  h.m_layer_point.schema = osmium_toogr2_exp.MyOGRHandler.create.m_layer_point.schema ∧
  h.m_layer_linestring.schema = osmium_toogr2_exp.MyOGRHandler.create.m_layer_linestring.schema ∧
  h.m_layer_polygon.schema = osmium_toogr2_exp.MyOGRHandler.create.m_layer_polygon.schema ∧
  names_are h.m_layer_point ["id", "operator"] ∧
  names_are h.m_layer_linestring ["id", "type"] ∧
  names_are h.m_layer_polygon ["id", "type"]

/-! ## The derivation of the output name in the words of the specification -/

/-- The text after the last `/` of `s`, the whole of `s` when it has none. -/
def text_after_last_slash (s : String) : String :=
  ⟨(s.data.reverse.takeWhile (fun c => c ≠ '/')).reverse⟩

/-- The text `s` cut at its first `.`, the whole of `s` when it has none. -/
def cut_at_first_dot (s : String) : String :=
  ⟨s.data.takeWhile (fun c => c ≠ '.')⟩

/-- The default output name as the specification words it. -/
def spec_output_name (input_filename : String) : String :=
  cut_at_first_dot (text_after_last_slash input_filename) ++ ".db"

/-! ## Theorems -/

theorem rfindAux_eq_none {l : List Char} {c : Char} :
    rfindAux l c = none ↔ c ∉ l := by
  induction l with
  | nil => simp [rfindAux]
  | cons x xs ih =>
    cases h : rfindAux xs c with
    | none =>
      have hc : c ∉ xs := ih.mp h
      by_cases hx : x = c
      · simp [rfindAux, h, hx]
      · have hx2 : ¬ c = x := fun e => hx e.symm
        simp [rfindAux, h, hx, hc, hx2]
    | some i =>
      have hc : c ∈ xs := by
        by_contra hn
        rw [ih.mpr hn] at h
        cases h
      simp [rfindAux, h, hc]

theorem rfindAux_lt {l : List Char} {c : Char} {i : Nat}
    (h : rfindAux l c = some i) : i < l.length := by
  induction l generalizing i with
  | nil => simp [rfindAux] at h
  | cons x xs ih =>
    cases hr : rfindAux xs c with
    | none =>
      by_cases hx : x = c
      · simp [rfindAux, hr, hx] at h
        subst h
        simp
      · simp [rfindAux, hr, hx] at h
    | some j =>
      simp [rfindAux, hr] at h
      subst h
      have := ih hr
      simp
      omega

theorem findAux_lt {l : List Char} {c : Char} {i : Nat}
    (h : findAux l c = some i) : i < l.length := by
  induction l generalizing i with
  | nil => simp [findAux] at h
  | cons x xs ih =>
    by_cases hx : x = c
    · simp [findAux, hx] at h
      subst h
      simp
    · cases hr : findAux xs c with
      | none => simp [findAux, hx, hr] at h
      | some j =>
        simp [findAux, hx, hr] at h
        subst h
        have := ih hr
        simp
        omega

theorem findAux_take (l : List Char) (c : Char) :
    (match findAux l c with
      | some i => l.take i
      | none => l) = l.takeWhile (fun x => x ≠ c) := by
  induction l with
  | nil => simp [findAux]
  | cons x xs ih =>
    by_cases hx : x = c
    · simp [findAux, hx, List.takeWhile]
    · cases hr : findAux xs c with
      | none =>
        rw [hr] at ih
        simp at ih
        simp [findAux, hx, hr, List.takeWhile]
        exact ih
      | some j =>
        rw [hr] at ih
        simp at ih
        simp [findAux, hx, hr, List.takeWhile]
        exact ih

theorem takeWhile_append_of_exists {p : Char → Bool} (l₁ l₂ : List Char)
    (h : ∃ a ∈ l₁, p a = false) :
    (l₁ ++ l₂).takeWhile p = l₁.takeWhile p := by
  induction l₁ with
  | nil => simp at h
  | cons x xs ih =>
    cases hp : p x with
    | false => simp [List.takeWhile, hp]
    | true =>
      have h2 : ∃ a ∈ xs, p a = false := by
        obtain ⟨a, ha, hpa⟩ := h
        rcases List.mem_cons.mp ha with rfl | ha2
        · rw [hp] at hpa
          cases hpa
        · exact ⟨a, ha2, hpa⟩
      simp [List.takeWhile, hp, ih h2]

theorem rfindAux_drop (l : List Char) (c : Char) :
    l.drop (match rfindAux l c with
      | none => 0
      | some i => i + 1) = (l.reverse.takeWhile (fun x => x ≠ c)).reverse := by
  induction l with
  | nil => simp [rfindAux]
  | cons x xs ih =>
    cases hr : rfindAux xs c with
    | some i =>
      have hc : c ∈ xs := by
        by_contra hn
        rw [rfindAux_eq_none.mpr hn] at hr
        cases hr
      rw [hr] at ih
      have hex : ∃ a ∈ xs.reverse, (fun x => decide (x ≠ c)) a = false :=
        ⟨c, by simpa using hc, by simp⟩
      simp only [rfindAux, hr, List.reverse_cons, List.drop_succ_cons]
      rw [takeWhile_append_of_exists _ _ hex]
      exact ih
    | none =>
      have hc : c ∉ xs := rfindAux_eq_none.mp hr
      have hall : ∀ a ∈ xs.reverse, (fun x => decide (x ≠ c)) a = true := by
        intro a ha
        have : a ∈ xs := by simpa using ha
        simp
        rintro rfl
        exact hc this
      by_cases hx : x = c
      · subst hx
        simp only [rfindAux, hr, if_true, List.reverse_cons, List.drop_succ_cons,
          List.drop_zero]
        rw [List.takeWhile_append_of_pos hall]
        simp [List.takeWhile]
      · simp only [rfindAux, hr, hx, if_false, List.reverse_cons, List.drop_zero]
        rw [List.takeWhile_append_of_pos hall]
        simp [List.takeWhile, hx]

theorem derive_output_filename_eq (s : String) :
    osm_gis_export_overview.derive_output_filename s = .ok (spec_output_name s) := by
  have hdrop := rfindAux_drop s.data '/'
  have hle : (match rfindAux s.data '/' with
      | none => 0
      | some i => i + 1) ≤ s.length := by
    cases h : rfindAux s.data '/' with
    | none => simp
    | some i => exact rfindAux_lt h
  unfold osm_gis_export_overview.derive_output_filename
  simp only [rfind, substr]
  rw [if_neg (by omega)]
  simp only [hdrop]
  have htake := findAux_take (s.data.reverse.takeWhile (fun x => x ≠ '/')).reverse '.'
  simp only [find, erase, spec_output_name, cut_at_first_dot, text_after_last_slash]
  cases hf : findAux (s.data.reverse.takeWhile (fun x => x ≠ '/')).reverse '.' with
  | none =>
    rw [hf] at htake
    simp only at htake
    simp only [← htake]
  | some dot =>
    rw [hf] at htake
    simp only at htake
    have hlt := findAux_lt hf
    simp only [String.length]
    rw [if_neg (by omega)]
    simp only [← htake]

/-- C1: in `osm_gis_export_overview` the output filename is the `--output`
value when that option is given; otherwise, for every input filename (the
empty one and those ending in `/` included), the derivation never throws and
yields the text after the last `/`, cut at its first `.`, followed by `.db`;
`/data/berlin.osm.pbf` gives `berlin.db`. -/
theorem overview_output_filename (input_filename : String) :
    (∀ o : String,
      osm_gis_export_overview.output_filename (some o) input_filename = .ok o) ∧
    osm_gis_export_overview.output_filename none input_filename
      = .ok (cut_at_first_dot (text_after_last_slash input_filename) ++ ".db") ∧
    osm_gis_export_overview.output_filename none "/data/berlin.osm.pbf"
      = .ok "berlin.db" ∧
    osm_gis_export_overview.output_filename none "" = .ok ".db" ∧
    osm_gis_export_overview.output_filename none "data/" = .ok ".db" := by
  refine ⟨fun o => rfl, ?_, by rfl, by rfl, by rfl⟩
  exact derive_output_filename_eq input_filename

/-! ### Positional arguments -/

theorem toogr_main_usage (W : World) (argv0 : String) (opts : List (Char × String))
    (o : osmium_toogr.Options) (args : List String)
    (hopts : osmium_toogr.getopt_loop W.map_types {} opts = .ok o)
    (hargs : 2 < args.length) :
    (osmium_toogr.main W argv0 opts args).status = .exited 1 ∧
    (osmium_toogr.main W argv0 opts args).proc.inputs_read = [] ∧
    (osmium_toogr.main W argv0 opts args).proc.cerr
      = ["Usage: " ++ argv0 ++ " [OPTIONS] [INFILE [OUTFILE]]\n"] := by
  simp [osmium_toogr.main, hopts, osmium_toogr.positional_args, hargs]

theorem toogr2_main_usage (W : World) (argv0 : String) (opts : List (Char × String))
    (o : osmium_toogr2.Options) (args : List String)
    (hopts : osmium_toogr2.getopt_loop {} opts = .ok o)
    (hargs : 2 < args.length) :
    (osmium_toogr2.main W argv0 opts args).status = .exited 1 ∧
    (osmium_toogr2.main W argv0 opts args).proc.inputs_read = [] ∧
    (osmium_toogr2.main W argv0 opts args).proc.cerr
      = ["Usage: " ++ argv0 ++ " [OPTIONS] [INFILE [OUTFILE]]\n"] := by
  simp [osmium_toogr2.main, hopts, osmium_toogr2.positional_args, hargs]

theorem toogr2_exp_main_usage (W : World) (argv0 : String) (opts : List (Char × String))
    (o : osmium_toogr2_exp.Options) (args : List String)
    (hopts : osmium_toogr2_exp.getopt_loop {} opts = .ok o)
    (hargs : 2 < args.length) :
    (osmium_toogr2_exp.main W argv0 opts args).status = .exited 1 ∧
    (osmium_toogr2_exp.main W argv0 opts args).proc.inputs_read = [] ∧
    (osmium_toogr2_exp.main W argv0 opts args).proc.cerr
      = ["Usage: " ++ argv0 ++ " [OPTIONS] [INFILE [OUTFILE]]\n"] := by
  simp [osmium_toogr2_exp.main, hopts, osmium_toogr2_exp.positional_args, hargs]

theorem toogr_main_reads (W : World) (argv0 : String) (opts : List (Char × String))
    (o : osmium_toogr.Options) (args : List String) (input output : String)
    (hopts : osmium_toogr.getopt_loop W.map_types {} opts = .ok o)
    (hpos : osmium_toogr.positional_args argv0 args = .ok (input, output)) :
    (osmium_toogr.main W argv0 opts args).proc.inputs_read.head? = some input ∧
    ((osmium_toogr.main W argv0 opts args).proc.dataset = none ∨
      (osmium_toogr.main W argv0 opts args).proc.dataset
        = some (o.output_format, output)) := by
  simp only [osmium_toogr.main, hopts, hpos]
  repeat' split
  all_goals simp

theorem toogr2_main_reads (W : World) (argv0 : String) (opts : List (Char × String))
    (o : osmium_toogr2.Options) (args : List String) (input output : String)
    (hopts : osmium_toogr2.getopt_loop {} opts = .ok o)
    (hpos : osmium_toogr2.positional_args argv0 args = .ok (input, output)) :
    (osmium_toogr2.main W argv0 opts args).proc.inputs_read.head? = some input ∧
    ((osmium_toogr2.main W argv0 opts args).proc.dataset = none ∨
      (osmium_toogr2.main W argv0 opts args).proc.dataset
        = some (o.output_format, output)) := by
  simp only [osmium_toogr2.main, hopts, hpos]
  repeat' split
  all_goals simp

theorem toogr2_exp_main_reads (W : World) (argv0 : String) (opts : List (Char × String))
    (o : osmium_toogr2_exp.Options) (args : List String) (input output : String)
    (hopts : osmium_toogr2_exp.getopt_loop {} opts = .ok o)
    (hpos : osmium_toogr2_exp.positional_args argv0 args = .ok (input, output)) :
    (osmium_toogr2_exp.main W argv0 opts args).proc.inputs_read.head? = some input ∧
    ((osmium_toogr2_exp.main W argv0 opts args).proc.dataset = none ∨
      (osmium_toogr2_exp.main W argv0 opts args).proc.dataset
        = some (o.output_format, output)) := by
  simp only [osmium_toogr2_exp.main, hopts, hpos]
  repeat' split
  all_goals simp

/-- C2: in osmium_toogr, osmium_toogr2 and osmium_toogr2_exp, once the option
loop has ended, no positional argument gives input `-` and output `ogr_out`,
one gives that argument as input and output `ogr_out`, two give input and
output in that order, and the input so resolved is the one `main` reads; more
than two make `main` print the usage text and exit with status 1 before any
input is read. -/
theorem positional_arguments_resolve (W : World) (argv0 a b : String)
    (args : List String) (opts₁ opts₂ opts₃ : List (Char × String))
    (o₁ : osmium_toogr.Options) (o₂ : osmium_toogr2.Options)
    (o₃ : osmium_toogr2_exp.Options)
    (h₁ : osmium_toogr.getopt_loop W.map_types {} opts₁ = .ok o₁)
    (h₂ : osmium_toogr2.getopt_loop {} opts₂ = .ok o₂)
    (h₃ : osmium_toogr2_exp.getopt_loop {} opts₃ = .ok o₃)
    (hargs : 2 < args.length) :
    (osmium_toogr.positional_args argv0 [] = .ok ("-", "ogr_out") ∧
      osmium_toogr.positional_args argv0 [a] = .ok (a, "ogr_out") ∧
      osmium_toogr.positional_args argv0 [a, b] = .ok (a, b) ∧
      (osmium_toogr.main W argv0 opts₁ []).proc.inputs_read.head? = some "-" ∧
      (osmium_toogr.main W argv0 opts₁ [a]).proc.inputs_read.head? = some a ∧
      (osmium_toogr.main W argv0 opts₁ [a, b]).proc.inputs_read.head? = some a ∧
      (osmium_toogr.main W argv0 opts₁ args).status = .exited 1 ∧
      (osmium_toogr.main W argv0 opts₁ args).proc.inputs_read = [] ∧
      (osmium_toogr.main W argv0 opts₁ args).proc.cerr
        = ["Usage: " ++ argv0 ++ " [OPTIONS] [INFILE [OUTFILE]]\n"]) ∧
    (osmium_toogr2.positional_args argv0 [] = .ok ("-", "ogr_out") ∧
      osmium_toogr2.positional_args argv0 [a] = .ok (a, "ogr_out") ∧
      osmium_toogr2.positional_args argv0 [a, b] = .ok (a, b) ∧
      (osmium_toogr2.main W argv0 opts₂ []).proc.inputs_read.head? = some "-" ∧
      (osmium_toogr2.main W argv0 opts₂ [a]).proc.inputs_read.head? = some a ∧
      (osmium_toogr2.main W argv0 opts₂ [a, b]).proc.inputs_read.head? = some a ∧
      (osmium_toogr2.main W argv0 opts₂ args).status = .exited 1 ∧
      (osmium_toogr2.main W argv0 opts₂ args).proc.inputs_read = [] ∧
      (osmium_toogr2.main W argv0 opts₂ args).proc.cerr
        = ["Usage: " ++ argv0 ++ " [OPTIONS] [INFILE [OUTFILE]]\n"]) ∧
    (osmium_toogr2_exp.positional_args argv0 [] = .ok ("-", "ogr_out") ∧
      osmium_toogr2_exp.positional_args argv0 [a] = .ok (a, "ogr_out") ∧
      osmium_toogr2_exp.positional_args argv0 [a, b] = .ok (a, b) ∧
      (osmium_toogr2_exp.main W argv0 opts₃ []).proc.inputs_read.head? = some "-" ∧
      (osmium_toogr2_exp.main W argv0 opts₃ [a]).proc.inputs_read.head? = some a ∧
      (osmium_toogr2_exp.main W argv0 opts₃ [a, b]).proc.inputs_read.head? = some a ∧
      (osmium_toogr2_exp.main W argv0 opts₃ args).status = .exited 1 ∧
      (osmium_toogr2_exp.main W argv0 opts₃ args).proc.inputs_read = [] ∧
      (osmium_toogr2_exp.main W argv0 opts₃ args).proc.cerr
        = ["Usage: " ++ argv0 ++ " [OPTIONS] [INFILE [OUTFILE]]\n"]) := by
  have u₁ := toogr_main_usage W argv0 opts₁ o₁ args h₁ hargs
  have u₂ := toogr2_main_usage W argv0 opts₂ o₂ args h₂ hargs
  have u₃ := toogr2_exp_main_usage W argv0 opts₃ o₃ args h₃ hargs
  refine ⟨⟨rfl, rfl, rfl, ?_, ?_, ?_, u₁⟩, ⟨rfl, rfl, rfl, ?_, ?_, ?_, u₂⟩,
    ⟨rfl, rfl, rfl, ?_, ?_, ?_, u₃⟩⟩
  · exact (toogr_main_reads W argv0 opts₁ o₁ [] "-" "ogr_out" h₁ rfl).1
  · exact (toogr_main_reads W argv0 opts₁ o₁ [a] a "ogr_out" h₁ rfl).1
  · exact (toogr_main_reads W argv0 opts₁ o₁ [a, b] a b h₁ rfl).1
  · exact (toogr2_main_reads W argv0 opts₂ o₂ [] "-" "ogr_out" h₂ rfl).1
  · exact (toogr2_main_reads W argv0 opts₂ o₂ [a] a "ogr_out" h₂ rfl).1
  · exact (toogr2_main_reads W argv0 opts₂ o₂ [a, b] a b h₂ rfl).1
  · exact (toogr2_exp_main_reads W argv0 opts₃ o₃ [] "-" "ogr_out" h₃ rfl).1
  · exact (toogr2_exp_main_reads W argv0 opts₃ o₃ [a] a "ogr_out" h₃ rfl).1
  · exact (toogr2_exp_main_reads W argv0 opts₃ o₃ [a, b] a b h₃ rfl).1

theorem positional_arguments_resolve_witness :
    2 < ["a.osm", "out", "extra"].length ∧
    (osmium_toogr2.main (sample_world []) "osmium_toogr2" [('f', "SQLite")]
      ["a.osm", "out", "extra"]).status = .exited 1 :=
  ⟨by decide,
    (positional_arguments_resolve (sample_world []) "osmium_toogr2" "a.osm" "out"
      ["a.osm", "out", "extra"] [('f', "SQLite")] [('f', "SQLite")] [('f', "SQLite")]
      { output_format := "SQLite" } { output_format := "SQLite" }
      { output_format := "SQLite" } rfl rfl rfl (by decide)).2.1.2.2.2.2.2.2.1⟩

/-! ### Geometry errors in the way and area callbacks -/

theorem overview_way_geometry_error (F : OGRFactory)
    (s : osm_gis_export_overview.State) (w : OSMObject) (m : String)
    (h : F.create_linestring w = .error (.geometry_error m)) :
    osm_gis_export_overview.way F s w
      = .ok { handler := s.handler,
              cerr := s.cerr
                ++ ["Ignoring illegal geometry for way " ++ toString w.id ++ ".\n"] } := by
  simp [osm_gis_export_overview.way, h]

theorem overview_area_geometry_error (F : OGRFactory)
    (s : osm_gis_export_overview.State) (a : Area) (m : String)
    (h : F.create_multipolygon a = .error (.geometry_error m)) :
    osm_gis_export_overview.area F s a
      = .ok { handler := s.handler,
              cerr := s.cerr
                ++ ["Ignoring illegal geometry for area " ++ toString a.id
                  ++ " created from " ++ (if a.from_way then "way" else "relation")
                  ++ " with id=" ++ toString a.orig_id ++ ".\n"] } := by
  simp [osm_gis_export_overview.area, h]

theorem toogr_way_geometry_error (F : OGRFactory)
    (s : osmium_toogr.State) (w : OSMObject) (m highway : String)
    (hf : get_value_by_key w.tags "highway" = some highway)
    (h : F.create_linestring w = .error (.geometry_error m)) :
    osmium_toogr.way F s w
      = .ok { handler := s.handler,
              cerr := s.cerr
                ++ ["Ignoring illegal geometry for way " ++ toString w.id ++ ".\n"] } := by
  simp [osmium_toogr.way, hf, h]

theorem toogr2_way_geometry_error (F : OGRFactory)
    (s : osmium_toogr2.State) (w : OSMObject) (m highway : String)
    (hf : get_value_by_key w.tags "highway" = some highway)
    (h : F.create_linestring w = .error (.geometry_error m)) :
    osmium_toogr2.way F s w
      = .ok { handler := s.handler,
              cerr := s.cerr
                ++ ["Ignoring illegal geometry for way " ++ toString w.id ++ ".\n"] } := by
  simp [osmium_toogr2.way, hf, h]

theorem toogr2_area_geometry_error (F : OGRFactory)
    (s : osmium_toogr2.State) (a : Area) (m building : String)
    (hf : get_value_by_key a.tags "building" = some building)
    (h : F.create_multipolygon a = .error (.geometry_error m)) :
    osmium_toogr2.area F s a
      = .ok { handler := s.handler,
              cerr := s.cerr
                ++ ["Ignoring illegal geometry for area " ++ toString a.id
                  ++ " created from " ++ (if a.from_way then "way" else "relation")
                  ++ " with id=" ++ toString a.orig_id ++ ".\n"] } := by
  simp [osmium_toogr2.area, hf, h]

theorem toogr2_exp_way_geometry_error (F : OGRFactory)
    (s : osmium_toogr2_exp.State) (w : OSMObject) (m highway : String)
    (hf : get_value_by_key w.tags "highway" = some highway)
    (h : F.create_linestring w = .error (.geometry_error m)) :
    osmium_toogr2_exp.way F s w
      = .ok { handler := s.handler,
              cerr := s.cerr
                ++ ["Ignoring illegal geometry for way " ++ toString w.id ++ ".\n"] } := by
  simp [osmium_toogr2_exp.way, hf, h]

theorem toogr2_exp_area_geometry_error (F : OGRFactory)
    (s : osmium_toogr2_exp.State) (a : Area) (m building : String)
    (hf : get_value_by_key a.tags "building" = some building)
    (h : F.create_multipolygon a = .error (.geometry_error m)) :
    osmium_toogr2_exp.area F s a
      = .ok { handler := s.handler,
              cerr := s.cerr
                ++ ["Ignoring illegal geometry for area " ++ toString a.id
                  ++ " created from " ++ (if a.from_way then "way" else "relation")
                  ++ " with id=" ++ toString a.orig_id ++ ".\n"] } := by
  simp [osmium_toogr2_exp.area, hf, h]

/-- C3: in every tool, a way or area that passes the filter of its callback
(none in osm_gis_export_overview, a `highway` tag for ways and a `building`
tag for areas in the other tools) and whose geometry construction throws a
geometry error leaves every layer as it was, appends exactly one message
with the id of the object to standard error, and the callback returns, so
that `osmium::apply` goes on with the objects that follow. -/
theorem way_area_geometry_error_skipped (F : OGRFactory)
    (w₀ w : OSMObject) (a₀ a : Area) (m₁ m₂ m₃ m₄ highway building : String)
    (s₀ : osm_gis_export_overview.State) (s₁ : osmium_toogr.State)
    (s₂ : osmium_toogr2.State) (s₃ : osmium_toogr2_exp.State)
    (rest : List Item)
    (hw₀ : F.create_linestring w₀ = .error (.geometry_error m₁))
    (ha₀ : F.create_multipolygon a₀ = .error (.geometry_error m₂))
    (hhighway : get_value_by_key w.tags "highway" = some highway)
    (hw : F.create_linestring w = .error (.geometry_error m₃))
    (hbuilding : get_value_by_key a.tags "building" = some building)
    (ha : F.create_multipolygon a = .error (.geometry_error m₄)) :
    let way_msg := fun (x : OSMObject) =>
      "Ignoring illegal geometry for way " ++ toString x.id ++ ".\n"
    let area_msg := fun (x : Area) =>
      "Ignoring illegal geometry for area " ++ toString x.id ++ " created from "
        ++ (if x.from_way then "way" else "relation") ++ " with id="
        ++ toString x.orig_id ++ ".\n"
    (osm_gis_export_overview.way F s₀ w₀
        = .ok { handler := s₀.handler, cerr := s₀.cerr ++ [way_msg w₀] } ∧
      osm_gis_export_overview.apply F s₀ (.way w₀ :: rest)
        = osm_gis_export_overview.apply F
            { handler := s₀.handler, cerr := s₀.cerr ++ [way_msg w₀] } rest) ∧
    (osm_gis_export_overview.area F s₀ a₀
        = .ok { handler := s₀.handler, cerr := s₀.cerr ++ [area_msg a₀] } ∧
      osm_gis_export_overview.apply F s₀ (.area a₀ :: rest)
        = osm_gis_export_overview.apply F
            { handler := s₀.handler, cerr := s₀.cerr ++ [area_msg a₀] } rest) ∧
    (osmium_toogr.way F s₁ w
        = .ok { handler := s₁.handler, cerr := s₁.cerr ++ [way_msg w] } ∧
      osmium_toogr.apply F s₁ (.way w :: rest)
        = osmium_toogr.apply F
            { handler := s₁.handler, cerr := s₁.cerr ++ [way_msg w] } rest) ∧
    (osmium_toogr2.way F s₂ w
        = .ok { handler := s₂.handler, cerr := s₂.cerr ++ [way_msg w] } ∧
      osmium_toogr2.apply F s₂ (.way w :: rest)
        = osmium_toogr2.apply F
            { handler := s₂.handler, cerr := s₂.cerr ++ [way_msg w] } rest) ∧
    (osmium_toogr2.area F s₂ a
        = .ok { handler := s₂.handler, cerr := s₂.cerr ++ [area_msg a] } ∧
      osmium_toogr2.apply F s₂ (.area a :: rest)
        = osmium_toogr2.apply F
            { handler := s₂.handler, cerr := s₂.cerr ++ [area_msg a] } rest) ∧
    (osmium_toogr2_exp.way F s₃ w
        = .ok { handler := s₃.handler, cerr := s₃.cerr ++ [way_msg w] } ∧
      osmium_toogr2_exp.apply F s₃ (.way w :: rest)
        = osmium_toogr2_exp.apply F
            { handler := s₃.handler, cerr := s₃.cerr ++ [way_msg w] } rest) ∧
    (osmium_toogr2_exp.area F s₃ a
        = .ok { handler := s₃.handler, cerr := s₃.cerr ++ [area_msg a] } ∧
      osmium_toogr2_exp.apply F s₃ (.area a :: rest)
        = osmium_toogr2_exp.apply F
            { handler := s₃.handler, cerr := s₃.cerr ++ [area_msg a] } rest) := by
  intro way_msg area_msg
  have e₁ := overview_way_geometry_error F s₀ w₀ m₁ hw₀
  have e₂ := overview_area_geometry_error F s₀ a₀ m₂ ha₀
  have e₃ := toogr_way_geometry_error F s₁ w m₃ highway hhighway hw
  have e₄ := toogr2_way_geometry_error F s₂ w m₃ highway hhighway hw
  have e₅ := toogr2_area_geometry_error F s₂ a m₄ building hbuilding ha
  have e₆ := toogr2_exp_way_geometry_error F s₃ w m₃ highway hhighway hw
  have e₇ := toogr2_exp_area_geometry_error F s₃ a m₄ building hbuilding ha
  refine ⟨⟨e₁, ?_⟩, ⟨e₂, ?_⟩, ⟨e₃, ?_⟩, ⟨e₄, ?_⟩, ⟨e₅, ?_⟩, ⟨e₆, ?_⟩, ⟨e₇, ?_⟩⟩
  · simp only [osm_gis_export_overview.apply, osm_gis_export_overview.handle, e₁]
  · simp only [osm_gis_export_overview.apply, osm_gis_export_overview.handle, e₂]
  · simp only [osmium_toogr.apply, osmium_toogr.handle, e₃]
  · simp only [osmium_toogr2.apply, osmium_toogr2.handle, e₄]
  · simp only [osmium_toogr2.apply, osmium_toogr2.handle, e₅]
  · simp only [osmium_toogr2_exp.apply, osmium_toogr2_exp.handle, e₆]
  · simp only [osmium_toogr2_exp.apply, osmium_toogr2_exp.handle, e₇]

theorem way_area_geometry_error_skipped_witness :
    osmium_toogr2.apply sample_factory
        { handler := osmium_toogr2.MyOGRHandler.create, cerr := [] }
        [.way (sample_object 1 [⟨"highway", "residential"⟩]),
         .way (sample_object 2 [⟨"highway", "primary"⟩])]
      = osmium_toogr2.apply sample_factory
          { handler := osmium_toogr2.MyOGRHandler.create,
            cerr := ["Ignoring illegal geometry for way 1.\n"] }
          [.way (sample_object 2 [⟨"highway", "primary"⟩])] :=
  (way_area_geometry_error_skipped sample_factory
    (sample_object 1 []) (sample_object 1 [⟨"highway", "residential"⟩])
    (sample_area 1 [] 7) (sample_area 1 [⟨"building", "yes"⟩] 7)
    "need at least two points for linestring" "invalid area"
    "need at least two points for linestring" "invalid area" "residential" "yes"
    { handler := osm_gis_export_overview.MyOGRHandler.create {}, cerr := [] }
    { handler := osmium_toogr.MyOGRHandler.create, cerr := [] }
    { handler := osmium_toogr2.MyOGRHandler.create, cerr := [] }
    { handler := osmium_toogr2_exp.MyOGRHandler.create, cerr := [] }
    [.way (sample_object 2 [⟨"highway", "primary"⟩])]
    rfl rfl rfl rfl rfl rfl).2.2.2.1.2

/-! ### Geometry errors in the node callbacks -/

theorem overview_node_error (F : OGRFactory) (s : osm_gis_export_overview.State)
    (n : OSMObject) (e : Exn)
    (hf : s.handler.m_cfg.add_untagged_nodes = true ∨ n.tags ≠ [])
    (h : F.create_point n = .error e) :
    osm_gis_export_overview.node F s n = .error e := by
  have hc : (s.handler.m_cfg.add_untagged_nodes || !n.tags.isEmpty) = true := by
    rcases hf with hf | hf
    · simp [hf]
    · cases ht : n.tags with
      | nil => exact absurd ht hf
      | cons t ts => simp
  simp only [osm_gis_export_overview.node, hc, if_true, h]

theorem toogr_node_error (F : OGRFactory) (s : osmium_toogr.State)
    (n : OSMObject) (e : Exn)
    (hf : get_value_by_key n.tags "amenity" = some "post_box")
    (h : F.create_point n = .error e) :
    osmium_toogr.node F s n = .error e := by
  simp [osmium_toogr.node, hf, h]

theorem toogr2_node_error (F : OGRFactory) (s : osmium_toogr2.State)
    (n : OSMObject) (e : Exn)
    (hf : get_value_by_key n.tags "amenity" = some "post_box")
    (h : F.create_point n = .error e) :
    osmium_toogr2.node F s n = .error e := by
  simp [osmium_toogr2.node, hf, h]

theorem toogr2_exp_node_error (F : OGRFactory) (s : osmium_toogr2_exp.State)
    (n : OSMObject) (e : Exn)
    (hf : get_value_by_key n.tags "amenity" = some "post_box")
    (h : F.create_point n = .error e) :
    osmium_toogr2_exp.node F s n = .error e := by
  simp [osmium_toogr2_exp.node, hf, h]

/-- C4, the claim refuted: in each of the four tools a node that passes the
filter and whose point construction throws a geometry error makes the node
callback throw that error.  Nothing is logged, and `osmium::apply` stops, so
the post box that follows is never processed. -/
theorem node_geometry_error_not_caught :
    osm_gis_export_overview.apply sample_factory
        { handler := osm_gis_export_overview.MyOGRHandler.create {}, cerr := [] }
        [.node (sample_object 1 [⟨"amenity", "post_box"⟩]),
         .node (sample_object 2 [⟨"amenity", "post_box"⟩])]
      = ({ handler := osm_gis_export_overview.MyOGRHandler.create {}, cerr := [] },
          some (.geometry_error "invalid point")) ∧
    osmium_toogr.apply sample_factory
        { handler := osmium_toogr.MyOGRHandler.create, cerr := [] }
        [.node (sample_object 1 [⟨"amenity", "post_box"⟩]),
         .node (sample_object 2 [⟨"amenity", "post_box"⟩])]
      = ({ handler := osmium_toogr.MyOGRHandler.create, cerr := [] },
          some (.geometry_error "invalid point")) ∧
    osmium_toogr2.apply sample_factory
        { handler := osmium_toogr2.MyOGRHandler.create, cerr := [] }
        [.node (sample_object 1 [⟨"amenity", "post_box"⟩]),
         .node (sample_object 2 [⟨"amenity", "post_box"⟩])]
      = ({ handler := osmium_toogr2.MyOGRHandler.create, cerr := [] },
          some (.geometry_error "invalid point")) ∧
    osmium_toogr2_exp.apply sample_factory
        { handler := osmium_toogr2_exp.MyOGRHandler.create, cerr := [] }
        [.node (sample_object 1 [⟨"amenity", "post_box"⟩]),
         .node (sample_object 2 [⟨"amenity", "post_box"⟩])]
      = ({ handler := osmium_toogr2_exp.MyOGRHandler.create, cerr := [] },
          some (.geometry_error "invalid point")) ∧
    (∀ s', osmium_toogr2.node sample_factory
        { handler := osmium_toogr2.MyOGRHandler.create, cerr := [] }
        (sample_object 1 [⟨"amenity", "post_box"⟩]) ≠ .ok s') := by
  refine ⟨rfl, rfl, rfl, rfl, ?_⟩
  intro s' h
  have e : osmium_toogr2.node sample_factory
      { handler := osmium_toogr2.MyOGRHandler.create, cerr := [] }
      (sample_object 1 [⟨"amenity", "post_box"⟩])
        = .error (.geometry_error "invalid point") := rfl
  rw [e] at h
  cases h

/-- C4 as amended: in every tool the node callback has no handler for
geometry errors.  When the point construction of a node that passes the node
filter throws a geometry error, the callback emits no feature, writes nothing
and throws that error, and `osmium::apply` ends with the state unchanged and
the objects that follow unprocessed. -/
theorem node_geometry_error_propagates (F : OGRFactory) (n₀ n : OSMObject)
    (m₀ m : String) (rest : List Item)
    (s₀ : osm_gis_export_overview.State) (s₁ : osmium_toogr.State)
    (s₂ : osmium_toogr2.State) (s₃ : osmium_toogr2_exp.State)
    (hf₀ : s₀.handler.m_cfg.add_untagged_nodes = true ∨ n₀.tags ≠ [])
    (h₀ : F.create_point n₀ = .error (.geometry_error m₀))
    (hf : get_value_by_key n.tags "amenity" = some "post_box")
    (h : F.create_point n = .error (.geometry_error m)) :
    (osm_gis_export_overview.node F s₀ n₀ = .error (.geometry_error m₀) ∧
      osm_gis_export_overview.apply F s₀ (.node n₀ :: rest)
        = (s₀, some (.geometry_error m₀))) ∧
    (osmium_toogr.node F s₁ n = .error (.geometry_error m) ∧
      osmium_toogr.apply F s₁ (.node n :: rest) = (s₁, some (.geometry_error m))) ∧
    (osmium_toogr2.node F s₂ n = .error (.geometry_error m) ∧
      osmium_toogr2.apply F s₂ (.node n :: rest) = (s₂, some (.geometry_error m))) ∧
    (osmium_toogr2_exp.node F s₃ n = .error (.geometry_error m) ∧
      osmium_toogr2_exp.apply F s₃ (.node n :: rest)
        = (s₃, some (.geometry_error m))) := by
  have e₀ := overview_node_error F s₀ n₀ _ hf₀ h₀
  have e₁ := toogr_node_error F s₁ n _ hf h
  have e₂ := toogr2_node_error F s₂ n _ hf h
  have e₃ := toogr2_exp_node_error F s₃ n _ hf h
  refine ⟨⟨e₀, ?_⟩, ⟨e₁, ?_⟩, ⟨e₂, ?_⟩, ⟨e₃, ?_⟩⟩
  · simp only [osm_gis_export_overview.apply, osm_gis_export_overview.handle, e₀]
  · simp only [osmium_toogr.apply, osmium_toogr.handle, e₁]
  · simp only [osmium_toogr2.apply, osmium_toogr2.handle, e₂]
  · simp only [osmium_toogr2_exp.apply, osmium_toogr2_exp.handle, e₃]

theorem node_geometry_error_propagates_witness :
    osmium_toogr.node sample_factory
        { handler := osmium_toogr.MyOGRHandler.create, cerr := [] }
        (sample_object 1 [⟨"amenity", "post_box"⟩])
      = .error (.geometry_error "invalid point") :=
  (node_geometry_error_propagates sample_factory
    (sample_object 1 [⟨"name", "x"⟩]) (sample_object 1 [⟨"amenity", "post_box"⟩])
    "invalid point" "invalid point" []
    { handler := osm_gis_export_overview.MyOGRHandler.create {}, cerr := [] }
    { handler := osmium_toogr.MyOGRHandler.create, cerr := [] }
    { handler := osmium_toogr2.MyOGRHandler.create, cerr := [] }
    { handler := osmium_toogr2_exp.MyOGRHandler.create, cerr := [] }
    (Or.inr (by decide)) rfl rfl rfl).2.1.1

/-! ### Exceptions at the top level of `main` -/

theorem overview_main_try_returns_zero (W : World) (desc : String)
    (parsed : Except Exn osm_gis_export_overview.variables_map) (n : Nat)
    (p : Proc osm_gis_export_overview.MyOGRHandler)
    (h : osm_gis_export_overview.main_try W desc parsed = (.ok n, p)) : n = 0 := by
  simp only [osm_gis_export_overview.main_try] at h
  repeat' split at h
  all_goals simp_all

theorem overview_main_exits (W : World) (desc : String)
    (parsed : Except Exn osm_gis_export_overview.variables_map) :
    (osm_gis_export_overview.main W desc parsed).status = .exited 0 ∨
    (osm_gis_export_overview.main W desc parsed).status = .exited 1 := by
  unfold osm_gis_export_overview.main
  rcases hr : osm_gis_export_overview.main_try W desc parsed with ⟨r, p⟩
  cases r with
  | ok n =>
    have := overview_main_try_returns_zero W desc parsed n p hr
    subst this
    exact Or.inl rfl
  | error e => exact Or.inr rfl

theorem overview_main_catches (W : World) (desc : String)
    (parsed : Except Exn osm_gis_export_overview.variables_map) (e : Exn)
    (p : Proc osm_gis_export_overview.MyOGRHandler)
    (h : osm_gis_export_overview.main_try W desc parsed = (.error e, p)) :
    (osm_gis_export_overview.main W desc parsed).status = .exited 1 ∧
    (osm_gis_export_overview.main W desc parsed).proc.cerr
      = p.cerr ++ ["Error: " ++ e.what ++ "\n"] := by
  simp [osm_gis_export_overview.main, h]

theorem overview_unreadable_input (W : World) (desc : String)
    (vm : osm_gis_export_overview.variables_map) (e : Exn)
    (hhelp : vm.help = false)
    (h : W.read_relations (vm.input_filename.getD "") = .error e) :
    ∃ p, osm_gis_export_overview.main_try W desc (.ok vm) = (.error e, p) := by
  have hout : ∃ out, osm_gis_export_overview.output_filename vm.output
      (vm.input_filename.getD "") = .ok out := by
    cases ho : vm.output with
    | some o => exact ⟨o, rfl⟩
    | none => exact ⟨_, derive_output_filename_eq _⟩
  obtain ⟨out, hout⟩ := hout
  have hin : (match vm.input_filename with
      | some f => f
      | none => "") = vm.input_filename.getD "" := by
    cases vm.input_filename <;> rfl
  simp only [osm_gis_export_overview.main_try, hhelp, hin, hout, h]
  exact ⟨_, rfl⟩

theorem toogr_main_unreadable (W : World) (argv0 : String)
    (opts : List (Char × String)) (o : osmium_toogr.Options) (args : List String)
    (input output : String) (e : Exn)
    (hopts : osmium_toogr.getopt_loop W.map_types {} opts = .ok o)
    (hpos : osmium_toogr.positional_args argv0 args = .ok (input, output))
    (h : W.reader input = .error e) :
    (osmium_toogr.main W argv0 opts args).status = .terminated e := by
  simp [osmium_toogr.main, hopts, hpos, h]

theorem toogr2_main_unreadable (W : World) (argv0 : String)
    (opts : List (Char × String)) (o : osmium_toogr2.Options) (args : List String)
    (input output : String) (e : Exn)
    (hopts : osmium_toogr2.getopt_loop {} opts = .ok o)
    (hpos : osmium_toogr2.positional_args argv0 args = .ok (input, output))
    (h : W.read_relations input = .error e) :
    (osmium_toogr2.main W argv0 opts args).status = .terminated e := by
  simp [osmium_toogr2.main, hopts, hpos, h]

theorem toogr2_exp_main_unreadable (W : World) (argv0 : String)
    (opts : List (Char × String)) (o : osmium_toogr2_exp.Options) (args : List String)
    (input output : String) (e : Exn)
    (hopts : osmium_toogr2_exp.getopt_loop {} opts = .ok o)
    (hpos : osmium_toogr2_exp.positional_args argv0 args = .ok (input, output))
    (h : W.read_relations input = .error e) :
    (osmium_toogr2_exp.main W argv0 opts args).status = .terminated e := by
  simp [osmium_toogr2_exp.main, hopts, hpos, h]

/-- C5, the claim refuted: osmium_toogr, osmium_toogr2 and osmium_toogr2_exp
have no `try` block in `main`.  When the input cannot be opened, or when
osmium_toogr cannot open its dump file, the exception leaves `main` and the
process is terminated; it does not exit with status 1 and nothing is
printed by `main`. -/
theorem exception_not_caught_in_toogr_mains :
    (osmium_toogr.main unreadable_world "osmium_toogr" [] ["missing.osm"]).status
      = .terminated (.other "Open failed for 'missing.osm'") ∧
    (osmium_toogr.main unreadable_world "osmium_toogr" [] ["missing.osm"]).proc.cerr
      = [] ∧
    (osmium_toogr.main undumpable_world "osmium_toogr" [] ["a.osm"]).status
      = .terminated (.other "Open failed: Permission denied") ∧
    (osmium_toogr2.main unreadable_world "osmium_toogr2" [] ["missing.osm"]).status
      = .terminated (.other "Open failed for 'missing.osm'") ∧
    (osmium_toogr2_exp.main unreadable_world "osmium_toogr2_exp" []
      ["missing.osm"]).status
      = .terminated (.other "Open failed for 'missing.osm'") ∧
    (osmium_toogr.main unreadable_world "osmium_toogr" [] ["missing.osm"]).status
      ≠ .exited 1 := by
  refine ⟨rfl, rfl, rfl, rfl, rfl, ?_⟩
  decide

theorem toogr_main_outcomes (W : World) (argv0 : String)
    (opts : List (Char × String)) (o : osmium_toogr.Options) (args : List String)
    (input output : String)
    (hopts : osmium_toogr.getopt_loop W.map_types {} opts = .ok o)
    (hpos : osmium_toogr.positional_args argv0 args = .ok (input, output)) :
    ((osmium_toogr.main W argv0 opts args).status = .exited 0 ∨
      ∃ e, (osmium_toogr.main W argv0 opts args).status = .terminated e) ∧
    (∀ e, W.reader input = .error e →
      (osmium_toogr.main W argv0 opts args).status = .terminated e) ∧
    (∀ items read_error, W.reader input = .ok (items, read_error) →
      (∀ e, W.create_map o.location_store = .error e →
        (osmium_toogr.main W argv0 opts args).status = .terminated e) ∧
      (∀ u, W.create_map o.location_store = .ok u →
        (∀ e, W.create_dataset o.output_format output = .error e →
          (osmium_toogr.main W argv0 opts args).status = .terminated e) ∧
        (∀ u', W.create_dataset o.output_format output = .ok u' →
          (∀ s e, osmium_toogr.apply W.factory
              { handler := osmium_toogr.MyOGRHandler.create, cerr := [] } items
                = (s, some e) →
            (osmium_toogr.main W argv0 opts args).status = .terminated e) ∧
          (∀ s, osmium_toogr.apply W.factory
              { handler := osmium_toogr.MyOGRHandler.create, cerr := [] } items
                = (s, none) →
            (∀ e, read_error = some e →
              (osmium_toogr.main W argv0 opts args).status = .terminated e) ∧
            (read_error = none →
              (∀ e, W.open_dump = some e →
                (osmium_toogr.main W argv0 opts args).status = .terminated e) ∧
              (W.open_dump = none →
                (osmium_toogr.main W argv0 opts args).status = .exited 0)))))) := by
  refine ⟨?_, ?_, ?_⟩
  · simp only [osmium_toogr.main, hopts, hpos]
    repeat' split
    all_goals simp
  · intro e h
    simp [osmium_toogr.main, hopts, hpos, h]
  · intro items read_error hr
    refine ⟨?_, ?_⟩
    · intro e h
      simp [osmium_toogr.main, hopts, hpos, hr, h]
    · intro u hm
      refine ⟨?_, ?_⟩
      · intro e h
        simp [osmium_toogr.main, hopts, hpos, hr, hm, h]
      · intro u' hd
        refine ⟨?_, ?_⟩
        · intro s e h
          simp [osmium_toogr.main, hopts, hpos, hr, hm, hd, h]
        · intro s ha
          refine ⟨?_, ?_⟩
          · intro e h
            simp [osmium_toogr.main, hopts, hpos, hr, hm, hd, ha, h]
          · intro hre
            refine ⟨?_, ?_⟩
            · intro e h
              simp [osmium_toogr.main, hopts, hpos, hr, hm, hd, ha, hre, h]
            · intro h
              simp [osmium_toogr.main, hopts, hpos, hr, hm, hd, ha, hre, h]

theorem toogr2_main_outcomes (W : World) (argv0 : String)
    (opts : List (Char × String)) (o : osmium_toogr2.Options) (args : List String)
    (input output : String)
    (hopts : osmium_toogr2.getopt_loop {} opts = .ok o)
    (hpos : osmium_toogr2.positional_args argv0 args = .ok (input, output)) :
    ((osmium_toogr2.main W argv0 opts args).status = .exited 0 ∨
      ∃ e, (osmium_toogr2.main W argv0 opts args).status = .terminated e) ∧
    (∀ e, W.read_relations input = .error e →
      (osmium_toogr2.main W argv0 opts args).status = .terminated e) ∧
    (∀ u, W.read_relations input = .ok u →
      (∀ e, W.create_dataset o.output_format output = .error e →
        (osmium_toogr2.main W argv0 opts args).status = .terminated e) ∧
      (∀ u', W.create_dataset o.output_format output = .ok u' →
        (∀ e, W.reader input = .error e →
          (osmium_toogr2.main W argv0 opts args).status = .terminated e) ∧
        (∀ items read_error, W.reader input = .ok (items, read_error) →
          (∀ s e, osmium_toogr2.apply W.factory
              { handler := osmium_toogr2.MyOGRHandler.create,
                cerr := ["Pass 1...\n", "Pass 1 done\n", "Pass 2...\n"] } items
                = (s, some e) →
            (osmium_toogr2.main W argv0 opts args).status = .terminated e) ∧
          (∀ s, osmium_toogr2.apply W.factory
              { handler := osmium_toogr2.MyOGRHandler.create,
                cerr := ["Pass 1...\n", "Pass 1 done\n", "Pass 2...\n"] } items
                = (s, none) →
            (∀ e, read_error = some e →
              (osmium_toogr2.main W argv0 opts args).status = .terminated e) ∧
            (read_error = none →
              (osmium_toogr2.main W argv0 opts args).status = .exited 0))))) := by
  refine ⟨?_, ?_, ?_⟩
  · simp only [osmium_toogr2.main, hopts, hpos]
    repeat' split
    all_goals simp
  · intro e h
    simp [osmium_toogr2.main, hopts, hpos, h]
  · intro u hrel
    refine ⟨?_, ?_⟩
    · intro e h
      simp [osmium_toogr2.main, hopts, hpos, hrel, h]
    · intro u' hd
      refine ⟨?_, ?_⟩
      · intro e h
        simp [osmium_toogr2.main, hopts, hpos, hrel, hd, h]
      · intro items read_error hr
        refine ⟨?_, ?_⟩
        · intro s e h
          simp [osmium_toogr2.main, hopts, hpos, hrel, hd, hr, h]
        · intro s ha
          refine ⟨?_, ?_⟩
          · intro e h
            simp [osmium_toogr2.main, hopts, hpos, hrel, hd, hr, ha, h]
          · intro h
            simp only [osmium_toogr2.main, hopts, hpos, hrel, hd, hr, List.singleton_append,
              List.cons_append, List.nil_append, ha, h]

theorem toogr2_exp_main_outcomes (W : World) (argv0 : String)
    (opts : List (Char × String)) (o : osmium_toogr2_exp.Options) (args : List String)
    (input output : String)
    (hopts : osmium_toogr2_exp.getopt_loop {} opts = .ok o)
    (hpos : osmium_toogr2_exp.positional_args argv0 args = .ok (input, output)) :
    ((osmium_toogr2_exp.main W argv0 opts args).status = .exited 0 ∨
      ∃ e, (osmium_toogr2_exp.main W argv0 opts args).status = .terminated e) ∧
    (∀ e, W.read_relations input = .error e →
      (osmium_toogr2_exp.main W argv0 opts args).status = .terminated e) ∧
    (∀ u, W.read_relations input = .ok u →
      (∀ e, W.reader input = .error e →
        (osmium_toogr2_exp.main W argv0 opts args).status = .terminated e) ∧
      (∀ items read_error, W.reader input = .ok (items, read_error) →
        (∀ e, W.create_dataset o.output_format output = .error e →
          (osmium_toogr2_exp.main W argv0 opts args).status = .terminated e) ∧
        (∀ u', W.create_dataset o.output_format output = .ok u' →
          (∀ s e, osmium_toogr2_exp.apply W.factory
              { handler := osmium_toogr2_exp.MyOGRHandler.create, cerr := [] } items
                = (s, some e) →
            (osmium_toogr2_exp.main W argv0 opts args).status = .terminated e) ∧
          (∀ s, osmium_toogr2_exp.apply W.factory
              { handler := osmium_toogr2_exp.MyOGRHandler.create, cerr := [] } items
                = (s, none) →
            (∀ e, read_error = some e →
              (osmium_toogr2_exp.main W argv0 opts args).status = .terminated e) ∧
            (read_error = none →
              (osmium_toogr2_exp.main W argv0 opts args).status = .exited 0))))) := by
  refine ⟨?_, ?_, ?_⟩
  · simp only [osmium_toogr2_exp.main, hopts, hpos]
    repeat' split
    all_goals simp
  · intro e h
    simp [osmium_toogr2_exp.main, hopts, hpos, h]
  · intro u hrel
    refine ⟨?_, ?_⟩
    · intro e h
      simp [osmium_toogr2_exp.main, hopts, hpos, hrel, h]
    · intro items read_error hr
      refine ⟨?_, ?_⟩
      · intro e h
        simp [osmium_toogr2_exp.main, hopts, hpos, hrel, hr, h]
      · intro u' hd
        refine ⟨?_, ?_⟩
        · intro s e h
          simp [osmium_toogr2_exp.main, hopts, hpos, hrel, hr, hd, h]
        · intro s ha
          refine ⟨?_, ?_⟩
          · intro e h
            simp [osmium_toogr2_exp.main, hopts, hpos, hrel, hr, hd, ha, h]
          · intro h
            simp [osmium_toogr2_exp.main, hopts, hpos, hrel, hr, hd, ha, h]

/-- C5 as amended: in osm_gis_export_overview every exception that leaves the
`try` block of `main` (any exception of a run other than a geometry error
caught in the way or area callback, for example a failure to read the input)
is caught at the top level, printed as `Error: <what>` on standard error, and
the process exits with status 1; a run never ends otherwise than with status
0 or 1.  In osmium_toogr, osmium_toogr2 and osmium_toogr2_exp `main` has no
handler: once the arguments are parsed, every exception raised in the run
(opening or reading the input, creating the location index or the dataset, a
callback, opening the dump file) leaves `main` and terminates the process,
and the run ends either so or with status 0, never with status 1. -/
theorem top_level_exception_handling (W : World) (desc : String)
    (parsed : Except Exn osm_gis_export_overview.variables_map) :
    ((osm_gis_export_overview.main W desc parsed).status = .exited 0 ∨
      (osm_gis_export_overview.main W desc parsed).status = .exited 1) ∧
    (∀ (e : Exn) (p : Proc osm_gis_export_overview.MyOGRHandler),
      osm_gis_export_overview.main_try W desc parsed = (.error e, p) →
      (osm_gis_export_overview.main W desc parsed).status = .exited 1 ∧
      (osm_gis_export_overview.main W desc parsed).proc.cerr
        = p.cerr ++ ["Error: " ++ e.what ++ "\n"]) ∧
    (∀ (vm : osm_gis_export_overview.variables_map) (e : Exn),
      vm.help = false →
      W.read_relations (vm.input_filename.getD "") = .error e →
      (osm_gis_export_overview.main W desc (.ok vm)).status = .exited 1 ∧
      (osm_gis_export_overview.main W desc (.ok vm)).proc.cerr.getLast?
        = some ("Error: " ++ e.what ++ "\n")) ∧
    (∀ (argv0 : String) (opts : List (Char × String)) (o : osmium_toogr.Options)
      (args : List String) (input output : String) (e : Exn),
      osmium_toogr.getopt_loop W.map_types {} opts = .ok o →
      osmium_toogr.positional_args argv0 args = .ok (input, output) →
      W.reader input = .error e →
      (osmium_toogr.main W argv0 opts args).status = .terminated e) ∧
    (∀ (argv0 : String) (opts : List (Char × String)) (o : osmium_toogr2.Options)
      (args : List String) (input output : String) (e : Exn),
      osmium_toogr2.getopt_loop {} opts = .ok o →
      osmium_toogr2.positional_args argv0 args = .ok (input, output) →
      W.read_relations input = .error e →
      (osmium_toogr2.main W argv0 opts args).status = .terminated e) ∧
    (∀ (argv0 : String) (opts : List (Char × String)) (o : osmium_toogr2_exp.Options)
      (args : List String) (input output : String) (e : Exn),
      osmium_toogr2_exp.getopt_loop {} opts = .ok o →
      osmium_toogr2_exp.positional_args argv0 args = .ok (input, output) →
      W.read_relations input = .error e →
      (osmium_toogr2_exp.main W argv0 opts args).status = .terminated e) ∧
    (∀ (argv0 : String) (opts : List (Char × String)) (o : osmium_toogr.Options)
      (args : List String) (input output : String),
      osmium_toogr.getopt_loop W.map_types {} opts = .ok o →
      osmium_toogr.positional_args argv0 args = .ok (input, output) →
      ((osmium_toogr.main W argv0 opts args).status = .exited 0 ∨
        ∃ e, (osmium_toogr.main W argv0 opts args).status = .terminated e) ∧
      (∀ e, W.reader input = .error e →
        (osmium_toogr.main W argv0 opts args).status = .terminated e) ∧
      (∀ items read_error, W.reader input = .ok (items, read_error) →
        (∀ e, W.create_map o.location_store = .error e →
          (osmium_toogr.main W argv0 opts args).status = .terminated e) ∧
        (∀ u, W.create_map o.location_store = .ok u →
          (∀ e, W.create_dataset o.output_format output = .error e →
            (osmium_toogr.main W argv0 opts args).status = .terminated e) ∧
          (∀ u', W.create_dataset o.output_format output = .ok u' →
            (∀ s e, osmium_toogr.apply W.factory
                { handler := osmium_toogr.MyOGRHandler.create, cerr := [] } items
                  = (s, some e) →
              (osmium_toogr.main W argv0 opts args).status = .terminated e) ∧
            (∀ s, osmium_toogr.apply W.factory
                { handler := osmium_toogr.MyOGRHandler.create, cerr := [] } items
                  = (s, none) →
              (∀ e, read_error = some e →
                (osmium_toogr.main W argv0 opts args).status = .terminated e) ∧
              (read_error = none →
                (∀ e, W.open_dump = some e →
                  (osmium_toogr.main W argv0 opts args).status = .terminated e) ∧
                (W.open_dump = none →
                  (osmium_toogr.main W argv0 opts args).status = .exited 0))))))) ∧
    (∀ (argv0 : String) (opts : List (Char × String)) (o : osmium_toogr2.Options)
      (args : List String) (input output : String),
      osmium_toogr2.getopt_loop {} opts = .ok o →
      osmium_toogr2.positional_args argv0 args = .ok (input, output) →
      ((osmium_toogr2.main W argv0 opts args).status = .exited 0 ∨
        ∃ e, (osmium_toogr2.main W argv0 opts args).status = .terminated e) ∧
      (∀ e, W.read_relations input = .error e →
        (osmium_toogr2.main W argv0 opts args).status = .terminated e) ∧
      (∀ u, W.read_relations input = .ok u →
        (∀ e, W.create_dataset o.output_format output = .error e →
          (osmium_toogr2.main W argv0 opts args).status = .terminated e) ∧
        (∀ u', W.create_dataset o.output_format output = .ok u' →
          (∀ e, W.reader input = .error e →
            (osmium_toogr2.main W argv0 opts args).status = .terminated e) ∧
          (∀ items read_error, W.reader input = .ok (items, read_error) →
            (∀ s e, osmium_toogr2.apply W.factory
                { handler := osmium_toogr2.MyOGRHandler.create,
                  cerr := ["Pass 1...\n", "Pass 1 done\n", "Pass 2...\n"] } items
                  = (s, some e) →
              (osmium_toogr2.main W argv0 opts args).status = .terminated e) ∧
            (∀ s, osmium_toogr2.apply W.factory
                { handler := osmium_toogr2.MyOGRHandler.create,
                  cerr := ["Pass 1...\n", "Pass 1 done\n", "Pass 2...\n"] } items
                  = (s, none) →
              (∀ e, read_error = some e →
                (osmium_toogr2.main W argv0 opts args).status = .terminated e) ∧
              (read_error = none →
                (osmium_toogr2.main W argv0 opts args).status = .exited 0)))))) ∧
    (∀ (argv0 : String) (opts : List (Char × String)) (o : osmium_toogr2_exp.Options)
      (args : List String) (input output : String),
      osmium_toogr2_exp.getopt_loop {} opts = .ok o →
      osmium_toogr2_exp.positional_args argv0 args = .ok (input, output) →
      ((osmium_toogr2_exp.main W argv0 opts args).status = .exited 0 ∨
        ∃ e, (osmium_toogr2_exp.main W argv0 opts args).status = .terminated e) ∧
      (∀ e, W.read_relations input = .error e →
        (osmium_toogr2_exp.main W argv0 opts args).status = .terminated e) ∧
      (∀ u, W.read_relations input = .ok u →
        (∀ e, W.reader input = .error e →
          (osmium_toogr2_exp.main W argv0 opts args).status = .terminated e) ∧
        (∀ items read_error, W.reader input = .ok (items, read_error) →
          (∀ e, W.create_dataset o.output_format output = .error e →
            (osmium_toogr2_exp.main W argv0 opts args).status = .terminated e) ∧
          (∀ u', W.create_dataset o.output_format output = .ok u' →
            (∀ s e, osmium_toogr2_exp.apply W.factory
                { handler := osmium_toogr2_exp.MyOGRHandler.create, cerr := [] } items
                  = (s, some e) →
              (osmium_toogr2_exp.main W argv0 opts args).status = .terminated e) ∧
            (∀ s, osmium_toogr2_exp.apply W.factory
                { handler := osmium_toogr2_exp.MyOGRHandler.create, cerr := [] } items
                  = (s, none) →
              (∀ e, read_error = some e →
                (osmium_toogr2_exp.main W argv0 opts args).status = .terminated e) ∧
              (read_error = none →
                (osmium_toogr2_exp.main W argv0 opts args).status = .exited 0)))))) := by
  refine ⟨overview_main_exits W desc parsed, ?_, ?_, ?_, ?_, ?_, ?_, ?_, ?_⟩
  · intro e p h
    exact overview_main_catches W desc parsed e p h
  · intro vm e hhelp h
    obtain ⟨p, hp⟩ := overview_unreadable_input W desc vm e hhelp h
    have := overview_main_catches W desc (.ok vm) e p hp
    refine ⟨this.1, ?_⟩
    rw [this.2]
    simp
  · intro argv0 opts o args input output e h₁ h₂ h₃
    exact toogr_main_unreadable W argv0 opts o args input output e h₁ h₂ h₃
  · intro argv0 opts o args input output e h₁ h₂ h₃
    exact toogr2_main_unreadable W argv0 opts o args input output e h₁ h₂ h₃
  · intro argv0 opts o args input output e h₁ h₂ h₃
    exact toogr2_exp_main_unreadable W argv0 opts o args input output e h₁ h₂ h₃
  · intro argv0 opts o args input output h₁ h₂
    exact toogr_main_outcomes W argv0 opts o args input output h₁ h₂
  · intro argv0 opts o args input output h₁ h₂
    exact toogr2_main_outcomes W argv0 opts o args input output h₁ h₂
  · intro argv0 opts o args input output h₁ h₂
    exact toogr2_exp_main_outcomes W argv0 opts o args input output h₁ h₂

theorem top_level_exception_handling_witness :
    (osm_gis_export_overview.main unreadable_world "" (.ok {})).status = .exited 1 ∧
    (osm_gis_export_overview.main unreadable_world "" (.ok {})).proc.cerr.getLast?
      = some ("Error: " ++ (Exn.other "Open failed for 'missing.osm'").what ++ "\n") :=
  (top_level_exception_handling unreadable_world "" (.ok {})).2.2.1 {}
    (.other "Open failed for 'missing.osm'") rfl rfl

/-! ### The node filter of osm_gis_export_overview -/

theorem overview_with_point_ne (s : osm_gis_export_overview.State) (f : Feature) :
    osm_gis_export_overview.with_point s f ≠ s := by
  intro h
  have h2 := congrArg
    (fun t : osm_gis_export_overview.State => t.handler.m_layer_point.features.length) h
  simp [osm_gis_export_overview.with_point] at h2

theorem overview_node_filtered_out (F : OGRFactory)
    (s : osm_gis_export_overview.State) (n : OSMObject)
    (hflag : s.handler.m_cfg.add_untagged_nodes = false) (htags : n.tags = []) :
    osm_gis_export_overview.node F s n = .ok s := by
  simp [osm_gis_export_overview.node, hflag, htags]

theorem overview_node_emits (F : OGRFactory)
    (s : osm_gis_export_overview.State) (n : OSMObject) (g : Geometry)
    (hf : s.handler.m_cfg.add_untagged_nodes = true ∨ n.tags ≠ [])
    (hbuild : F.create_point n = .ok g) :
    ∃ f, f.geometry = g ∧
      osm_gis_export_overview.node F s n
        = .ok (osm_gis_export_overview.with_point s f) := by
  have hc : (s.handler.m_cfg.add_untagged_nodes || !n.tags.isEmpty) = true := by
    rcases hf with hf | hf
    · simp [hf]
    · cases ht : n.tags with
      | nil => exact absurd ht hf
      | cons t ts => simp
  simp only [osm_gis_export_overview.node, hc, if_true, hbuild]
  refine ⟨_, ?_, rfl⟩
  simp only [osm_gis_export_overview.add_tags, Feature.set_field]
  split <;> rfl

/-- C6, the claim refuted: with the flag unset a node with a tag yields a
feature, and with the flag set a node without tags yields one; neither node
has the flag set and tags at once. -/
theorem node_emitted_without_flag_and_tags :
    (osm_gis_export_overview.MyOGRHandler.create {}).m_cfg.add_untagged_nodes = false ∧
    (∃ f, osm_gis_export_overview.node sample_factory
        { handler := osm_gis_export_overview.MyOGRHandler.create {}, cerr := [] }
        (sample_object 2 [⟨"name", "x"⟩])
      = .ok (osm_gis_export_overview.with_point
          { handler := osm_gis_export_overview.MyOGRHandler.create {}, cerr := [] } f)) ∧
    (sample_object 3 []).tags = [] ∧
    (∃ f, osm_gis_export_overview.node sample_factory
        { handler := osm_gis_export_overview.MyOGRHandler.create
            { add_untagged_nodes := true }, cerr := [] }
        (sample_object 3 [])
      = .ok (osm_gis_export_overview.with_point
          { handler := osm_gis_export_overview.MyOGRHandler.create
              { add_untagged_nodes := true }, cerr := [] } f)) :=
  ⟨rfl, ⟨_, rfl⟩, rfl, ⟨_, rfl⟩⟩

/-- C6 as amended: in osm_gis_export_overview the node callback emits a point
feature for a node only if the add-untagged-nodes flag is set or the node
has tags. -/
theorem node_emitted_only_if_flag_or_tags (F : OGRFactory)
    (s s' : osm_gis_export_overview.State) (n : OSMObject)
    (h : osm_gis_export_overview.node F s n = .ok s')
    (hemit : s'.handler.m_layer_point.features ≠ s.handler.m_layer_point.features) :
    s.handler.m_cfg.add_untagged_nodes = true ∨ n.tags ≠ [] := by
  by_contra hcon
  have hflag : s.handler.m_cfg.add_untagged_nodes = false := by
    cases hb : s.handler.m_cfg.add_untagged_nodes with
    | false => rfl
    | true => exact absurd (Or.inl hb) hcon
  have htags : n.tags = [] := by
    by_contra ht
    exact hcon (Or.inr ht)
  rw [overview_node_filtered_out F s n hflag htags] at h
  cases h
  exact hemit rfl

theorem node_emitted_only_if_flag_or_tags_witness :
    (osm_gis_export_overview.MyOGRHandler.create {}).m_cfg.add_untagged_nodes = true ∨
    (sample_object 2 [⟨"name", "x"⟩]).tags ≠ [] :=
  node_emitted_only_if_flag_or_tags sample_factory
    { handler := osm_gis_export_overview.MyOGRHandler.create {}, cerr := [] }
    (osm_gis_export_overview.with_point
      { handler := osm_gis_export_overview.MyOGRHandler.create {}, cerr := [] }
      { geometry := ⟨"POINT"⟩,
        fields := [("id", .double_of_int64 2), ("tags", .c_str (some "name=x"))] })
    (sample_object 2 [⟨"name", "x"⟩]) rfl (by decide)

theorem overview_add_feature_cfg (h : osm_gis_export_overview.MyOGRHandler)
    (l : osm_gis_export_overview.LayerRef) (f : Feature) (o : OSMObject) :
    (osm_gis_export_overview.add_feature h l f o).m_cfg = h.m_cfg := by
  cases l <;> rfl

theorem overview_handle_cfg (F : OGRFactory) (s s' : osm_gis_export_overview.State)
    (item : Item) (h : osm_gis_export_overview.handle F s item = .ok s') :
    s'.handler.m_cfg = s.handler.m_cfg := by
  cases item with
  | node n =>
    simp only [osm_gis_export_overview.handle, osm_gis_export_overview.node] at h
    split at h
    · split at h
      · cases h
      · cases h
        exact overview_add_feature_cfg _ _ _ _
    · cases h
      rfl
  | way w =>
    simp only [osm_gis_export_overview.handle, osm_gis_export_overview.way] at h
    split at h
    · cases h
      exact overview_add_feature_cfg _ _ _ _
    · cases h
      rfl
    · cases h
  | relation r =>
    simp only [osm_gis_export_overview.handle] at h
    cases h
    rfl
  | area a =>
    simp only [osm_gis_export_overview.handle, osm_gis_export_overview.area] at h
    split at h
    · cases h
      exact overview_add_feature_cfg _ _ _ _
    · cases h
      rfl
    · cases h

theorem overview_apply_cfg (F : OGRFactory) (items : List Item)
    (s : osm_gis_export_overview.State) :
    (osm_gis_export_overview.apply F s items).1.handler.m_cfg = s.handler.m_cfg := by
  induction items generalizing s with
  | nil => rfl
  | cons item rest ih =>
    simp only [osm_gis_export_overview.apply]
    cases hh : osm_gis_export_overview.handle F s item with
    | error e => rfl
    | ok s' =>
      simp only
      rw [ih s']
      exact overview_handle_cfg F s s' item hh

theorem overview_create_cfg (cfg : osm_gis_export_overview.config) :
    (osm_gis_export_overview.MyOGRHandler.create cfg).m_cfg = cfg := by
  simp only [osm_gis_export_overview.MyOGRHandler.create]
  split <;> rfl

theorem overview_apply_cfg_of_eq (F : OGRFactory) (items : List Item)
    (s : osm_gis_export_overview.State)
    (r : osm_gis_export_overview.State × Option Exn)
    (h : osm_gis_export_overview.apply F s items = r) :
    r.1.handler.m_cfg = s.handler.m_cfg := by
  rw [← h]
  exact overview_apply_cfg F items s

theorem overview_main_try_flag (W : World) (desc : String)
    (vm : osm_gis_export_overview.variables_map)
    (h : osm_gis_export_overview.MyOGRHandler)
    (hh : (osm_gis_export_overview.main_try W desc (.ok vm)).2.handler = some h) :
    h.m_cfg.add_untagged_nodes = vm.add_untagged_nodes := by
  obtain ⟨help, verbose, output, output_format, aun, am, fpt, inf⟩ := vm
  cases help <;> cases verbose <;> cases aun <;> cases am
  all_goals
    simp only [osm_gis_export_overview.main_try, if_true, if_false,
      Bool.false_eq_true] at hh
  all_goals repeat' split at hh
  all_goals simp at hh
  all_goals subst hh
  all_goals try (simp only [overview_create_cfg]; done)
  all_goals
    have hcfg := overview_apply_cfg_of_eq _ _ _ _ (by assumption)
    simp only [overview_create_cfg] at hcfg
    rw [hcfg]

/-- C7: in osm_gis_export_overview the handler that `main` builds has the
flag set exactly when `--add-untagged-nodes` was given, and for a node whose
point can be built: with the flag set the node, tagged or not, yields exactly
one feature in `points`; with the flag unset it yields a feature if and only
if its tag list is not empty (an untagged node leaves the state as it was,
whatever the factory does). -/
theorem add_untagged_nodes_flag (F : OGRFactory)
    (s : osm_gis_export_overview.State) (n : OSMObject) (g : Geometry)
    (hbuild : F.create_point n = .ok g) :
    (∀ (W : World) (desc : String) (vm : osm_gis_export_overview.variables_map)
      (h : osm_gis_export_overview.MyOGRHandler),
      (osm_gis_export_overview.main W desc (.ok vm)).proc.handler = some h →
      h.m_cfg.add_untagged_nodes = vm.add_untagged_nodes) ∧
    (s.handler.m_cfg.add_untagged_nodes = true →
      ∃ f, f.geometry = g ∧
        osm_gis_export_overview.node F s n
          = .ok (osm_gis_export_overview.with_point s f)) ∧
    (s.handler.m_cfg.add_untagged_nodes = false →
      ((∃ f, f.geometry = g ∧
          osm_gis_export_overview.node F s n
            = .ok (osm_gis_export_overview.with_point s f)) ↔ n.tags ≠ []) ∧
      (n.tags = [] → ∀ F' : OGRFactory, osm_gis_export_overview.node F' s n = .ok s)) := by
  refine ⟨?_, ?_, ?_⟩
  · intro W desc vm h hh
    apply overview_main_try_flag W desc vm h
    simp only [osm_gis_export_overview.main] at hh
    rcases hr : osm_gis_export_overview.main_try W desc (.ok vm) with ⟨r, p⟩
    rw [hr] at hh
    cases r <;> exact hh
  · intro hflag
    exact overview_node_emits F s n g (Or.inl hflag) hbuild
  · intro hflag
    refine ⟨⟨?_, ?_⟩, ?_⟩
    · rintro ⟨f, _, hf⟩ htags
      rw [overview_node_filtered_out F s n hflag htags] at hf
      exact overview_with_point_ne s f (Except.ok.inj hf).symm
    · intro htags
      exact overview_node_emits F s n g (Or.inr htags) hbuild
    · intro htags F'
      exact overview_node_filtered_out F' s n hflag htags

theorem add_untagged_nodes_flag_witness :
    ∃ f, f.geometry = ⟨"POINT"⟩ ∧
      osm_gis_export_overview.node sample_factory
          { handler := osm_gis_export_overview.MyOGRHandler.create
              { add_untagged_nodes := true }, cerr := [] }
          (sample_object 3 [])
        = .ok (osm_gis_export_overview.with_point
            { handler := osm_gis_export_overview.MyOGRHandler.create
                { add_untagged_nodes := true }, cerr := [] } f) :=
  (add_untagged_nodes_flag sample_factory
    { handler := osm_gis_export_overview.MyOGRHandler.create
        { add_untagged_nodes := true }, cerr := [] }
    (sample_object 3 []) ⟨"POINT"⟩ rfl).2.1 rfl

/-! ### The node filter of the toogr tools -/

theorem get_value_by_key_eq_some_iff_mem (tags : List Tag) (key value : String)
    (hnodup : (tags.map Tag.key).Nodup) :
    get_value_by_key tags key = some value ↔ (⟨key, value⟩ : Tag) ∈ tags := by
  induction tags with
  | nil => simp [get_value_by_key]
  | cons t ts ih =>
    simp only [List.map_cons, List.nodup_cons] at hnodup
    obtain ⟨hnot, hts⟩ := hnodup
    by_cases hk : t.key = key
    · simp only [get_value_by_key, hk, if_true, List.mem_cons]
      constructor
      · intro hv
        left
        cases t
        simp_all
      · rintro (heq | hmem)
        · rw [← heq]
        · exfalso
          apply hnot
          rw [hk]
          exact List.mem_map.mpr ⟨_, hmem, rfl⟩
    · simp only [get_value_by_key, hk, if_false, List.mem_cons]
      rw [ih hts]
      constructor
      · exact Or.inr
      · rintro (heq | hmem)
        · exfalso
          apply hk
          rw [← heq]
        · exact hmem

theorem toogr_with_postbox_ne (s : osmium_toogr.State) (f : Feature) :
    osmium_toogr.with_postbox s f ≠ s := by
  intro h
  have h2 := congrArg
    (fun t : osmium_toogr.State => t.handler.m_layer_point.features.length) h
  simp [osmium_toogr.with_postbox] at h2

theorem toogr_node_filtered_out (F : OGRFactory) (s : osmium_toogr.State)
    (n : OSMObject) (h : get_value_by_key n.tags "amenity" ≠ some "post_box") :
    osmium_toogr.node F s n = .ok s := by
  simp only [osmium_toogr.node]
  split
  · rfl
  · rename_i amenity heq
    have hne : amenity ≠ "post_box" := by
      rintro rfl
      exact h heq
    simp [hne]

theorem toogr_node_emits (F : OGRFactory) (s : osmium_toogr.State)
    (n : OSMObject) (g : Geometry)
    (h : get_value_by_key n.tags "amenity" = some "post_box")
    (hbuild : F.create_point n = .ok g) :
    ∃ f, f.geometry = g ∧ osmium_toogr.node F s n = .ok (osmium_toogr.with_postbox s f) := by
  simp only [osmium_toogr.node, h, if_true, hbuild]
  exact ⟨_, rfl, rfl⟩

theorem toogr_node_iff (F : OGRFactory) (s : osmium_toogr.State)
    (n : OSMObject) (g : Geometry) (hbuild : F.create_point n = .ok g) :
    (∃ f, f.geometry = g ∧ osmium_toogr.node F s n = .ok (osmium_toogr.with_postbox s f))
      ↔ get_value_by_key n.tags "amenity" = some "post_box" := by
  constructor
  · rintro ⟨f, _, hf⟩
    by_contra hne
    rw [toogr_node_filtered_out F s n hne] at hf
    exact toogr_with_postbox_ne s f (Except.ok.inj hf).symm
  · intro h
    exact toogr_node_emits F s n g h hbuild

theorem toogr2_with_postbox_ne (s : osmium_toogr2.State) (f : Feature) :
    osmium_toogr2.with_postbox s f ≠ s := by
  intro h
  have h2 := congrArg
    (fun t : osmium_toogr2.State => t.handler.m_layer_point.features.length) h
  simp [osmium_toogr2.with_postbox] at h2

theorem toogr2_node_filtered_out (F : OGRFactory) (s : osmium_toogr2.State)
    (n : OSMObject) (h : get_value_by_key n.tags "amenity" ≠ some "post_box") :
    osmium_toogr2.node F s n = .ok s := by
  simp only [osmium_toogr2.node]
  split
  · rfl
  · rename_i amenity heq
    have hne : amenity ≠ "post_box" := by
      rintro rfl
      exact h heq
    simp [hne]

theorem toogr2_node_emits (F : OGRFactory) (s : osmium_toogr2.State)
    (n : OSMObject) (g : Geometry)
    (h : get_value_by_key n.tags "amenity" = some "post_box")
    (hbuild : F.create_point n = .ok g) :
    ∃ f, f.geometry = g ∧ osmium_toogr2.node F s n = .ok (osmium_toogr2.with_postbox s f) := by
  simp only [osmium_toogr2.node, h, if_true, hbuild]
  exact ⟨_, rfl, rfl⟩

theorem toogr2_node_iff (F : OGRFactory) (s : osmium_toogr2.State)
    (n : OSMObject) (g : Geometry) (hbuild : F.create_point n = .ok g) :
    (∃ f, f.geometry = g ∧ osmium_toogr2.node F s n = .ok (osmium_toogr2.with_postbox s f))
      ↔ get_value_by_key n.tags "amenity" = some "post_box" := by
  constructor
  · rintro ⟨f, _, hf⟩
    by_contra hne
    rw [toogr2_node_filtered_out F s n hne] at hf
    exact toogr2_with_postbox_ne s f (Except.ok.inj hf).symm
  · intro h
    exact toogr2_node_emits F s n g h hbuild

theorem toogr2_exp_with_postbox_ne (s : osmium_toogr2_exp.State) (f : Feature) :
    osmium_toogr2_exp.with_postbox s f ≠ s := by
  intro h
  have h2 := congrArg
    (fun t : osmium_toogr2_exp.State => t.handler.m_layer_point.features.length) h
  simp [osmium_toogr2_exp.with_postbox] at h2

theorem toogr2_exp_node_filtered_out (F : OGRFactory) (s : osmium_toogr2_exp.State)
    (n : OSMObject) (h : get_value_by_key n.tags "amenity" ≠ some "post_box") :
    osmium_toogr2_exp.node F s n = .ok s := by
  simp only [osmium_toogr2_exp.node]
  split
  · rfl
  · rename_i amenity heq
    have hne : amenity ≠ "post_box" := by
      rintro rfl
      exact h heq
    simp [hne]

theorem toogr2_exp_node_emits (F : OGRFactory) (s : osmium_toogr2_exp.State)
    (n : OSMObject) (g : Geometry)
    (h : get_value_by_key n.tags "amenity" = some "post_box")
    (hbuild : F.create_point n = .ok g) :
    ∃ f, f.geometry = g ∧ osmium_toogr2_exp.node F s n = .ok (osmium_toogr2_exp.with_postbox s f) := by
  simp only [osmium_toogr2_exp.node, h, if_true, hbuild]
  exact ⟨_, rfl, rfl⟩

theorem toogr2_exp_node_iff (F : OGRFactory) (s : osmium_toogr2_exp.State)
    (n : OSMObject) (g : Geometry) (hbuild : F.create_point n = .ok g) :
    (∃ f, f.geometry = g ∧ osmium_toogr2_exp.node F s n = .ok (osmium_toogr2_exp.with_postbox s f))
      ↔ get_value_by_key n.tags "amenity" = some "post_box" := by
  constructor
  · rintro ⟨f, _, hf⟩
    by_contra hne
    rw [toogr2_exp_node_filtered_out F s n hne] at hf
    exact toogr2_exp_with_postbox_ne s f (Except.ok.inj hf).symm
  · intro h
    exact toogr2_exp_node_emits F s n g h hbuild

/-- C8: in osmium_toogr, osmium_toogr2 and osmium_toogr2_exp, for a node
whose point can be built, the node callback adds one feature to `postboxes`
if and only if the value of the `amenity` tag of the node is the string
`post_box`; a node with no `amenity` tag or with any other value, such as
`post_box2` or `Post_Box`, leaves the state as it was, whatever the factory
does.  With unique keys, the value of the `amenity` tag is `post_box` exactly
when the tag `amenity=post_box` is in the tag list. -/
theorem postbox_node_filter (F : OGRFactory) (n : OSMObject) (g : Geometry)
    (s₁ : osmium_toogr.State) (s₂ : osmium_toogr2.State)
    (s₃ : osmium_toogr2_exp.State)
    (hbuild : F.create_point n = .ok g) :
    (((∃ f, f.geometry = g ∧
          osmium_toogr.node F s₁ n = .ok (osmium_toogr.with_postbox s₁ f))
        ↔ get_value_by_key n.tags "amenity" = some "post_box") ∧
      ((∃ f, f.geometry = g ∧
          osmium_toogr2.node F s₂ n = .ok (osmium_toogr2.with_postbox s₂ f))
        ↔ get_value_by_key n.tags "amenity" = some "post_box") ∧
      ((∃ f, f.geometry = g ∧
          osmium_toogr2_exp.node F s₃ n = .ok (osmium_toogr2_exp.with_postbox s₃ f))
        ↔ get_value_by_key n.tags "amenity" = some "post_box")) ∧
    (get_value_by_key n.tags "amenity" ≠ some "post_box" →
      ∀ F' : OGRFactory,
        osmium_toogr.node F' s₁ n = .ok s₁ ∧
        osmium_toogr2.node F' s₂ n = .ok s₂ ∧
        osmium_toogr2_exp.node F' s₃ n = .ok s₃) ∧
    ((n.tags.map Tag.key).Nodup →
      (get_value_by_key n.tags "amenity" = some "post_box"
        ↔ (⟨"amenity", "post_box"⟩ : Tag) ∈ n.tags)) ∧
    (∀ (F' : OGRFactory) (id : Int),
      osmium_toogr2.node F' s₂ (sample_object id [⟨"amenity", "post_box2"⟩]) = .ok s₂ ∧
      osmium_toogr2.node F' s₂ (sample_object id [⟨"amenity", "Post_Box"⟩]) = .ok s₂ ∧
      osmium_toogr2.node F' s₂ (sample_object id [⟨"amenity", "old_post_box"⟩]) = .ok s₂ ∧
      osmium_toogr2.node F' s₂ (sample_object id [⟨"name", "post_box"⟩]) = .ok s₂ ∧
      osmium_toogr2.node F' s₂ (sample_object id []) = .ok s₂) := by
  refine ⟨⟨toogr_node_iff F s₁ n g hbuild, toogr2_node_iff F s₂ n g hbuild,
    toogr2_exp_node_iff F s₃ n g hbuild⟩, ?_, ?_, ?_⟩
  · intro hne F'
    exact ⟨toogr_node_filtered_out F' s₁ n hne, toogr2_node_filtered_out F' s₂ n hne,
      toogr2_exp_node_filtered_out F' s₃ n hne⟩
  · intro hnodup
    exact get_value_by_key_eq_some_iff_mem n.tags "amenity" "post_box" hnodup
  · intro F' id
    refine ⟨?_, ?_, ?_, ?_, ?_⟩ <;>
      exact toogr2_node_filtered_out F' s₂ _ (by simp [sample_object, get_value_by_key])

theorem postbox_node_filter_witness :
    (∃ f, f.geometry = ⟨"POINT"⟩ ∧
        osmium_toogr.node sample_factory
            { handler := osmium_toogr.MyOGRHandler.create, cerr := [] }
            (sample_object 2 [⟨"operator", "Royal Mail"⟩, ⟨"amenity", "post_box"⟩])
          = .ok (osmium_toogr.with_postbox
              { handler := osmium_toogr.MyOGRHandler.create, cerr := [] } f))
      ↔ get_value_by_key
          (sample_object 2 [⟨"operator", "Royal Mail"⟩, ⟨"amenity", "post_box"⟩]).tags
          "amenity" = some "post_box" :=
  (postbox_node_filter sample_factory
    (sample_object 2 [⟨"operator", "Royal Mail"⟩, ⟨"amenity", "post_box"⟩]) ⟨"POINT"⟩
    { handler := osmium_toogr.MyOGRHandler.create, cerr := [] }
    { handler := osmium_toogr2.MyOGRHandler.create, cerr := [] }
    { handler := osmium_toogr2_exp.MyOGRHandler.create, cerr := [] } rfl).1.1

/-! ### Feature counts of osmium_toogr2 -/

theorem int32_t_eq_self_iff (x : Int) :
    int32_t x = x ↔ -2 ^ 31 ≤ x ∧ x < 2 ^ 31 := by
  unfold int32_t
  constructor
  · intro h
    have h1 := Int.emod_nonneg (x + 2 ^ 31) (by norm_num : (2 : Int) ^ 32 ≠ 0)
    have h2 := Int.emod_lt_of_pos (x + 2 ^ 31) (by norm_num : (0 : Int) < 2 ^ 32)
    constructor <;> omega
  · rintro ⟨h1, h2⟩
    rw [Int.emod_eq_of_lt (by omega) (by omega)]
    omega

/-- C10, the code evaluated at the failing input: the way with id 2147483648
and the area with id 2147483648 (assembled from way 1073741824) are emitted
with the value -2147483648 in their `id` field, because the callbacks convert
the 64 bit id with `int32_t(...)`; the value written equals the id exactly
for the ids between -2^31 and 2^31 - 1. -/
theorem way_area_id_field_truncated :
    (∃ s', osm_gis_export_overview.way sample_factory
        { handler := osm_gis_export_overview.MyOGRHandler.create {}, cerr := [] }
        (sample_object 2147483648 []) = .ok s' ∧
      s'.handler.m_layer_linestring.features
        = [{ geometry := ⟨"LINESTRING"⟩,
             fields := [("id", .int32 (-2147483648)), ("tags", .c_str (some ""))] }]) ∧
    (∃ s', osm_gis_export_overview.area sample_factory
        { handler := osm_gis_export_overview.MyOGRHandler.create {}, cerr := [] }
        (sample_area 2147483648 [⟨"building", "yes"⟩] 1073741824) = .ok s' ∧
      s'.handler.m_layer_multipolygon.features
        = [{ geometry := ⟨"MULTIPOLYGON"⟩,
             fields := [("id", .int32 (-2147483648)),
                        ("tags", .c_str (some "building=yes"))] }]) ∧
    (∀ id : Int, int32_t id = id ↔ -2 ^ 31 ≤ id ∧ id < 2 ^ 31) :=
  ⟨⟨_, rfl, rfl⟩, ⟨_, rfl, rfl⟩, int32_t_eq_self_iff⟩

/-! ### The shape of the derived output filename -/

theorem takeWhile_eq_nil_iff_head {p : Char → Bool} (l : List Char) :
    l.takeWhile p = [] ↔ l = [] ∨ ∃ c, l.head? = some c ∧ p c = false := by
  cases l with
  | nil => simp
  | cons x xs =>
    cases hp : p x <;> simp [List.takeWhile, hp]

theorem not_mem_takeWhile_ne (c : Char) (l : List Char) :
    c ∉ l.takeWhile (fun x => x ≠ c) := by
  intro h
  have := List.mem_takeWhile_imp h
  simp at this

theorem slash_not_mem_text_after_last_slash (s : String) :
    '/' ∉ (text_after_last_slash s).data := by
  simp only [text_after_last_slash, List.mem_reverse]
  exact not_mem_takeWhile_ne '/' _

/-- C12: for every input filename, the output filename osm_gis_export_overview
derives when `--output` is absent is a stem followed by `.db`; it contains no
`/`, the stem contains no `.` (so the only `.` is the one of the suffix), and
it is exactly `.db` if and only if the text after the last `/` of the input
is empty or begins with `.`. -/
theorem derived_output_filename_shape (input_filename : String) :
    ∃ out stem : String,
      osm_gis_export_overview.output_filename none input_filename = .ok out ∧
      out = stem ++ ".db" ∧
      '/' ∉ out.data ∧
      '.' ∉ stem.data ∧
      out.data.count '.' = 1 ∧
      (out = ".db" ↔
        ((text_after_last_slash input_filename).data = [] ∨
          (text_after_last_slash input_filename).data.head? = some '.')) := by
  refine ⟨_, cut_at_first_dot (text_after_last_slash input_filename),
    derive_output_filename_eq input_filename, rfl, ?_, ?_, ?_, ?_⟩
  · have h1 := slash_not_mem_text_after_last_slash input_filename
    simp only [spec_output_name, cut_at_first_dot, String.data_append, List.mem_append, not_or]
    constructor
    · intro h
      exact h1 ((List.takeWhile_sublist _).subset h)
    · decide
  · exact not_mem_takeWhile_ne '.' _
  · have h2 := not_mem_takeWhile_ne '.' (text_after_last_slash input_filename).data
    simp only [spec_output_name, cut_at_first_dot, String.data_append, List.count_append]
    rw [List.count_eq_zero_of_not_mem h2]
    rfl
  · have hdata : ∀ stem : String, stem ++ ".db" = ".db" ↔ stem.data = [] := by
      intro stem
      rw [String.ext_iff, String.data_append]
      exact List.append_left_eq_self
    simp only [spec_output_name]
    rw [hdata, cut_at_first_dot, takeWhile_eq_nil_iff_head]
    constructor
    · rintro (h | ⟨c, hc, hp⟩)
      · exact Or.inl h
      · right
        have : c = '.' := by simpa using hp
        rw [hc, this]
    · rintro (h | h)
      · exact Or.inl h
      · exact Or.inr ⟨'.', h, by simp⟩

/-! ### The `tags` field of osm_gis_export_overview -/

theorem tags_loop_data (acc : String) (tags : List Tag) :
    (osm_gis_export_overview.tags_loop acc tags).data
      = acc.data ++ (tags.map (fun t => (render_tag t).data ++ [','])).flatten := by
  induction tags generalizing acc with
  | nil => simp [osm_gis_export_overview.tags_loop]
  | cons t rest ih =>
    simp only [osm_gis_export_overview.tags_loop, ih, String.data_append, List.map_cons,
      List.flatten_cons, render_tag, List.append_assoc]

theorem joined_data_cons (sep : String) (a : String) (rest : List String) :
    (joined sep (a :: rest)).data
      = a.data ++ (rest.map (fun b => sep.data ++ b.data)).flatten := by
  induction rest generalizing a with
  | nil => simp [joined]
  | cons b rest ih =>
    simp only [joined, String.data_append, ih, List.map_cons, List.flatten_cons,
      List.append_assoc]

theorem dropLast_join_render (t : Tag) (rest : List Tag) :
    ((((t :: rest).map (fun t => (render_tag t).data ++ [','])).flatten).dropLast)
      = (joined "," ((t :: rest).map render_tag)).data := by
  induction rest generalizing t with
  | nil => simp [joined]
  | cons b rest ih =>
    have hne : ((b :: rest).map (fun t => (render_tag t).data ++ [','])).flatten ≠ [] := by
      simp
    simp only [List.map_cons, List.flatten_cons] at ih hne ⊢
    rw [List.dropLast_append_of_ne_nil _ hne, ih b]
    simp only [joined, String.data_append, List.append_assoc]

theorem tags_string_eq_joined (object : OSMObject) :
    osm_gis_export_overview.tags_string object
      = joined "," (object.tags.map render_tag) := by
  unfold osm_gis_export_overview.tags_string
  cases h : object.tags with
  | nil => rfl
  | cons t rest =>
    have hd := tags_loop_data "" (t :: rest)
    have hne : (osm_gis_export_overview.tags_loop "" (t :: rest)).data ≠ [] := by
      rw [hd]
      simp
    simp only [hne, ne_eq, not_false_eq_true, if_true]
    apply String.ext
    simp only [pop_back, hd]
    exact dropLast_join_render t rest

theorem intercalate_go_eq (sep acc : String) (l : List String) :
    String.intercalate.go acc sep l
      = match l with
        | [] => acc
        | a :: rest => acc ++ sep ++ joined sep (a :: rest) := by
  induction l generalizing acc with
  | nil => rfl
  | cons a rest ih =>
    simp only [String.intercalate.go]
    rw [ih]
    cases rest with
    | nil => rfl
    | cons b rest => simp only [joined, String.append_assoc]

theorem intercalate_eq_joined (sep : String) (l : List String) :
    sep.intercalate l = joined sep l := by
  cases l with
  | nil => rfl
  | cons a rest =>
    simp only [String.intercalate, intercalate_go_eq]
    cases rest with
    | nil => rfl
    | cons b rest => simp only [joined, String.append_assoc]

theorem joined_render_length (t : Tag) (rest : List Tag) :
    (joined "," ((t :: rest).map render_tag)).length + 1
      = ((t :: rest).map (fun t => t.key.length + t.value.length + 2)).sum := by
  induction rest generalizing t with
  | nil =>
    simp only [List.map_cons, List.map_nil, joined, render_tag, String.length_append,
      List.sum_cons, List.sum_nil]
    have : "=".length = 1 := rfl
    omega
  | cons b rest ih =>
    have := ih b
    simp only [List.map_cons, joined, render_tag, String.length_append,
      List.sum_cons] at this ⊢
    have h1 : "=".length = 1 := rfl
    have h2 : ",".length = 1 := rfl
    omega

theorem joined_render_ne_empty (t : Tag) (rest : List Tag) :
    joined "," ((t :: rest).map render_tag) ≠ "" := by
  intro h
  have := joined_render_length t rest
  rw [h] at this
  simp only [List.map_cons, List.sum_cons] at this
  have h0 : "".length = 0 := rfl
  omega

/-- C14: for every object, the string `add_tags` of osm_gis_export_overview
writes to the field `tags` is the tags of the object in their order, each
rendered as key, `=`, value, joined by single `,` with none before the first
or after the last; it is empty if and only if the object has no tags, and its
length is the sum over the tags of the lengths of key and value plus 2, minus
1 when there is a tag, whatever `max_length_tags` is. -/
theorem add_tags_string (feature : Feature) (object : OSMObject) :
    osm_gis_export_overview.add_tags feature object
      = feature.set_field "tags"
          (.c_str (some (osm_gis_export_overview.tags_string object))) ∧
    osm_gis_export_overview.tags_string object
      = joined "," (object.tags.map (fun t => t.key ++ "=" ++ t.value)) ∧
    osm_gis_export_overview.tags_string object
      = ",".intercalate (object.tags.map (fun t => t.key ++ "=" ++ t.value)) ∧
    (osm_gis_export_overview.tags_string object = "" ↔ object.tags = []) ∧
    (osm_gis_export_overview.tags_string object).length
      = (object.tags.map (fun t => t.key.length + t.value.length + 2)).sum
        - (if object.tags = [] then 0 else 1) ∧
    osm_gis_export_overview.max_length_tags
      < (osm_gis_export_overview.tags_string
          (sample_object 1 [⟨String.mk (List.replicate 199 'k'), "v"⟩])).length := by
  have hj := tags_string_eq_joined object
  refine ⟨rfl, hj, ?_, ?_, ?_, ?_⟩
  · rw [intercalate_eq_joined]
    exact hj
  · rw [hj]
    cases h : object.tags with
    | nil => simp [joined]
    | cons t rest =>
      simp only [reduceCtorEq, iff_false]
      exact joined_render_ne_empty t rest
  · rw [hj]
    cases h : object.tags with
    | nil => rfl
    | cons t rest =>
      have := joined_render_length t rest
      simp only [reduceCtorEq, if_false]
      omega
  · have hlen : (String.mk (List.replicate 199 'k')).length = 199 :=
      List.length_replicate 199 'k'
    generalize String.mk (List.replicate 199 'k') = key at hlen ⊢
    have hl := joined_render_length ⟨key, "v"⟩ []
    rw [tags_string_eq_joined]
    simp only [List.map_cons, List.map_nil, List.sum_cons, List.sum_nil] at hl
    simp only [sample_object, osm_gis_export_overview.max_length_tags, List.map_cons,
      List.map_nil]
    have hv : "v".length = 1 := rfl
    omega

/-- C15: the tag serialisation of `add_tags` in osm_gis_export_overview is
not injective, because `=` and `,` inside keys and values are not escaped:
the single tag `a` = `b,c=d` and the two tags `a` = `b`, `c` = `d` are
different tag lists that both give the string `a=b,c=d`, hence the same
`tags` field on every feature, and no function recovers every tag list from
its string. -/
theorem add_tags_not_injective :
    ([⟨"a", "b,c=d"⟩] : List Tag) ≠ [⟨"a", "b"⟩, ⟨"c", "d"⟩] ∧
    osm_gis_export_overview.tags_string (sample_object 1 [⟨"a", "b,c=d"⟩]) = "a=b,c=d" ∧
    osm_gis_export_overview.tags_string (sample_object 1 [⟨"a", "b"⟩, ⟨"c", "d"⟩])
      = "a=b,c=d" ∧
    (∀ feature : Feature,
      osm_gis_export_overview.add_tags feature (sample_object 1 [⟨"a", "b,c=d"⟩])
        = osm_gis_export_overview.add_tags feature
            (sample_object 1 [⟨"a", "b"⟩, ⟨"c", "d"⟩])) ∧
    ¬ Function.Injective
        (fun tags : List Tag =>
          osm_gis_export_overview.tags_string (sample_object 1 tags)) ∧
    ¬ ∃ decode : String → List Tag, ∀ tags : List Tag,
        decode (osm_gis_export_overview.tags_string (sample_object 1 tags)) = tags := by
  have hne : ([⟨"a", "b,c=d"⟩] : List Tag) ≠ [⟨"a", "b"⟩, ⟨"c", "d"⟩] := by decide
  have h₁ : osm_gis_export_overview.tags_string (sample_object 1 [⟨"a", "b,c=d"⟩])
      = "a=b,c=d" := by decide
  have h₂ : osm_gis_export_overview.tags_string (sample_object 1 [⟨"a", "b"⟩, ⟨"c", "d"⟩])
      = "a=b,c=d" := by decide
  refine ⟨hne, h₁, h₂, ?_, ?_, ?_⟩
  · intro feature
    have e : ∀ o : OSMObject, osm_gis_export_overview.add_tags feature o
        = feature.set_field "tags"
            (.c_str (some (osm_gis_export_overview.tags_string o))) := fun _ => rfl
    rw [e, e, h₁, h₂]
  · intro hinj
    exact hne (hinj (h₁.trans h₂.symm))
  · rintro ⟨decode, hdec⟩
    have d₁ := hdec [⟨"a", "b,c=d"⟩]
    have d₂ := hdec [⟨"a", "b"⟩, ⟨"c", "d"⟩]
    rw [h₁] at d₁
    rw [h₂] at d₂
    exact hne (d₁.symm.trans d₂)

/-! ### Layer schemas and the fields set on features -/

theorem overview_add_feature_names (h : osm_gis_export_overview.MyOGRHandler)
    (g : Geometry) (v : FieldValue) (o : OSMObject) :
    (osm_gis_export_overview.add_tags
      (if h.m_cfg.add_metadata = true then
        osm_gis_export_overview.add_metadata
          (Feature.set_field { geometry := g, fields := [] } "id" v) o
      else Feature.set_field { geometry := g, fields := [] } "id" v) o).field_names
      = "id" :: ((if h.m_cfg.add_metadata then metadata_columns else []) ++ ["tags"]) := by
  cases h.m_cfg.add_metadata <;>
    simp [osm_gis_export_overview.add_tags, osm_gis_export_overview.add_metadata,
      Feature.set_field, Feature.field_names, metadata_columns]

theorem overview_add_feature_kept (cfg : osm_gis_export_overview.config)
    (h : osm_gis_export_overview.MyOGRHandler) (l : osm_gis_export_overview.LayerRef)
    (g : Geometry) (v : FieldValue) (o : OSMObject)
    (hk : osm_gis_export_overview.schema_kept cfg h) :
    osm_gis_export_overview.schema_kept cfg
      (osm_gis_export_overview.add_feature h l
        (Feature.set_field { geometry := g, fields := [] } "id" v) o) := by
  obtain ⟨hcfg, h₁, h₂, h₃, hf⟩ := hk
  have hn := overview_add_feature_names h g v o
  rw [hcfg] at hn
  have hs : ∀ (l : Layer) (f : Feature), (l.create_feature f).schema = l.schema :=
    fun _ _ => rfl
  cases l
  · refine ⟨hcfg, (hs _ _).trans h₁, h₂, h₃, ?_⟩
    intro f hmem
    simp only [osm_gis_export_overview.add_feature,
      osm_gis_export_overview.add_to_layer, Layer.create_feature, List.mem_append,
      List.mem_singleton] at hmem
    rcases hmem with (hm | hm) | hm | hm
    · exact hf f (Or.inl hm)
    · rw [hm, hcfg]
      exact hn
    · exact hf f (Or.inr (Or.inl hm))
    · exact hf f (Or.inr (Or.inr hm))
  · refine ⟨hcfg, h₁, (hs _ _).trans h₂, h₃, ?_⟩
    intro f hmem
    simp only [osm_gis_export_overview.add_feature,
      osm_gis_export_overview.add_to_layer, Layer.create_feature, List.mem_append,
      List.mem_singleton] at hmem
    rcases hmem with hm | (hm | hm) | hm
    · exact hf f (Or.inl hm)
    · exact hf f (Or.inr (Or.inl hm))
    · rw [hm, hcfg]
      exact hn
    · exact hf f (Or.inr (Or.inr hm))
  · refine ⟨hcfg, h₁, h₂, (hs _ _).trans h₃, ?_⟩
    intro f hmem
    simp only [osm_gis_export_overview.add_feature,
      osm_gis_export_overview.add_to_layer, Layer.create_feature, List.mem_append,
      List.mem_singleton] at hmem
    rcases hmem with hm | hm | hm | hm
    · exact hf f (Or.inl hm)
    · exact hf f (Or.inr (Or.inl hm))
    · exact hf f (Or.inr (Or.inr hm))
    · rw [hm, hcfg]
      exact hn

theorem overview_handle_kept (cfg : osm_gis_export_overview.config) (F : OGRFactory)
    (s s' : osm_gis_export_overview.State) (item : Item)
    (hk : osm_gis_export_overview.schema_kept cfg s.handler)
    (h : osm_gis_export_overview.handle F s item = .ok s') :
    osm_gis_export_overview.schema_kept cfg s'.handler := by
  cases item with
  | node n =>
    simp only [osm_gis_export_overview.handle, osm_gis_export_overview.node] at h
    split at h
    · split at h
      · cases h
      · cases h
        exact overview_add_feature_kept cfg _ _ _ _ _ hk
    · cases h
      exact hk
  | way w =>
    simp only [osm_gis_export_overview.handle, osm_gis_export_overview.way] at h
    split at h
    · cases h
      exact overview_add_feature_kept cfg _ _ _ _ _ hk
    · cases h
      exact hk
    · cases h
  | relation r =>
    simp only [osm_gis_export_overview.handle] at h
    cases h
    exact hk
  | area a =>
    simp only [osm_gis_export_overview.handle, osm_gis_export_overview.area] at h
    split at h
    · cases h
      exact overview_add_feature_kept cfg _ _ _ _ _ hk
    · cases h
      exact hk
    · cases h

theorem overview_apply_kept (cfg : osm_gis_export_overview.config) (F : OGRFactory)
    (items : List Item) (s : osm_gis_export_overview.State)
    (hk : osm_gis_export_overview.schema_kept cfg s.handler) :
    osm_gis_export_overview.schema_kept cfg
      (osm_gis_export_overview.apply F s items).1.handler := by
  induction items generalizing s with
  | nil => exact hk
  | cons item rest ih =>
    simp only [osm_gis_export_overview.apply]
    cases hh : osm_gis_export_overview.handle F s item with
    | error e => exact hk
    | ok s' => exact ih s' (overview_handle_kept cfg F s s' item hk hh)

theorem overview_create_kept (cfg : osm_gis_export_overview.config) :
    osm_gis_export_overview.schema_kept cfg
      (osm_gis_export_overview.MyOGRHandler.create cfg) := by
  refine ⟨overview_create_cfg cfg, rfl, rfl, rfl, ?_⟩
  intro f hmem
  exfalso
  simp only [osm_gis_export_overview.MyOGRHandler.create] at hmem
  split at hmem <;>
    simp [osm_gis_export_overview.add_metadata_fields, Layer.add_field, Layer.create]
      at hmem

theorem overview_create_field_names (cfg : osm_gis_export_overview.config) :
    (osm_gis_export_overview.MyOGRHandler.create cfg).m_layer_point.field_names
      = ["id", "tags"] ++ (if cfg.add_metadata then metadata_columns else []) ∧
    (osm_gis_export_overview.MyOGRHandler.create cfg).m_layer_linestring.field_names
      = ["id", "tags"] ++ (if cfg.add_metadata then metadata_columns else []) ∧
    (osm_gis_export_overview.MyOGRHandler.create cfg).m_layer_multipolygon.field_names
      = ["id", "tags"] ++ (if cfg.add_metadata then metadata_columns else []) := by
  simp only [osm_gis_export_overview.MyOGRHandler.create]
  cases cfg.add_metadata <;> exact ⟨rfl, rfl, rfl⟩

theorem overview_apply_kept_of_eq (cfg : osm_gis_export_overview.config)
    (F : OGRFactory) (items : List Item) (cerr : List String)
    (r : osm_gis_export_overview.State × Option Exn)
    (h : osm_gis_export_overview.apply F
      { handler := osm_gis_export_overview.MyOGRHandler.create cfg, cerr := cerr } items
        = r) :
    osm_gis_export_overview.schema_kept cfg r.1.handler := by
  rw [← h]
  exact overview_apply_kept cfg F items _ (overview_create_kept cfg)

theorem overview_main_try_kept (W : World) (desc : String)
    (vm : osm_gis_export_overview.variables_map)
    (h : osm_gis_export_overview.MyOGRHandler)
    (hh : (osm_gis_export_overview.main_try W desc (.ok vm)).2.handler = some h) :
    osm_gis_export_overview.schema_kept
      { add_untagged_nodes := vm.add_untagged_nodes, add_metadata := vm.add_metadata,
        verbose := vm.verbose } h := by
  obtain ⟨help, verbose, output, output_format, aun, am, fpt, inf⟩ := vm
  cases help <;> cases verbose <;> cases aun <;> cases am
  all_goals
    simp only [osm_gis_export_overview.main_try, if_true, if_false,
      Bool.false_eq_true] at hh
  all_goals repeat' split at hh
  all_goals simp at hh
  all_goals subst hh
  all_goals try (exact overview_create_kept _)
  all_goals exact overview_apply_kept_of_eq _ _ _ _ _ (by assumption)

theorem overview_kept_schema (cfg : osm_gis_export_overview.config)
    (h : osm_gis_export_overview.MyOGRHandler)
    (hk : osm_gis_export_overview.schema_kept cfg h) :
    (h.m_layer_point.name = "points" ∧ h.m_layer_linestring.name = "lines" ∧
      h.m_layer_multipolygon.name = "areas") ∧
    h.m_layer_point.field_names
      = ["id", "tags"] ++ (if cfg.add_metadata then metadata_columns else []) ∧
    h.m_layer_linestring.field_names
      = ["id", "tags"] ++ (if cfg.add_metadata then metadata_columns else []) ∧
    h.m_layer_multipolygon.field_names
      = ["id", "tags"] ++ (if cfg.add_metadata then metadata_columns else []) := by
  obtain ⟨_, h₁, h₂, h₃, _⟩ := hk
  obtain ⟨n₁, n₂, n₃⟩ := overview_create_field_names cfg
  have c₁ : (osm_gis_export_overview.MyOGRHandler.create cfg).m_layer_point.name
      = "points" := by
    simp only [osm_gis_export_overview.MyOGRHandler.create]
    split <;> rfl
  have c₂ : (osm_gis_export_overview.MyOGRHandler.create cfg).m_layer_linestring.name
      = "lines" := by
    simp only [osm_gis_export_overview.MyOGRHandler.create]
    split <;> rfl
  have c₃ : (osm_gis_export_overview.MyOGRHandler.create cfg).m_layer_multipolygon.name
      = "areas" := by
    simp only [osm_gis_export_overview.MyOGRHandler.create]
    split <;> rfl
  refine ⟨⟨?_, ?_, ?_⟩, ?_, ?_, ?_⟩
  · exact (congrArg Layer.name h₁).trans c₁
  · exact (congrArg Layer.name h₂).trans c₂
  · exact (congrArg Layer.name h₃).trans c₃
  · exact (congrArg Layer.field_names h₁).trans n₁
  · exact (congrArg Layer.field_names h₂).trans n₂
  · exact (congrArg Layer.field_names h₃).trans n₃

/-- C11: the layers the constructors create.  osm_gis_export_overview
creates `points`, `lines` and `areas`, each with the fields `id`, `tags` and
then, exactly when `add_metadata` is set, `version`, `changeset`,
`timestamp`, `uid`, `user`; the handler that `main` builds has this schema
for the `--add-metadata` of the command line.  osmium_toogr2 and
osmium_toogr2_exp create `postboxes` (`id`, `operator`), `roads` (`id`,
`type`) and `buildings` (`id`, `type`); osmium_toogr creates `postboxes`
(`id`, `operator`) and `roads` (`id`, `type`).  The handler classes have no
other layer. -/
theorem layer_schemas (cfg : osm_gis_export_overview.config) :
    (((osm_gis_export_overview.MyOGRHandler.create cfg).m_layer_point.name = "points" ∧
        (osm_gis_export_overview.MyOGRHandler.create cfg).m_layer_linestring.name
          = "lines" ∧
        (osm_gis_export_overview.MyOGRHandler.create cfg).m_layer_multipolygon.name
          = "areas") ∧
      (osm_gis_export_overview.MyOGRHandler.create cfg).m_layer_point.field_names
        = ["id", "tags"]
          ++ (if cfg.add_metadata then
                ["version", "changeset", "timestamp", "uid", "user"] else []) ∧
      (osm_gis_export_overview.MyOGRHandler.create cfg).m_layer_linestring.field_names
        = ["id", "tags"]
          ++ (if cfg.add_metadata then
                ["version", "changeset", "timestamp", "uid", "user"] else []) ∧
      (osm_gis_export_overview.MyOGRHandler.create cfg).m_layer_multipolygon.field_names
        = ["id", "tags"]
          ++ (if cfg.add_metadata then
                ["version", "changeset", "timestamp", "uid", "user"] else [])) ∧
    (∀ (W : World) (desc : String) (vm : osm_gis_export_overview.variables_map)
      (h : osm_gis_export_overview.MyOGRHandler),
      (osm_gis_export_overview.main W desc (.ok vm)).proc.handler = some h →
      (h.m_layer_point.name = "points" ∧ h.m_layer_linestring.name = "lines" ∧
        h.m_layer_multipolygon.name = "areas") ∧
      h.m_layer_point.field_names
        = ["id", "tags"]
          ++ (if vm.add_metadata then
                ["version", "changeset", "timestamp", "uid", "user"] else []) ∧
      h.m_layer_linestring.field_names
        = ["id", "tags"]
          ++ (if vm.add_metadata then
                ["version", "changeset", "timestamp", "uid", "user"] else []) ∧
      h.m_layer_multipolygon.field_names
        = ["id", "tags"]
          ++ (if vm.add_metadata then
                ["version", "changeset", "timestamp", "uid", "user"] else [])) ∧
    (osmium_toogr2.MyOGRHandler.create.m_layer_point.name = "postboxes" ∧
      osmium_toogr2.MyOGRHandler.create.m_layer_point.field_names = ["id", "operator"] ∧
      osmium_toogr2.MyOGRHandler.create.m_layer_linestring.name = "roads" ∧
      osmium_toogr2.MyOGRHandler.create.m_layer_linestring.field_names = ["id", "type"] ∧
      osmium_toogr2.MyOGRHandler.create.m_layer_polygon.name = "buildings" ∧
      osmium_toogr2.MyOGRHandler.create.m_layer_polygon.field_names = ["id", "type"]) ∧
    (osmium_toogr2_exp.MyOGRHandler.create.m_layer_point.name = "postboxes" ∧
      osmium_toogr2_exp.MyOGRHandler.create.m_layer_point.field_names
        = ["id", "operator"] ∧
      osmium_toogr2_exp.MyOGRHandler.create.m_layer_linestring.name = "roads" ∧
      osmium_toogr2_exp.MyOGRHandler.create.m_layer_linestring.field_names
        = ["id", "type"] ∧
      osmium_toogr2_exp.MyOGRHandler.create.m_layer_polygon.name = "buildings" ∧
      osmium_toogr2_exp.MyOGRHandler.create.m_layer_polygon.field_names
        = ["id", "type"]) ∧
    (osmium_toogr.MyOGRHandler.create.m_layer_point.name = "postboxes" ∧
      osmium_toogr.MyOGRHandler.create.m_layer_point.field_names = ["id", "operator"] ∧
      osmium_toogr.MyOGRHandler.create.m_layer_linestring.name = "roads" ∧
      osmium_toogr.MyOGRHandler.create.m_layer_linestring.field_names
        = ["id", "type"]) := by
  refine ⟨overview_kept_schema cfg _ (overview_create_kept cfg), ?_,
    ⟨rfl, rfl, rfl, rfl, rfl, rfl⟩, ⟨rfl, rfl, rfl, rfl, rfl, rfl⟩, ⟨rfl, rfl, rfl, rfl⟩⟩
  intro W desc vm h hh
  have hk : osm_gis_export_overview.schema_kept
      { add_untagged_nodes := vm.add_untagged_nodes, add_metadata := vm.add_metadata,
        verbose := vm.verbose } h := by
    apply overview_main_try_kept W desc vm h
    simp only [osm_gis_export_overview.main] at hh
    rcases hr : osm_gis_export_overview.main_try W desc (.ok vm) with ⟨r, p⟩
    rw [hr] at hh
    cases r <;> exact hh
  exact overview_kept_schema _ h hk

/-! ### The fields of the features of the toogr tools -/

theorem postbox_of_fields (F : OGRFactory) (item : Item) (f : Feature)
    (h : osmium_toogr2.postbox_of F item = some f) :
    ∃ n, item = .node n ∧ get_value_by_key n.tags "amenity" = some "post_box" ∧
      f.fields = [("id", .double_of_int64 n.id),
                  ("operator", .c_str (get_value_by_key n.tags "operator"))] := by
  cases item with
  | node n =>
    simp only [osmium_toogr2.postbox_of] at h
    split at h
    · rename_i ha
      split at h
      · cases h
        exact ⟨n, rfl, ha, rfl⟩
      · cases h
    · cases h
  | way w => cases h
  | relation r => cases h
  | area a => cases h

theorem road_of_fields (F : OGRFactory) (item : Item) (f : Feature)
    (h : osmium_toogr2.road_of F item = some f) :
    ∃ w highway, item = .way w ∧ get_value_by_key w.tags "highway" = some highway ∧
      f.fields = [("id", .double_of_int64 w.id), ("type", .c_str (some highway))] := by
  cases item with
  | node n => cases h
  | way w =>
    simp only [osmium_toogr2.road_of] at h
    split at h
    · rename_i highway hv
      split at h
      · cases h
        exact ⟨w, highway, rfl, hv, rfl⟩
      · cases h
    · cases h
  | relation r => cases h
  | area a => cases h

theorem building_of_fields (F : OGRFactory) (item : Item) (f : Feature)
    (h : osmium_toogr2.building_of F item = some f) :
    ∃ a building, item = .area a ∧ get_value_by_key a.tags "building" = some building ∧
      f.fields = [("id", .double_of_int64 a.id), ("type", .c_str (some building))] := by
  cases item with
  | node n => cases h
  | way w => cases h
  | relation r => cases h
  | area a =>
    simp only [osmium_toogr2.building_of] at h
    split at h
    · rename_i building hv
      split at h
      · cases h
        exact ⟨a, building, rfl, hv, rfl⟩
      · cases h
    · cases h

theorem toList_eq_singleton {α : Type} (o : Option α) (l : List α) (a : α)
    (h : l ++ [a] = l ++ o.toList) : o = some a := by
  have h2 := List.append_cancel_left h
  cases o with
  | none => cases h2
  | some b =>
    simp only [Option.toList, List.cons.injEq, and_true] at h2
    rw [h2]

theorem toogr_handle_effect (F : OGRFactory) (s s' : osmium_toogr.State) (item : Item)
    (h : osmium_toogr.handle F s item = .ok s') :
    (s'.handler.m_layer_point.schema = s.handler.m_layer_point.schema ∧
      s'.handler.m_layer_linestring.schema = s.handler.m_layer_linestring.schema) ∧
    s'.handler.m_layer_point.features
      = s.handler.m_layer_point.features ++ (osmium_toogr2.postbox_of F item).toList ∧
    s'.handler.m_layer_linestring.features
      = s.handler.m_layer_linestring.features ++ (osmium_toogr2.road_of F item).toList := by
  cases item with
  | node n =>
    simp only [osmium_toogr.handle, osmium_toogr.node] at h
    simp only [osmium_toogr2.postbox_of, osmium_toogr2.road_of, osmium_toogr2.building_of]
    cases hv : get_value_by_key n.tags "amenity" with
    | none =>
      rw [hv] at h
      cases h
      simp
    | some amenity =>
      rw [hv] at h
      by_cases ha : amenity = "post_box"
      · subst ha
        simp only [if_true] at h
        cases hp : F.create_point n with
        | error e => rw [hp] at h; cases h
        | ok g =>
          rw [hp] at h
          cases h
          simp [Layer.create_feature, Feature.set_field, Layer.schema]
      · simp only [ha, if_false] at h
        cases h
        simp [ha]
  | way w =>
    simp only [osmium_toogr.handle, osmium_toogr.way] at h
    simp only [osmium_toogr2.postbox_of, osmium_toogr2.road_of, osmium_toogr2.building_of]
    cases hv : get_value_by_key w.tags "highway" with
    | none =>
      rw [hv] at h
      cases h
      simp
    | some highway =>
      rw [hv] at h
      cases hp : F.create_linestring w with
      | error e =>
        rw [hp] at h
        cases e <;> simp at h
        cases h
        simp
      | ok g =>
        rw [hp] at h
        cases h
        simp [Layer.create_feature, Feature.set_field, Layer.schema]
  | relation r =>
    simp only [osmium_toogr.handle] at h
    cases h
    simp [osmium_toogr2.postbox_of, osmium_toogr2.road_of, osmium_toogr2.building_of]
  | area a =>
    simp only [osmium_toogr.handle] at h
    cases h
    simp [osmium_toogr2.postbox_of, osmium_toogr2.road_of]

theorem toogr2_handle_effect (F : OGRFactory) (s s' : osmium_toogr2.State) (item : Item)
    (h : osmium_toogr2.handle F s item = .ok s') :
    (s'.handler.m_layer_point.schema = s.handler.m_layer_point.schema ∧
      s'.handler.m_layer_linestring.schema = s.handler.m_layer_linestring.schema ∧
      s'.handler.m_layer_polygon.schema = s.handler.m_layer_polygon.schema) ∧
    s'.handler.m_layer_point.features
      = s.handler.m_layer_point.features ++ (osmium_toogr2.postbox_of F item).toList ∧
    s'.handler.m_layer_linestring.features
      = s.handler.m_layer_linestring.features ++ (osmium_toogr2.road_of F item).toList ∧
    s'.handler.m_layer_polygon.features
      = s.handler.m_layer_polygon.features ++ (osmium_toogr2.building_of F item).toList := by
  cases item with
  | node n =>
    simp only [osmium_toogr2.handle, osmium_toogr2.node] at h
    simp only [osmium_toogr2.postbox_of, osmium_toogr2.road_of, osmium_toogr2.building_of]
    cases hv : get_value_by_key n.tags "amenity" with
    | none =>
      rw [hv] at h
      cases h
      simp
    | some amenity =>
      rw [hv] at h
      by_cases ha : amenity = "post_box"
      · subst ha
        simp only [if_true] at h
        cases hp : F.create_point n with
        | error e => rw [hp] at h; cases h
        | ok g =>
          rw [hp] at h
          cases h
          simp [Layer.create_feature, Feature.set_field, Layer.schema]
      · simp only [ha, if_false] at h
        cases h
        simp [ha]
  | way w =>
    simp only [osmium_toogr2.handle, osmium_toogr2.way] at h
    simp only [osmium_toogr2.postbox_of, osmium_toogr2.road_of, osmium_toogr2.building_of]
    cases hv : get_value_by_key w.tags "highway" with
    | none =>
      rw [hv] at h
      cases h
      simp
    | some highway =>
      rw [hv] at h
      cases hp : F.create_linestring w with
      | error e =>
        rw [hp] at h
        cases e <;> simp at h
        cases h
        simp
      | ok g =>
        rw [hp] at h
        cases h
        simp [Layer.create_feature, Feature.set_field, Layer.schema]
  | relation r =>
    simp only [osmium_toogr2.handle] at h
    cases h
    simp [osmium_toogr2.postbox_of, osmium_toogr2.road_of, osmium_toogr2.building_of]
  | area a =>
    simp only [osmium_toogr2.handle, osmium_toogr2.area] at h
    simp only [osmium_toogr2.postbox_of, osmium_toogr2.road_of, osmium_toogr2.building_of]
    cases hv : get_value_by_key a.tags "building" with
    | none =>
      rw [hv] at h
      cases h
      simp
    | some building =>
      rw [hv] at h
      cases hp : F.create_multipolygon a with
      | error e =>
        rw [hp] at h
        cases e <;> simp at h
        cases h
        simp
      | ok g =>
        rw [hp] at h
        cases h
        simp [Layer.create_feature, Feature.set_field, Layer.schema]

theorem toogr2_exp_handle_effect (F : OGRFactory) (s s' : osmium_toogr2_exp.State) (item : Item)
    (h : osmium_toogr2_exp.handle F s item = .ok s') :
    (s'.handler.m_layer_point.schema = s.handler.m_layer_point.schema ∧
      s'.handler.m_layer_linestring.schema = s.handler.m_layer_linestring.schema ∧
      s'.handler.m_layer_polygon.schema = s.handler.m_layer_polygon.schema) ∧
    s'.handler.m_layer_point.features
      = s.handler.m_layer_point.features ++ (osmium_toogr2.postbox_of F item).toList ∧
    s'.handler.m_layer_linestring.features
      = s.handler.m_layer_linestring.features ++ (osmium_toogr2.road_of F item).toList ∧
    s'.handler.m_layer_polygon.features
      = s.handler.m_layer_polygon.features ++ (osmium_toogr2.building_of F item).toList := by
  cases item with
  | node n =>
    simp only [osmium_toogr2_exp.handle, osmium_toogr2_exp.node] at h
    simp only [osmium_toogr2.postbox_of, osmium_toogr2.road_of, osmium_toogr2.building_of]
    cases hv : get_value_by_key n.tags "amenity" with
    | none =>
      rw [hv] at h
      cases h
      simp
    | some amenity =>
      rw [hv] at h
      by_cases ha : amenity = "post_box"
      · subst ha
        simp only [if_true] at h
        cases hp : F.create_point n with
        | error e => rw [hp] at h; cases h
        | ok g =>
          rw [hp] at h
          cases h
          simp [Layer.create_feature, Feature.set_field, Layer.schema]
      · simp only [ha, if_false] at h
        cases h
        simp [ha]
  | way w =>
    simp only [osmium_toogr2_exp.handle, osmium_toogr2_exp.way] at h
    simp only [osmium_toogr2.postbox_of, osmium_toogr2.road_of, osmium_toogr2.building_of]
    cases hv : get_value_by_key w.tags "highway" with
    | none =>
      rw [hv] at h
      cases h
      simp
    | some highway =>
      rw [hv] at h
      cases hp : F.create_linestring w with
      | error e =>
        rw [hp] at h
        cases e <;> simp at h
        cases h
        simp
      | ok g =>
        rw [hp] at h
        cases h
        simp [Layer.create_feature, Feature.set_field, Layer.schema]
  | relation r =>
    simp only [osmium_toogr2_exp.handle] at h
    cases h
    simp [osmium_toogr2.postbox_of, osmium_toogr2.road_of, osmium_toogr2.building_of]
  | area a =>
    simp only [osmium_toogr2_exp.handle, osmium_toogr2_exp.area] at h
    simp only [osmium_toogr2.postbox_of, osmium_toogr2.road_of, osmium_toogr2.building_of]
    cases hv : get_value_by_key a.tags "building" with
    | none =>
      rw [hv] at h
      cases h
      simp
    | some building =>
      rw [hv] at h
      cases hp : F.create_multipolygon a with
      | error e =>
        rw [hp] at h
        cases e <;> simp at h
        cases h
        simp
      | ok g =>
        rw [hp] at h
        cases h
        simp [Layer.create_feature, Feature.set_field, Layer.schema]

theorem toogr_node_emitted (F : OGRFactory) (s s' : osmium_toogr.State) (n : OSMObject)
    (f : Feature) (h : osmium_toogr.node F s n = .ok s')
    (hf : s'.handler.m_layer_point.features = s.handler.m_layer_point.features ++ [f]) :
    get_value_by_key n.tags "amenity" = some "post_box" ∧
    f.fields = [("id", .double_of_int64 n.id),
                ("operator", .c_str (get_value_by_key n.tags "operator"))] := by
  have he := (toogr_handle_effect F s s' (.node n) h).2.1
  rw [hf] at he
  obtain ⟨n', e, ha, hfields⟩ := postbox_of_fields F _ f (toList_eq_singleton _ _ _ he)
  cases e
  exact ⟨ha, hfields⟩

theorem toogr_way_emitted (F : OGRFactory) (s s' : osmium_toogr.State) (w : OSMObject)
    (f : Feature) (h : osmium_toogr.way F s w = .ok s')
    (hf : s'.handler.m_layer_linestring.features
      = s.handler.m_layer_linestring.features ++ [f]) :
    ∃ highway, get_value_by_key w.tags "highway" = some highway ∧
      f.fields = [("id", .double_of_int64 w.id), ("type", .c_str (some highway))] := by
  have he := (toogr_handle_effect F s s' (.way w) h).2.2
  rw [hf] at he
  obtain ⟨w', highway, e, hv, hfields⟩ :=
    road_of_fields F _ f (toList_eq_singleton _ _ _ he)
  cases e
  exact ⟨highway, hv, hfields⟩

theorem toogr_node_null_operator (F : OGRFactory) (s : osmium_toogr.State) (n : OSMObject)
    (g : Geometry) (ha : get_value_by_key n.tags "amenity" = some "post_box")
    (hop : get_value_by_key n.tags "operator" = none)
    (hbuild : F.create_point n = .ok g) :
    osmium_toogr.node F s n
      = .ok (osmium_toogr.with_postbox s
          { geometry := g,
            fields := [("id", .double_of_int64 n.id), ("operator", .c_str none)] }) := by
  simp only [osmium_toogr.node, ha, if_true, hbuild, hop]
  rfl

theorem toogr2_node_emitted (F : OGRFactory) (s s' : osmium_toogr2.State) (n : OSMObject)
    (f : Feature) (h : osmium_toogr2.node F s n = .ok s')
    (hf : s'.handler.m_layer_point.features = s.handler.m_layer_point.features ++ [f]) :
    get_value_by_key n.tags "amenity" = some "post_box" ∧
    f.fields = [("id", .double_of_int64 n.id),
                ("operator", .c_str (get_value_by_key n.tags "operator"))] := by
  have he := (toogr2_handle_effect F s s' (.node n) h).2.1
  rw [hf] at he
  obtain ⟨n', e, ha, hfields⟩ := postbox_of_fields F _ f (toList_eq_singleton _ _ _ he)
  cases e
  exact ⟨ha, hfields⟩

theorem toogr2_way_emitted (F : OGRFactory) (s s' : osmium_toogr2.State) (w : OSMObject)
    (f : Feature) (h : osmium_toogr2.way F s w = .ok s')
    (hf : s'.handler.m_layer_linestring.features
      = s.handler.m_layer_linestring.features ++ [f]) :
    ∃ highway, get_value_by_key w.tags "highway" = some highway ∧
      f.fields = [("id", .double_of_int64 w.id), ("type", .c_str (some highway))] := by
  have he := (toogr2_handle_effect F s s' (.way w) h).2.2.1
  rw [hf] at he
  obtain ⟨w', highway, e, hv, hfields⟩ :=
    road_of_fields F _ f (toList_eq_singleton _ _ _ he)
  cases e
  exact ⟨highway, hv, hfields⟩

theorem toogr2_node_null_operator (F : OGRFactory) (s : osmium_toogr2.State) (n : OSMObject)
    (g : Geometry) (ha : get_value_by_key n.tags "amenity" = some "post_box")
    (hop : get_value_by_key n.tags "operator" = none)
    (hbuild : F.create_point n = .ok g) :
    osmium_toogr2.node F s n
      = .ok (osmium_toogr2.with_postbox s
          { geometry := g,
            fields := [("id", .double_of_int64 n.id), ("operator", .c_str none)] }) := by
  simp only [osmium_toogr2.node, ha, if_true, hbuild, hop]
  rfl

theorem toogr2_area_emitted (F : OGRFactory) (s s' : osmium_toogr2.State) (a : Area)
    (f : Feature) (h : osmium_toogr2.area F s a = .ok s')
    (hf : s'.handler.m_layer_polygon.features
      = s.handler.m_layer_polygon.features ++ [f]) :
    ∃ building, get_value_by_key a.tags "building" = some building ∧
      f.fields = [("id", .double_of_int64 a.id), ("type", .c_str (some building))] := by
  have he := (toogr2_handle_effect F s s' (.area a) h).2.2.2
  rw [hf] at he
  obtain ⟨a', building, e, hv, hfields⟩ :=
    building_of_fields F _ f (toList_eq_singleton _ _ _ he)
  cases e
  exact ⟨building, hv, hfields⟩

theorem toogr2_exp_node_emitted (F : OGRFactory) (s s' : osmium_toogr2_exp.State) (n : OSMObject)
    (f : Feature) (h : osmium_toogr2_exp.node F s n = .ok s')
    (hf : s'.handler.m_layer_point.features = s.handler.m_layer_point.features ++ [f]) :
    get_value_by_key n.tags "amenity" = some "post_box" ∧
    f.fields = [("id", .double_of_int64 n.id),
                ("operator", .c_str (get_value_by_key n.tags "operator"))] := by
  have he := (toogr2_exp_handle_effect F s s' (.node n) h).2.1
  rw [hf] at he
  obtain ⟨n', e, ha, hfields⟩ := postbox_of_fields F _ f (toList_eq_singleton _ _ _ he)
  cases e
  exact ⟨ha, hfields⟩

theorem toogr2_exp_way_emitted (F : OGRFactory) (s s' : osmium_toogr2_exp.State) (w : OSMObject)
    (f : Feature) (h : osmium_toogr2_exp.way F s w = .ok s')
    (hf : s'.handler.m_layer_linestring.features
      = s.handler.m_layer_linestring.features ++ [f]) :
    ∃ highway, get_value_by_key w.tags "highway" = some highway ∧
      f.fields = [("id", .double_of_int64 w.id), ("type", .c_str (some highway))] := by
  have he := (toogr2_exp_handle_effect F s s' (.way w) h).2.2.1
  rw [hf] at he
  obtain ⟨w', highway, e, hv, hfields⟩ :=
    road_of_fields F _ f (toList_eq_singleton _ _ _ he)
  cases e
  exact ⟨highway, hv, hfields⟩

theorem toogr2_exp_node_null_operator (F : OGRFactory) (s : osmium_toogr2_exp.State) (n : OSMObject)
    (g : Geometry) (ha : get_value_by_key n.tags "amenity" = some "post_box")
    (hop : get_value_by_key n.tags "operator" = none)
    (hbuild : F.create_point n = .ok g) :
    osmium_toogr2_exp.node F s n
      = .ok (osmium_toogr2_exp.with_postbox s
          { geometry := g,
            fields := [("id", .double_of_int64 n.id), ("operator", .c_str none)] }) := by
  simp only [osmium_toogr2_exp.node, ha, if_true, hbuild, hop]
  rfl

theorem toogr2_exp_area_emitted (F : OGRFactory) (s s' : osmium_toogr2_exp.State) (a : Area)
    (f : Feature) (h : osmium_toogr2_exp.area F s a = .ok s')
    (hf : s'.handler.m_layer_polygon.features
      = s.handler.m_layer_polygon.features ++ [f]) :
    ∃ building, get_value_by_key a.tags "building" = some building ∧
      f.fields = [("id", .double_of_int64 a.id), ("type", .c_str (some building))] := by
  have he := (toogr2_exp_handle_effect F s s' (.area a) h).2.2.2
  rw [hf] at he
  obtain ⟨a', building, e, hv, hfields⟩ :=
    building_of_fields F _ f (toList_eq_singleton _ _ _ he)
  cases e
  exact ⟨building, hv, hfields⟩

/-- C13: in osmium_toogr, osmium_toogr2 and osmium_toogr2_exp every feature a
callback adds carries, after `id`, its string field taken from the tag of the
same object: `operator` of a postbox is the value of the `operator` tag of
the node (the null pointer when the node has none), `type` of a road is the
value of the `highway` tag of the way, `type` of a building is the value of
the `building` tag of the area.  A `post_box` node without an `operator` tag
whose point is built is emitted, with the null pointer as `operator`. -/
theorem type_specific_fields (F : OGRFactory) (n w : OSMObject) (a : Area)
    (f : Feature) :
    ((∀ (s s' : osmium_toogr.State),
        osmium_toogr.node F s n = .ok s' →
        s'.handler.m_layer_point.features = s.handler.m_layer_point.features ++ [f] →
        f.fields = [("id", .double_of_int64 n.id),
                    ("operator", .c_str (get_value_by_key n.tags "operator"))]) ∧
      (∀ (s s' : osmium_toogr.State),
        osmium_toogr.way F s w = .ok s' →
        s'.handler.m_layer_linestring.features
          = s.handler.m_layer_linestring.features ++ [f] →
        ∃ highway, get_value_by_key w.tags "highway" = some highway ∧
          f.fields = [("id", .double_of_int64 w.id), ("type", .c_str (some highway))]) ∧
      (∀ (s : osmium_toogr.State) (g : Geometry),
        get_value_by_key n.tags "amenity" = some "post_box" →
        get_value_by_key n.tags "operator" = none →
        F.create_point n = .ok g →
        osmium_toogr.node F s n
          = .ok (osmium_toogr.with_postbox s
              { geometry := g,
                fields := [("id", .double_of_int64 n.id), ("operator", .c_str none)] }))) ∧
    ((∀ (s s' : osmium_toogr2.State),
        osmium_toogr2.node F s n = .ok s' →
        s'.handler.m_layer_point.features = s.handler.m_layer_point.features ++ [f] →
        f.fields = [("id", .double_of_int64 n.id),
                    ("operator", .c_str (get_value_by_key n.tags "operator"))]) ∧
      (∀ (s s' : osmium_toogr2.State),
        osmium_toogr2.way F s w = .ok s' →
        s'.handler.m_layer_linestring.features
          = s.handler.m_layer_linestring.features ++ [f] →
        ∃ highway, get_value_by_key w.tags "highway" = some highway ∧
          f.fields = [("id", .double_of_int64 w.id), ("type", .c_str (some highway))]) ∧
      (∀ (s s' : osmium_toogr2.State),
        osmium_toogr2.area F s a = .ok s' →
        s'.handler.m_layer_polygon.features
          = s.handler.m_layer_polygon.features ++ [f] →
        ∃ building, get_value_by_key a.tags "building" = some building ∧
          f.fields = [("id", .double_of_int64 a.id), ("type", .c_str (some building))]) ∧
      (∀ (s : osmium_toogr2.State) (g : Geometry),
        get_value_by_key n.tags "amenity" = some "post_box" →
        get_value_by_key n.tags "operator" = none →
        F.create_point n = .ok g →
        osmium_toogr2.node F s n
          = .ok (osmium_toogr2.with_postbox s
              { geometry := g,
                fields := [("id", .double_of_int64 n.id), ("operator", .c_str none)] }))) ∧
    ((∀ (s s' : osmium_toogr2_exp.State),
        osmium_toogr2_exp.node F s n = .ok s' →
        s'.handler.m_layer_point.features = s.handler.m_layer_point.features ++ [f] →
        f.fields = [("id", .double_of_int64 n.id),
                    ("operator", .c_str (get_value_by_key n.tags "operator"))]) ∧
      (∀ (s s' : osmium_toogr2_exp.State),
        osmium_toogr2_exp.way F s w = .ok s' →
        s'.handler.m_layer_linestring.features
          = s.handler.m_layer_linestring.features ++ [f] →
        ∃ highway, get_value_by_key w.tags "highway" = some highway ∧
          f.fields = [("id", .double_of_int64 w.id), ("type", .c_str (some highway))]) ∧
      (∀ (s s' : osmium_toogr2_exp.State),
        osmium_toogr2_exp.area F s a = .ok s' →
        s'.handler.m_layer_polygon.features
          = s.handler.m_layer_polygon.features ++ [f] →
        ∃ building, get_value_by_key a.tags "building" = some building ∧
          f.fields = [("id", .double_of_int64 a.id), ("type", .c_str (some building))]) ∧
      (∀ (s : osmium_toogr2_exp.State) (g : Geometry),
        get_value_by_key n.tags "amenity" = some "post_box" →
        get_value_by_key n.tags "operator" = none →
        F.create_point n = .ok g →
        osmium_toogr2_exp.node F s n
          = .ok (osmium_toogr2_exp.with_postbox s
              { geometry := g,
                fields := [("id", .double_of_int64 n.id), ("operator", .c_str none)] }))) := by
  exact ⟨⟨fun s s' h hf => (toogr_node_emitted F s s' n f h hf).2,
      fun s s' h hf => toogr_way_emitted F s s' w f h hf,
      fun s g ha hop hb => toogr_node_null_operator F s n g ha hop hb⟩,
    ⟨fun s s' h hf => (toogr2_node_emitted F s s' n f h hf).2,
      fun s s' h hf => toogr2_way_emitted F s s' w f h hf,
      fun s s' h hf => toogr2_area_emitted F s s' a f h hf,
      fun s g ha hop hb => toogr2_node_null_operator F s n g ha hop hb⟩,
    ⟨fun s s' h hf => (toogr2_exp_node_emitted F s s' n f h hf).2,
      fun s s' h hf => toogr2_exp_way_emitted F s s' w f h hf,
      fun s s' h hf => toogr2_exp_area_emitted F s s' a f h hf,
      fun s g ha hop hb => toogr2_exp_node_null_operator F s n g ha hop hb⟩⟩

theorem type_specific_fields_witness :
    osmium_toogr2.node sample_factory
        { handler := osmium_toogr2.MyOGRHandler.create, cerr := [] }
        (sample_object 2 [⟨"amenity", "post_box"⟩])
      = .ok (osmium_toogr2.with_postbox
          { handler := osmium_toogr2.MyOGRHandler.create, cerr := [] }
          { geometry := ⟨"POINT"⟩,
            fields := [("id", .double_of_int64 2), ("operator", .c_str none)] }) :=
  (type_specific_fields sample_factory (sample_object 2 [⟨"amenity", "post_box"⟩])
    (sample_object 3 []) (sample_area 4 [] 2)
    { geometry := ⟨"POINT"⟩, fields := [] }).2.1.2.2.2
    { handler := osmium_toogr2.MyOGRHandler.create, cerr := [] } ⟨"POINT"⟩ rfl rfl rfl

/-! ### The fields set on a feature and the fields declared on its layer -/

theorem names_are_append (l l' : Layer) (o : Option Feature) (names : List String)
    (hk : names_are l names) (hfeat : l'.features = l.features ++ o.toList)
    (ho : ∀ f, o = some f → f.field_names = names) : names_are l' names := by
  intro f hf
  rw [hfeat, List.mem_append] at hf
  rcases hf with hf | hf
  · exact hk f hf
  · cases o with
    | none => cases hf
    | some g =>
      simp only [Option.toList, List.mem_singleton] at hf
      rw [hf]
      exact ho g rfl

theorem fields_match_of (l c : Layer) (names : List String)
    (hs : l.schema = c.schema) (hn : names_are l names)
    (hnames : ∀ x, x ∈ names ↔ x ∈ c.field_names) : fields_match l := by
  intro f hf x
  have hfn : l.schema.field_names = c.schema.field_names :=
    congrArg Layer.field_names hs
  have hfn : l.field_names = c.field_names := hfn
  rw [hn f hf, hfn]
  exact hnames x

theorem toogr_handle_kept (F : OGRFactory) (s s' : osmium_toogr.State) (item : Item)
    (hk : osmium_toogr.schema_kept s.handler) (h : osmium_toogr.handle F s item = .ok s') :
    osmium_toogr.schema_kept s'.handler := by
  obtain ⟨k₁, k₂, n₁, n₂⟩ := hk
  obtain ⟨⟨e₁, e₂⟩, f₁, f₂⟩ := toogr_handle_effect F s s' item h
  refine ⟨e₁.trans k₁, e₂.trans k₂, ?_, ?_⟩
  · exact names_are_append _ _ _ _ n₁ f₁ (fun f hf => by
      obtain ⟨_, _, _, hfields⟩ := postbox_of_fields F item f hf
      simp [Feature.field_names, hfields])
  · exact names_are_append _ _ _ _ n₂ f₂ (fun f hf => by
      obtain ⟨_, _, _, _, hfields⟩ := road_of_fields F item f hf
      simp [Feature.field_names, hfields])

theorem toogr_create_kept : osmium_toogr.schema_kept osmium_toogr.MyOGRHandler.create := by
  refine ⟨rfl, rfl, ?_, ?_⟩ <;> intro f hf <;> cases hf

theorem toogr_kept_fields_match (h : osmium_toogr.MyOGRHandler)
    (hk : osmium_toogr.schema_kept h) :
    fields_match h.m_layer_point ∧ fields_match h.m_layer_linestring := by
  obtain ⟨k₁, k₂, n₁, n₂⟩ := hk
  exact ⟨fields_match_of _ _ _ k₁ n₁ (fun _ => Iff.rfl),
    fields_match_of _ _ _ k₂ n₂ (fun _ => Iff.rfl)⟩

theorem toogr_apply_kept (F : OGRFactory) (items : List Item) (s : osmium_toogr.State)
    (hk : osmium_toogr.schema_kept s.handler) :
    osmium_toogr.schema_kept (osmium_toogr.apply F s items).1.handler := by
  induction items generalizing s with
  | nil => exact hk
  | cons item rest ih =>
    simp only [osmium_toogr.apply]
    cases hh : osmium_toogr.handle F s item with
    | error e => exact hk
    | ok s' => exact ih s' (toogr_handle_kept F s s' item hk hh)

theorem toogr2_handle_kept (F : OGRFactory) (s s' : osmium_toogr2.State) (item : Item)
    (hk : osmium_toogr2.schema_kept s.handler) (h : osmium_toogr2.handle F s item = .ok s') :
    osmium_toogr2.schema_kept s'.handler := by
  obtain ⟨k₁, k₂, k₃, n₁, n₂, n₃⟩ := hk
  obtain ⟨⟨e₁, e₂, e₃⟩, f₁, f₂, f₃⟩ := toogr2_handle_effect F s s' item h
  refine ⟨e₁.trans k₁, e₂.trans k₂, e₃.trans k₃, ?_, ?_, ?_⟩
  · exact names_are_append _ _ _ _ n₁ f₁ (fun f hf => by
      obtain ⟨_, _, _, hfields⟩ := postbox_of_fields F item f hf
      simp [Feature.field_names, hfields])
  · exact names_are_append _ _ _ _ n₂ f₂ (fun f hf => by
      obtain ⟨_, _, _, _, hfields⟩ := road_of_fields F item f hf
      simp [Feature.field_names, hfields])
  · exact names_are_append _ _ _ _ n₃ f₃ (fun f hf => by
      obtain ⟨_, _, _, _, hfields⟩ := building_of_fields F item f hf
      simp [Feature.field_names, hfields])

theorem toogr2_create_kept : osmium_toogr2.schema_kept osmium_toogr2.MyOGRHandler.create := by
  refine ⟨rfl, rfl, rfl, ?_, ?_, ?_⟩ <;> intro f hf <;> cases hf

theorem toogr2_kept_fields_match (h : osmium_toogr2.MyOGRHandler)
    (hk : osmium_toogr2.schema_kept h) :
    fields_match h.m_layer_point ∧ fields_match h.m_layer_linestring ∧
    fields_match h.m_layer_polygon := by
  obtain ⟨k₁, k₂, k₃, n₁, n₂, n₃⟩ := hk
  exact ⟨fields_match_of _ _ _ k₁ n₁ (fun _ => Iff.rfl),
    fields_match_of _ _ _ k₂ n₂ (fun _ => Iff.rfl),
    fields_match_of _ _ _ k₃ n₃ (fun _ => Iff.rfl)⟩

theorem toogr2_apply_kept (F : OGRFactory) (items : List Item) (s : osmium_toogr2.State)
    (hk : osmium_toogr2.schema_kept s.handler) :
    osmium_toogr2.schema_kept (osmium_toogr2.apply F s items).1.handler := by
  induction items generalizing s with
  | nil => exact hk
  | cons item rest ih =>
    simp only [osmium_toogr2.apply]
    cases hh : osmium_toogr2.handle F s item with
    | error e => exact hk
    | ok s' => exact ih s' (toogr2_handle_kept F s s' item hk hh)

theorem toogr2_exp_handle_kept (F : OGRFactory) (s s' : osmium_toogr2_exp.State) (item : Item)
    (hk : osmium_toogr2_exp.schema_kept s.handler) (h : osmium_toogr2_exp.handle F s item = .ok s') :
    osmium_toogr2_exp.schema_kept s'.handler := by
  obtain ⟨k₁, k₂, k₃, n₁, n₂, n₃⟩ := hk
  obtain ⟨⟨e₁, e₂, e₃⟩, f₁, f₂, f₃⟩ := toogr2_exp_handle_effect F s s' item h
  refine ⟨e₁.trans k₁, e₂.trans k₂, e₃.trans k₃, ?_, ?_, ?_⟩
  · exact names_are_append _ _ _ _ n₁ f₁ (fun f hf => by
      obtain ⟨_, _, _, hfields⟩ := postbox_of_fields F item f hf
      simp [Feature.field_names, hfields])
  · exact names_are_append _ _ _ _ n₂ f₂ (fun f hf => by
      obtain ⟨_, _, _, _, hfields⟩ := road_of_fields F item f hf
      simp [Feature.field_names, hfields])
  · exact names_are_append _ _ _ _ n₃ f₃ (fun f hf => by
      obtain ⟨_, _, _, _, hfields⟩ := building_of_fields F item f hf
      simp [Feature.field_names, hfields])

theorem toogr2_exp_create_kept : osmium_toogr2_exp.schema_kept osmium_toogr2_exp.MyOGRHandler.create := by
  refine ⟨rfl, rfl, rfl, ?_, ?_, ?_⟩ <;> intro f hf <;> cases hf

theorem toogr2_exp_kept_fields_match (h : osmium_toogr2_exp.MyOGRHandler)
    (hk : osmium_toogr2_exp.schema_kept h) :
    fields_match h.m_layer_point ∧ fields_match h.m_layer_linestring ∧
    fields_match h.m_layer_polygon := by
  obtain ⟨k₁, k₂, k₃, n₁, n₂, n₃⟩ := hk
  exact ⟨fields_match_of _ _ _ k₁ n₁ (fun _ => Iff.rfl),
    fields_match_of _ _ _ k₂ n₂ (fun _ => Iff.rfl),
    fields_match_of _ _ _ k₃ n₃ (fun _ => Iff.rfl)⟩

theorem toogr2_exp_apply_kept (F : OGRFactory) (items : List Item) (s : osmium_toogr2_exp.State)
    (hk : osmium_toogr2_exp.schema_kept s.handler) :
    osmium_toogr2_exp.schema_kept (osmium_toogr2_exp.apply F s items).1.handler := by
  induction items generalizing s with
  | nil => exact hk
  | cons item rest ih =>
    simp only [osmium_toogr2_exp.apply]
    cases hh : osmium_toogr2_exp.handle F s item with
    | error e => exact hk
    | ok s' => exact ih s' (toogr2_exp_handle_kept F s s' item hk hh)

theorem overview_kept_fields_match (cfg : osm_gis_export_overview.config)
    (h : osm_gis_export_overview.MyOGRHandler)
    (hk : osm_gis_export_overview.schema_kept cfg h) :
    (fields_match h.m_layer_point ∧ fields_match h.m_layer_linestring ∧
      fields_match h.m_layer_multipolygon) ∧
    (∀ f, (f ∈ h.m_layer_point.features ∨ f ∈ h.m_layer_linestring.features
        ∨ f ∈ h.m_layer_multipolygon.features) →
      "id" ∈ f.field_names ∧ "tags" ∈ f.field_names ∧
      ∀ m ∈ metadata_columns, (m ∈ f.field_names ↔ cfg.add_metadata = true)) ∧
    (∀ m ∈ metadata_columns,
      (m ∈ h.m_layer_point.field_names ↔ cfg.add_metadata = true) ∧
      (m ∈ h.m_layer_linestring.field_names ↔ cfg.add_metadata = true) ∧
      (m ∈ h.m_layer_multipolygon.field_names ↔ cfg.add_metadata = true)) := by
  obtain ⟨_, n₁, n₂, n₃⟩ := overview_kept_schema cfg h hk
  obtain ⟨_, _, _, _, hf⟩ := hk
  have key : ∀ x : String,
      x ∈ "id" :: ((if cfg.add_metadata = true then metadata_columns else []) ++ ["tags"])
        ↔ x ∈ ["id", "tags"] ++ (if cfg.add_metadata = true then metadata_columns else []) := by
    intro x
    cases cfg.add_metadata
    · simp
    · simp [metadata_columns]
      tauto
  have hmd : ∀ m ∈ metadata_columns,
      (m ∈ ["id", "tags"] ++ (if cfg.add_metadata = true then metadata_columns else [])
        ↔ cfg.add_metadata = true) := by
    intro m hm
    simp only [metadata_columns, List.mem_cons, List.mem_singleton, List.not_mem_nil,
      or_false] at hm
    cases cfg.add_metadata
    · rcases hm with rfl | rfl | rfl | rfl | rfl <;> simp
    · rcases hm with rfl | rfl | rfl | rfl | rfl <;> simp [metadata_columns]
  refine ⟨⟨?_, ?_, ?_⟩, ?_, ?_⟩
  · intro f hmem x
    rw [hf f (Or.inl hmem), n₁]
    exact key x
  · intro f hmem x
    rw [hf f (Or.inr (Or.inl hmem)), n₂]
    exact key x
  · intro f hmem x
    rw [hf f (Or.inr (Or.inr hmem)), n₃]
    exact key x
  · intro f hmem
    rw [hf f hmem]
    refine ⟨by simp, by simp, ?_⟩
    intro m hm
    rw [key]
    exact hmd m hm
  · intro m hm
    rw [n₁, n₂, n₃]
    exact ⟨hmd m hm, hmd m hm, hmd m hm⟩

/-- C16: in every tool and for every configuration, after any run of the
callbacks from the state the constructor leaves, every feature of every
layer has exactly the field names set that the constructor declared on that
layer.  In osm_gis_export_overview every feature has `id` and `tags` set, and
each of the five metadata fields is set on a feature if and only if
`add_metadata` is set, which is when the constructor declared it. -/
theorem fields_set_are_fields_declared (F : OGRFactory)
    (cfg : osm_gis_export_overview.config) (cerr : List String) (items : List Item)
    (h₀ : osm_gis_export_overview.MyOGRHandler) (h₁ : osmium_toogr.MyOGRHandler)
    (h₂ : osmium_toogr2.MyOGRHandler) (h₃ : osmium_toogr2_exp.MyOGRHandler)
    (e₀ : (osm_gis_export_overview.apply F
      { handler := osm_gis_export_overview.MyOGRHandler.create cfg, cerr := cerr }
      items).1.handler = h₀)
    (e₁ : (osmium_toogr.apply F
      { handler := osmium_toogr.MyOGRHandler.create, cerr := cerr } items).1.handler = h₁)
    (e₂ : (osmium_toogr2.apply F
      { handler := osmium_toogr2.MyOGRHandler.create, cerr := cerr } items).1.handler = h₂)
    (e₃ : (osmium_toogr2_exp.apply F
      { handler := osmium_toogr2_exp.MyOGRHandler.create, cerr := cerr }
      items).1.handler = h₃) :
    ((fields_match h₀.m_layer_point ∧ fields_match h₀.m_layer_linestring ∧
        fields_match h₀.m_layer_multipolygon) ∧
      (∀ f, (f ∈ h₀.m_layer_point.features ∨ f ∈ h₀.m_layer_linestring.features
          ∨ f ∈ h₀.m_layer_multipolygon.features) →
        "id" ∈ f.field_names ∧ "tags" ∈ f.field_names ∧
        ∀ m ∈ ["version", "changeset", "timestamp", "uid", "user"],
          (m ∈ f.field_names ↔ cfg.add_metadata = true)) ∧
      (∀ m ∈ ["version", "changeset", "timestamp", "uid", "user"],
        (m ∈ h₀.m_layer_point.field_names ↔ cfg.add_metadata = true) ∧
        (m ∈ h₀.m_layer_linestring.field_names ↔ cfg.add_metadata = true) ∧
        (m ∈ h₀.m_layer_multipolygon.field_names ↔ cfg.add_metadata = true))) ∧
    (fields_match h₁.m_layer_point ∧ fields_match h₁.m_layer_linestring) ∧
    (fields_match h₂.m_layer_point ∧ fields_match h₂.m_layer_linestring ∧
      fields_match h₂.m_layer_polygon) ∧
    (fields_match h₃.m_layer_point ∧ fields_match h₃.m_layer_linestring ∧
      fields_match h₃.m_layer_polygon) := by
  subst e₀ e₁ e₂ e₃
  exact ⟨overview_kept_fields_match cfg _
      (overview_apply_kept cfg F items _ (overview_create_kept cfg)),
    toogr_kept_fields_match _ (toogr_apply_kept F items _ toogr_create_kept),
    toogr2_kept_fields_match _ (toogr2_apply_kept F items _ toogr2_create_kept),
    toogr2_exp_kept_fields_match _
      (toogr2_exp_apply_kept F items _ toogr2_exp_create_kept)⟩

theorem fields_set_are_fields_declared_witness :
    fields_match
      (osm_gis_export_overview.apply sample_factory
        { handler := osm_gis_export_overview.MyOGRHandler.create { add_metadata := true },
          cerr := [] }
        [.node (sample_object 2 [⟨"amenity", "post_box"⟩]),
         .way (sample_object 3 [⟨"highway", "primary"⟩]),
         .area (sample_area 4 [⟨"building", "yes"⟩] 2)]).1.handler.m_layer_linestring :=
  (fields_set_are_fields_declared sample_factory { add_metadata := true } []
    [.node (sample_object 2 [⟨"amenity", "post_box"⟩]),
     .way (sample_object 3 [⟨"highway", "primary"⟩]),
     .area (sample_area 4 [⟨"building", "yes"⟩] 2)]
    _ _ _ _ rfl rfl rfl rfl).1.1.2.1

end OsmGisExport
